import Mathlib

/-!
# graminSeva: complaint lifecycle and technician workload

A shallow embedding of the complaint engine of the graminSeva portal:

* `backend/models/Complaint.js`   (schema, `pre('validate')` and `pre('save')` hooks)
* `backend/models/Technician.js`  (schema, `updateAvgResolutionTime`)
* `backend/controllers/complaintController.js`
  (`createComplaint`, `updateComplaintStatus`, `assignComplaint`,
  `resolveComplaint`, `addInternalNote`)
* `backend/controllers/technicianController.js` (`deleteTechnician`)
* `backend/controllers/reportController.js`
  (`getMonthlyReport`, `getDashboardOverview`)

Modelling conventions.

* A `Date` is the integer number of milliseconds since the epoch.  Every
  handler receives the clock reading `now` of the request; the few
  `new Date()` / `Date.now` reads made while serving one request are
  identified with it.
* A JavaScript `Number` that the engine only ever adds 1 to, subtracts 1 from
  or rounds is an `Int`.  `Math.round (n / d)` for integers `n`, `d > 0` is
  `(2 * n + d) / (2 * d)` with floor division (ties go toward +infinity); the
  quotients met here are far below 2^52, where the double computation is exact.
* A collection is the list of its documents; `findById` returns the first
  document carrying the id, `save` overwrites the document carrying the id.
* A field that may be absent (`undefined` / `null`) is an `Option`.
* The `updatedAt` bookkeeping field of `timestamps: true` is read nowhere in
  the repository and is left out.
* Request values are taken after schema casting: a status, category or
  priority is a member of the schema enumeration and a date is a valid instant
  (any other value makes `save` reject the document and the handler answer 500
  without a write).
-/

namespace GraminSeva

/-! ## Data model -/

/-- A document id (`mongoose.Schema.Types.ObjectId`). -/
abbrev ObjectId := Nat

/-- The `category` enumeration of both schemas. -/
inductive Category
  | water | electricity | roads | sanitation | drainage | streetlight | other
  deriving DecidableEq, Repr

/-- The `status` enumeration of `complaintSchema`. -/
inductive Status
  | submitted | assigned | inProgress | resolved | rejected
  deriving DecidableEq, Repr

/-- The `priority` enumeration of `complaintSchema`. -/
inductive Priority
  | low | medium | high | urgent
  deriving DecidableEq, Repr

/-- The string stored for a category. -/
def Category.toString : Category → String
  | .water => "water"
  | .electricity => "electricity"
  | .roads => "roads"
  | .sanitation => "sanitation"
  | .drainage => "drainage"
  | .streetlight => "streetlight"
  | .other => "other"

/-- An element of `images` / `resolutionImages`. -/
structure Image where
  url : String
  filename : String
  uploadedAt : Int
  deriving DecidableEq, Repr

/-- The `location` sub-document; the coordinates are carried, never computed on. -/
structure Location where
  latitude : Int
  longitude : Int
  address : Option String
  deriving DecidableEq, Repr

/-- An element of `internalNotes`. -/
structure InternalNote where
  note : String
  addedBy : ObjectId
  addedAt : Int
  deriving DecidableEq, Repr

/-- An element of `statusHistory`. -/
structure StatusChange where
  status : Status
  changedAt : Int
  changedBy : ObjectId
  deriving DecidableEq, Repr

/-- A document of `complaintSchema`. -/
structure Complaint where
  _id : ObjectId
  complaintId : String
  category : Category
  description : String
  images : List Image
  location : Location
  citizenPhone : String
  citizenName : Option String
  status : Status
  priority : Priority
  assignedTo : Option ObjectId
  assignedAt : Option Int
  resolvedAt : Option Int
  resolutionNotes : Option String
  resolutionImages : List Image
  internalNotes : List InternalNote
  statusHistory : List StatusChange
  estimatedResolutionTime : Option Int
  actualResolutionTime : Option Int
  createdAt : Option Int
  deriving DecidableEq, Repr

/-- A document of `technicianSchema`. -/
structure Technician where
  _id : ObjectId
  userId : ObjectId
  name : String
  phone : String
  specialization : List Category
  activeComplaints : Int
  resolvedCount : Int
  avgResolutionTime : Int
  totalResolutionTime : Int
  isAvailable : Bool
  rating : Int
  totalRatings : Int
  deriving DecidableEq, Repr

/-- The record store: the two collections. -/
structure Store where
  complaints : List Complaint
  technicians : List Technician
  deriving DecidableEq, Repr

/-- What a handler sends back: `res.json(..)` (status 200) with the complaint
and a message, or `res.status(code).json({ error })`. -/
inductive Response
  | json (status : Nat) (complaint : Complaint) (message : String)
  | error (status : Nat) (error : String)
  deriving DecidableEq, Repr

/-! ## Schema defaults -/

/-- A technician as `new Technician({ userId, name, phone, specialization })`
leaves it: every counter at its schema default. -/
def Technician.create (id userId : ObjectId) (name phone : String)
    (specialization : List Category) : Technician :=
  { _id := id, userId := userId, name := name, phone := phone
    specialization := specialization
    activeComplaints := 0, resolvedCount := 0
    avgResolutionTime := 0, totalResolutionTime := 0
    isAvailable := true, rating := 0, totalRatings := 0 }

/-- A complaint as `createComplaint` stores it (the identifier string is
supplied by the caller of this definition): status `submitted`, the history
seeded with one entry, nothing assigned or resolved. -/
def Complaint.create (id : ObjectId) (complaintId : String) (category : Category)
    (description : String) (location : Location) (citizenPhone : String)
    (citizenName : Option String) (priority : Option Priority)
    (userId : ObjectId) (now : Int) : Complaint :=
  { _id := id, complaintId := complaintId, category := category
    description := description, images := [], location := location
    citizenPhone := citizenPhone, citizenName := citizenName
    status := .submitted
    priority := priority.getD .medium
    assignedTo := none, assignedAt := none, resolvedAt := none
    resolutionNotes := none, resolutionImages := []
    internalNotes := []
    statusHistory := [{ status := .submitted, changedAt := now, changedBy := userId }]
    estimatedResolutionTime := none, actualResolutionTime := none
    createdAt := some now }

/-! ## Record store primitives -/

/-- The `Complaint.findById(id)` lookup. -/
def Store.findComplaintById (s : Store) (id : ObjectId) : Option Complaint :=
  s.complaints.find? (fun c => c._id == id)

/-- The `Technician.findById(id)` lookup. -/
def Store.findTechnicianById (s : Store) (id : ObjectId) : Option Technician :=
  s.technicians.find? (fun t => t._id == id)

/-- Writing a loaded complaint back (`complaint.save()`). -/
def Store.saveComplaint (s : Store) (c : Complaint) : Store :=
  { s with complaints := s.complaints.map (fun d => if d._id = c._id then c else d) }

/-- Writing a loaded technician back (`technician.save()`). -/
def Store.saveTechnician (s : Store) (t : Technician) : Store :=
  { s with technicians := s.technicians.map (fun d => if d._id = t._id then t else d) }

/-- The count `Complaint.countDocuments({ assignedTo: id, status: { $in:
['assigned', 'in-progress'] } })` used by `seed.js` and `deleteTechnician`. -/
def Store.countActive (s : Store) (id : ObjectId) : Nat :=
  (s.complaints.filter (fun c =>
    decide (c.assignedTo = some id) &&
      (decide (c.status = .assigned) || decide (c.status = .inProgress)))).length

/-! ## Numeric helpers -/

/-- The value `Math.round(n / d)` for integers `n` and `d > 0`. -/
def mathRoundDiv (n d : Int) : Int := (2 * n + d) / (2 * d)

/-- Milliseconds in an hour, `1000 * 60 * 60`. -/
def msPerHour : Int := 1000 * 60 * 60

/-- JavaScript truthiness of an optional number: set, and not 0. -/
def truthyNumber : Option Int → Bool
  | some n => n != 0
  | none => false

/-- JavaScript truthiness of an optional string: set, and not empty. -/
def truthyString : Option String → Bool
  | some s => s != ""
  | none => false

/-! ## Model hooks and methods -/

/-- The hook `complaintSchema.pre('save')`.  `orig` is the document as loaded,
`c` the document about to be written; `isModified('status')` holds when the
status assigned differs from the loaded one. -/
def preSave (orig c : Complaint) (now : Int) : Complaint :=
  if c.status ≠ orig.status ∧ c.status = .resolved ∧ c.resolvedAt = none then
    match c.createdAt with
    | some created =>
      { c with resolvedAt := some now
               actualResolutionTime := some (mathRoundDiv (now - created) msPerHour) }
    | none => { c with resolvedAt := some now }
  else c

/-- The method `technicianSchema.methods.updateAvgResolutionTime`. -/
def Technician.updateAvgResolutionTime (t : Technician) (newResolutionTime : Int) :
    Technician :=
  let total := t.totalResolutionTime + newResolutionTime
  let count := t.resolvedCount + 1
  { t with totalResolutionTime := total
           resolvedCount := count
           avgResolutionTime := mathRoundDiv total count }

/-- The block "Update technician stats" shared by `updateComplaintStatus` and
`resolveComplaint`: applied to the saved complaint `c`. -/
def updateTechnicianStats (s : Store) (c : Complaint) : Store :=
  match c.assignedTo with
  | none => s
  | some tid =>
    match s.findTechnicianById tid with
    | none => s
    | some technician =>
      let t1 := { technician with
        activeComplaints := max 0 (technician.activeComplaints - 1) }
      let t2 := if truthyNumber c.actualResolutionTime then
          t1.updateAvgResolutionTime (c.actualResolutionTime.getD 0)
        else t1
      s.saveTechnician t2

/-! ## Handlers of `complaintController.js` -/

/-- The handler `updateComplaintStatus`: (`req.params.id`, `req.body.status`,
`req.body.notes`), acting user `userId`. -/
def updateComplaintStatus (s : Store) (now : Int) (userId : ObjectId)
    (id : ObjectId) (status : Status) (notes : Option String) : Response × Store :=
  match s.findComplaintById id with
  | none => (.error 404 "Complaint not found", s)
  | some orig =>
    let c1 := { orig with
      status := status
      statusHistory := orig.statusHistory ++
        [{ status := status, changedAt := now, changedBy := userId }] }
    let c2 := if truthyString notes then
        { c1 with internalNotes := c1.internalNotes ++
            [{ note := notes.getD "", addedBy := userId, addedAt := now }] }
      else c1
    let c3 := if status = .resolved ∧ c2.resolvedAt = none then
        { c2 with resolvedAt := some now }
      else c2
    let saved := preSave orig c3 now
    let s1 := s.saveComplaint saved
    let s2 := if status = .resolved then updateTechnicianStats s1 saved else s1
    (.json 200 saved "Complaint status updated successfully", s2)

/-- The message of the specialization check of `assignComplaint`. -/
def specializationMismatchMessage (technician : Technician) (complaint : Complaint) :
    String :=
  "Technician specialization (" ++
    String.intercalate ", " (technician.specialization.map Category.toString) ++
    ") does not match complaint category (" ++ complaint.category.toString ++ ")"

/-- The handler `assignComplaint`: (`req.params.id`, `req.body.technicianId`,
`req.body.estimatedResolutionTime`, `req.body.priority`).  A supplied
`estimatedResolutionTime` is a non-empty date string, given here by the
instant it denotes. -/
def assignComplaint (s : Store) (now : Int) (userId : ObjectId)
    (id technicianId : ObjectId) (estimatedResolutionTime : Option Int)
    (priority : Option Priority) : Response × Store :=
  match s.findComplaintById id with
  | none => (.error 404 "Complaint not found", s)
  | some orig =>
    match s.findTechnicianById technicianId with
    | none => (.error 404 "Technician not found", s)
    | some technician =>
      if ¬ technician.specialization.contains orig.category then
        (.error 400 (specializationMismatchMessage technician orig), s)
      else
        let c1 := { orig with
          assignedTo := some technicianId
          assignedAt := some now
          status := .assigned }
        let c2 := match estimatedResolutionTime with
          | some e => { c1 with estimatedResolutionTime := some e }
          | none => c1
        let c3 := match priority with
          | some p => { c2 with priority := p }
          | none => c2
        let c4 := { c3 with statusHistory := c3.statusHistory ++
          [{ status := .assigned, changedAt := now, changedBy := userId }] }
        let saved := preSave orig c4 now
        let s1 := s.saveComplaint saved
        let s2 := s1.saveTechnician
          { technician with activeComplaints := technician.activeComplaints + 1 }
        (.json 200 saved "Complaint assigned successfully", s2)

/-- The handler `resolveComplaint`: (`req.params.id`,
`req.body.resolutionNotes`, the file names of `req.files`). -/
def resolveComplaint (s : Store) (now : Int) (userId : ObjectId)
    (id : ObjectId) (resolutionNotes : Option String) (files : List String) :
    Response × Store :=
  match s.findComplaintById id with
  | none => (.error 404 "Complaint not found", s)
  | some orig =>
    let resolutionImages : List Image := files.map (fun f =>
      { url := "/uploads/" ++ f, filename := f, uploadedAt := now })
    let c1 := { orig with
      status := .resolved
      resolvedAt := some now
      resolutionNotes := resolutionNotes
      resolutionImages := resolutionImages }
    let c2 := { c1 with statusHistory := c1.statusHistory ++
      [{ status := .resolved, changedAt := now, changedBy := userId }] }
    let saved := preSave orig c2 now
    let s1 := s.saveComplaint saved
    let s2 := updateTechnicianStats s1 saved
    (.json 200 saved "Complaint resolved successfully", s2)

/-! ## Operation sequences -/

/-- One request to a mutating handler. -/
inductive Op
  | assign (id technicianId : ObjectId) (estimatedResolutionTime : Option Int)
      (priority : Option Priority)
  | resolve (id : ObjectId) (resolutionNotes : Option String) (files : List String)
  | updateStatus (id : ObjectId) (status : Status) (notes : Option String)
  deriving DecidableEq, Repr

/-- A request together with its clock reading and acting user. -/
structure Call where
  now : Int
  userId : ObjectId
  op : Op
  deriving DecidableEq, Repr

/-- Serving one request. -/
def serve (s : Store) (c : Call) : Response × Store :=
  match c.op with
  | .assign id technicianId est priority =>
      assignComplaint s c.now c.userId id technicianId est priority
  | .resolve id notes files => resolveComplaint s c.now c.userId id notes files
  | .updateStatus id status notes => updateComplaintStatus s c.now c.userId id status notes

/-- The store after serving one request. -/
def step (s : Store) (c : Call) : Store := (serve s c).2

/-- The store after serving a sequence of requests, one at a time. -/
def run (s : Store) (calls : List Call) : Store := calls.foldl step s

/-! ## Example data -/

/-- A location used by the examples. -/
def exampleLocation : Location :=
  { latitude := 23, longitude := 86, address := some "Village Ashta, Main Road" }

/-- The instant 2024-02-05T00:00:00Z in milliseconds. -/
def feb5 : Int := 1707091200000

/-- The instant 2024-02-07T12:00:00Z in milliseconds, 60 hours after `feb5`. -/
def feb7noon : Int := 1707307200000

/-- A newly created technician for water complaints. -/
def waterTechnician : Technician :=
  Technician.create 1 100 "Ramesh Kumar" "9876543211" [.water]

/-- A newly created technician for electricity complaints. -/
def electricityTechnician : Technician :=
  Technician.create 2 101 "Suresh Patel" "9876543212" [.electricity]

/-- A newly created water complaint, filed at `feb5`. -/
def waterComplaint : Complaint :=
  Complaint.create 10 "CMP240200001" .water "No water supply for the last 3 days"
    exampleLocation "9876543220" none none 7 feb5

/-- A second newly created water complaint, filed at `feb5`. -/
def waterComplaint2 : Complaint :=
  Complaint.create 11 "CMP240200002" .water "Water pipe leakage causing wastage"
    exampleLocation "9876543221" none none 8 feb5

/-- A store holding the two technicians and the two complaints above. -/
def exampleStore : Store :=
  { complaints := [waterComplaint, waterComplaint2]
    technicians := [waterTechnician, electricityTechnician] }

/-! ## Example requests -/

/-- An administrator (user 50) assigns complaint 10 to technician 1. -/
def assignFirst : Call :=
  { now := feb5 + 3600000, userId := 50, op := .assign 10 1 none none }

/-- An administrator (user 50) assigns complaint 11 to technician 1. -/
def assignSecond : Call :=
  { now := feb5 + 3600000, userId := 50, op := .assign 11 1 none none }

/-- Complaint 10 is rejected through the status endpoint. -/
def rejectFirst : Call :=
  { now := feb5 + 7200000, userId := 50, op := .updateStatus 10 .rejected none }

/-- The technician (user 100) resolves complaint 10 at `feb7noon`. -/
def resolveFirst : Call :=
  { now := feb7noon, userId := 100, op := .resolve 10 (some "Pipe replaced") [] }

/-- Complaint 10 is set to `resolved` through the status endpoint at `feb7noon`. -/
def markFirstResolved : Call :=
  { now := feb7noon, userId := 100, op := .updateStatus 10 .resolved none }

/-- The technician resolves complaint 10 once more, an hour after `feb7noon`. -/
def resolveFirstAgain : Call :=
  { now := feb7noon + 3600000, userId := 100, op := .resolve 10 (some "Pipe replaced") [] }

/-- Complaint 10 is set to `resolved` once more, an hour after `feb7noon`. -/
def markFirstResolvedAgain : Call :=
  { now := feb7noon + 3600000, userId := 100, op := .updateStatus 10 .resolved none }

/-- Complaint 10 as it is stored after `assignFirst` and `resolveFirst`. -/
def waterComplaintResolved : Complaint :=
  { waterComplaint with
    status := .resolved
    assignedTo := some 1
    assignedAt := some (feb5 + 3600000)
    resolvedAt := some feb7noon
    resolutionNotes := some "Pipe replaced"
    statusHistory := waterComplaint.statusHistory ++
      [{ status := .assigned, changedAt := feb5 + 3600000, changedBy := 50 },
       { status := .resolved, changedAt := feb7noon, changedBy := 100 }] }

/-! ## Reading a response -/

/-- The HTTP status code of a response. -/
def Response.statusCode : Response → Nat
  | .json status _ _ => status
  | .error status _ => status

/-- A complaint stored as `seed.js` stores a resolved one: status `resolved`,
assigned to technician 1, `resolvedAt` one day after creation and
`actualResolutionTime` 24. -/
def importedResolved : Complaint :=
  { waterComplaint with
    _id := 12
    complaintId := "CMP240200003"
    status := .resolved
    assignedTo := some 1
    assignedAt := some (feb5 + 3600000)
    resolvedAt := some (feb5 + 86400000)
    actualResolutionTime := some 24
    statusHistory := waterComplaint.statusHistory ++
      [{ status := .assigned, changedAt := feb5 + 3600000, changedBy := 50 },
       { status := .inProgress, changedAt := feb5 + 7200000, changedBy := 1 },
       { status := .resolved, changedAt := feb5 + 86400000, changedBy := 1 }] }

/-- A second imported resolved complaint, with `actualResolutionTime` 49. -/
def importedResolved2 : Complaint :=
  { importedResolved with
    _id := 13
    complaintId := "CMP240200004"
    resolvedAt := some (feb5 + 176400000)
    actualResolutionTime := some 49 }

/-- The example store together with the two imported complaints. -/
def importedStore : Store :=
  { complaints := [waterComplaint, waterComplaint2, importedResolved, importedResolved2]
    technicians := [waterTechnician, electricityTechnician] }

/-- Complaints 12 and 13 are set to `resolved` through the status endpoint. -/
def markImportedResolved : List Call :=
  [ { now := feb7noon, userId := 100, op := .updateStatus 12 .resolved none },
    { now := feb7noon, userId := 100, op := .updateStatus 13 .resolved none } ]

/-- Complaint 12, already resolved, is set to `resolved` once more. -/
def markImportedResolvedAgain : Call :=
  { now := feb7noon, userId := 100, op := .updateStatus 12 .resolved none }

/-! ## Example data: three complaints, two water technicians -/

/-- A third newly created water complaint, filed at `feb5`. -/
def waterComplaint3 : Complaint :=
  Complaint.create 14 "CMP240200005" .water "Low water pressure in the area"
    exampleLocation "9876543222" none none 9 feb5

/-- A second newly created technician for water complaints. -/
def waterTechnician2 : Technician :=
  Technician.create 3 102 "Mukesh Singh" "9876543213" [.water, .sanitation]

/-- A store with three new water complaints and two new water technicians. -/
def threeComplaintStore : Store :=
  { complaints := [waterComplaint, waterComplaint2, waterComplaint3]
    technicians := [waterTechnician, waterTechnician2] }

/-- An administrator (user 50) assigns complaint 14 to technician 1. -/
def assignThird : Call :=
  { now := feb5 + 3600000, userId := 50, op := .assign 14 1 none none }

/-- Complaint 11 is rejected through the status endpoint. -/
def rejectSecond : Call :=
  { now := feb7noon + 3600000, userId := 50, op := .updateStatus 11 .rejected none }

/-- An administrator (user 50) assigns complaint 10 to technician 3. -/
def reassignFirst : Call :=
  { now := feb5 + 7200000, userId := 50, op := .assign 10 3 none none }

/-- Complaint 10 as it is stored after `assignFirst`. -/
def waterComplaintAssigned : Complaint :=
  { waterComplaint with
    status := .assigned
    assignedTo := some 1
    assignedAt := some (feb5 + 3600000)
    statusHistory := waterComplaint.statusHistory ++
      [{ status := .assigned, changedAt := feb5 + 3600000, changedBy := 50 }] }

/-- The document `waterComplaintAssigned` with its status set to `resolved`,
as handed to `save()` by a caller that does not touch `resolvedAt`. -/
def waterComplaintResolving : Complaint :=
  { waterComplaintAssigned with status := .resolved }

/-- A document whose `createdAt` lies 60 hours after the clock reading `feb5`
of its resolution (clock skew). -/
def skewedResolving : Complaint :=
  { waterComplaintResolving with createdAt := some feb7noon }

/-- The document saved by `updateComplaintStatus`, field by field. -/
def statusUpdated (orig : Complaint) (now : Int) (userId : ObjectId) (status : Status)
    (notes : Option String) : Complaint :=
  { orig with
    status := status
    statusHistory := orig.statusHistory ++
      [{ status := status, changedAt := now, changedBy := userId }]
    internalNotes :=
      if truthyString notes then
        orig.internalNotes ++ [{ note := notes.getD "", addedBy := userId, addedAt := now }]
      else orig.internalNotes
    resolvedAt :=
      if status = .resolved ∧ orig.resolvedAt = none then some now else orig.resolvedAt }

/-! ## Creating complaints and adding notes -/

/-- The string method `s.slice(-k)`: the last `k` characters of `s`, all of
`s` when it is shorter. -/
def sliceLast (s : String) (k : Nat) : String :=
  String.mk (s.data.drop (s.data.length - k))

/-- The string method `s.padStart(w, '0')`: zeros in front up to length `w`,
`s` itself when it is already that long. -/
def padStartZero (s : String) (w : Nat) : String :=
  String.mk (List.replicate (w - s.data.length) '0' ++ s.data)

/-- The identifier built by the hook `complaintSchema.pre('validate')` from
`date.getFullYear()`, `date.getMonth()` (0 to 11) and `countDocuments()`. -/
def generateComplaintId (fullYear : Nat) (month : Fin 12) (count : Nat) : String :=
  let year := sliceLast (toString fullYear) 2
  let month := padStartZero (toString (month.val + 1)) 2
  let number := padStartZero (toString (count + 1)) 5
  "CMP" ++ year ++ month ++ number

/-- The pattern `/^[6-9]\d{9}$/` of `citizenPhone`. -/
def validPhone (phone : String) : Bool :=
  match phone.data with
  | c :: rest =>
    decide ('6' ≤ c ∧ c ≤ '9') && decide (rest.length = 9) &&
      rest.all (fun d => decide ('0' ≤ d ∧ d ≤ '9'))
  | [] => false

/-- The fields `createComplaint` reads from `req.body`. -/
structure CreateBody where
  category : Option Category
  description : Option String
  location : Option Location
  citizenPhone : Option String
  citizenName : Option String
  priority : Option Priority
  deriving DecidableEq, Repr

/-- The handler `createComplaint`.  `newId` is the `_id` the driver gives the
new document, `fullYear` and `month` are the calendar fields of the clock
reading used by the `pre('validate')` hook, `files` the names of the uploaded
files.  The strings of the body are taken as the schema stores them, without
surrounding white space.  A document refused by `save()` (the phone pattern,
the unique indexes on `_id` and `complaintId`) is answered with 500 and not
written; the text of that answer is the library's and is only named here. -/
def createComplaint (s : Store) (now : Int) (userId newId : ObjectId)
    (fullYear : Nat) (month : Fin 12) (body : CreateBody) (files : List String) :
    Response × Store :=
  match body.category, body.description, body.location, body.citizenPhone with
  | some category, some description, some location, some citizenPhone =>
    if description = "" ∨ citizenPhone = "" then
      (.error 400 "Missing required fields", s)
    else
      let images : List Image := files.map (fun f =>
        { url := "/uploads/" ++ f, filename := f, uploadedAt := now })
      let complaintId := generateComplaintId fullYear month s.complaints.length
      let complaint : Complaint :=
        { Complaint.create newId complaintId category description location citizenPhone
            body.citizenName body.priority userId now with images := images }
      if ¬ validPhone citizenPhone then
        (.error 500 "Complaint validation failed: citizenPhone", s)
      else if s.complaints.any (fun d =>
          decide (d._id = newId) || decide (d.complaintId = complaintId)) then
        (.error 500 "E11000 duplicate key error", s)
      else
        (.json 201 complaint
          ("Complaint registered successfully. Your complaint ID is " ++ complaintId),
          { s with complaints := s.complaints ++ [complaint] })
  | _, _, _, _ => (.error 400 "Missing required fields", s)

/-- The handler `addInternalNote`: (`req.params.id`, `req.body.note`). -/
def addInternalNote (s : Store) (now : Int) (userId id : ObjectId) (note : String) :
    Response × Store :=
  match s.findComplaintById id with
  | none => (.error 404 "Complaint not found", s)
  | some orig =>
    let c1 := { orig with internalNotes := orig.internalNotes ++
      [{ note := note, addedBy := userId, addedAt := now }] }
    let saved := preSave orig c1 now
    (.json 200 saved "Note added successfully", s.saveComplaint saved)

/-- One request to the complaint engine. -/
inductive Request
  | createComplaint (newId : ObjectId) (fullYear : Nat) (month : Fin 12)
      (body : CreateBody) (files : List String)
  | addInternalNote (id : ObjectId) (note : String)
  | mutate (op : Op)
  deriving DecidableEq, Repr

/-- A request together with its clock reading and acting user. -/
structure Event where
  now : Int
  userId : ObjectId
  request : Request
  deriving DecidableEq, Repr

/-- Serving one request of the engine. -/
def handle (s : Store) (e : Event) : Response × Store :=
  match e.request with
  | .createComplaint newId fullYear month body files =>
      createComplaint s e.now e.userId newId fullYear month body files
  | .addInternalNote id note => addInternalNote s e.now e.userId id note
  | .mutate op => serve s { now := e.now, userId := e.userId, op := op }

/-- The store after serving one request of the engine. -/
def advance (s : Store) (e : Event) : Store := (handle s e).2

/-- The store after serving a sequence of requests of the engine. -/
def runEvents (s : Store) (events : List Event) : Store := events.foldl advance s

/-- The empty record store. -/
def emptyStore : Store := { complaints := [], technicians := [] }

/-- A complete request body for a water complaint. -/
def waterBody : CreateBody :=
  { category := some .water
    description := some "No water supply for the last 3 days"
    location := some exampleLocation
    citizenPhone := some "9876543220"
    citizenName := some "Rajesh Sharma"
    priority := none }

/-- A citizen (user 7) files a water complaint in February 2024. -/
def createFirst : Event :=
  { now := feb5, userId := 7, request := .createComplaint 10 2024 1 waterBody [] }

/-- A citizen (user 8) files another water complaint in February 2024. -/
def createSecond : Event :=
  { now := feb5, userId := 8, request := .createComplaint 11 2024 1 waterBody [] }

/-! ## The documents the handlers write -/

/-- The document saved by `assignComplaint`, field by field. -/
def assignedDoc (orig : Complaint) (now : Int) (userId technicianId : ObjectId)
    (estimatedResolutionTime : Option Int) (priority : Option Priority) : Complaint :=
  { orig with
    assignedTo := some technicianId
    assignedAt := some now
    status := .assigned
    estimatedResolutionTime :=
      match estimatedResolutionTime with
      | some e => some e
      | none => orig.estimatedResolutionTime
    priority :=
      match priority with
      | some p => p
      | none => orig.priority
    statusHistory := orig.statusHistory ++
      [{ status := .assigned, changedAt := now, changedBy := userId }] }

/-- The document saved by `resolveComplaint`, field by field. -/
def resolvedDoc (orig : Complaint) (now : Int) (userId : ObjectId)
    (resolutionNotes : Option String) (files : List String) : Complaint :=
  { orig with
    status := .resolved
    resolvedAt := some now
    resolutionNotes := resolutionNotes
    resolutionImages := files.map (fun f =>
      { url := "/uploads/" ++ f, filename := f, uploadedAt := now })
    statusHistory := orig.statusHistory ++
      [{ status := .resolved, changedAt := now, changedBy := userId }] }

/-- The document saved by `addInternalNote`, field by field. -/
def notedDoc (orig : Complaint) (now : Int) (userId : ObjectId) (note : String) :
    Complaint :=
  { orig with
    internalNotes := orig.internalNotes ++
      [{ note := note, addedBy := userId, addedAt := now }] }

/-- Whether a request is an `assignComplaint`. -/
def Request.isAssign : Request → Bool
  | .mutate (.assign _ _ _ _) => true
  | _ => false

/-- A store with the two example technicians and no complaint yet. -/
def technicianStore : Store :=
  { complaints := [], technicians := [waterTechnician, electricityTechnician] }

/-- The request `assignFirst` as an engine request. -/
def assignFirstEvent : Event :=
  { now := assignFirst.now, userId := assignFirst.userId, request := .mutate assignFirst.op }

/-- The request `rejectFirst` as an engine request. -/
def rejectFirstEvent : Event :=
  { now := rejectFirst.now, userId := rejectFirst.userId, request := .mutate rejectFirst.op }

/-- Complaint 10 is set to `assigned` through the status endpoint. -/
def markFirstAssigned : Event :=
  { now := feb5 + 3600000, userId := 50
    request := .mutate (.updateStatus 10 .assigned none) }

/-- An administrator (user 50) adds a note to complaint 10. -/
def noteFirst : Event :=
  { now := feb5 + 1800000, userId := 50
    request := .addInternalNote 10 "Called the citizen" }

/-! ## Reading decimal strings -/

/-- The number a list of decimal digit characters denotes. -/
def decimalValue (cs : List Char) : Nat :=
  cs.foldl (fun acc c => 10 * acc + (c.toNat - 48)) 0

/-- The `w` low decimal digits of `k` as characters, most significant first. -/
def fixedDigits : Nat → Nat → List Char
  | 0, _ => []
  | w + 1, k => fixedDigits w (k / 10) ++ [Nat.digitChar (k % 10)]

/-- Whether a request is a `createComplaint`. -/
def Request.isCreate : Request → Bool
  | .createComplaint _ _ _ _ _ => true
  | _ => false

/-- Whether a request is a `createComplaint` whose clock reading has a year of
at least two digits. -/
def Request.isCreation : Request → Bool
  | .createComplaint _ fullYear _ _ _ => decide (10 ≤ fullYear)
  | _ => false

/-- A creation request whose phone number does not match the pattern. -/
def createInvalid : Event :=
  { now := feb7noon, userId := 9
    request := .createComplaint 12 2024 1 { waterBody with citizenPhone := some "12345" } [] }

/-- A citizen (user 9) files a water complaint in January 2025. -/
def createNextYear : Event :=
  { now := feb5 + 28944000000, userId := 9
    request := .createComplaint 13 2025 0 waterBody [] }

/-! ## Deleting a technician (`technicianController.js`) -/

/-- What `deleteTechnician` sends back: `res.json({ success, message })` or
`res.status(code).json({ error })`. -/
inductive Reply
  | ok (status : Nat) (message : String)
  | error (status : Nat) (error : String)
  deriving DecidableEq, Repr

/-- The HTTP status code of a reply. -/
def Reply.statusCode : Reply → Nat
  | .ok status _ => status
  | .error status _ => status

/-- Removing the technician carrying the id (`Technician.findByIdAndDelete`). -/
def Store.deleteTechnicianById (s : Store) (id : ObjectId) : Store :=
  { s with technicians := s.technicians.filter (fun t => decide (t._id ≠ id)) }

/-- The handler `deleteTechnician`.  The change of the user's role that
follows a deletion is made in the user collection, which the store does not
hold. -/
def deleteTechnician (s : Store) (id : ObjectId) : Reply × Store :=
  match s.findTechnicianById id with
  | none => (.error 404 "Technician not found", s)
  | some _ =>
    let activeComplaints := s.countActive id
    if activeComplaints > 0 then
      (.error 400 ("Cannot delete technician with " ++ toString activeComplaints ++
        " active complaint(s). Please reassign or resolve them first."), s)
    else
      (.ok 200 "Technician deleted successfully", s.deleteTechnicianById id)

/-! ## Double-precision arithmetic

`monthOverMonthChange` is the one expression of the engine that rounds twice
before `Math.round` (a division, then a multiplication by 100), so its value
depends on the rounding of doubles.  A finite double is kept as an integer
mantissa and a power of two; the model covers the normal range, which counts
of documents never leave. -/

/-- A finite double-precision number, `mant * 2 ^ exp`. -/
structure Double where
  mant : Int
  exp : Int
  deriving DecidableEq, Repr

/-- The position of the highest set bit of `k`, computed with `fuel` halvings
at most. -/
def floorLog2Fuel : Nat → Nat → Nat
  | 0, _ => 0
  | fuel + 1, k => if k < 2 then 0 else floorLog2Fuel fuel (k / 2) + 1

/-- The position of the highest set bit of `n`, 0 for `n < 2`. -/
def floorLog2 (n : Nat) : Nat := floorLog2Fuel n n

/-- The double nearest to the positive rational `n / d` (ties go to the even
mantissa), as a mantissa of 53 bits and an exponent. -/
def nearestDouble (n d : Nat) : Nat × Int :=
  if n = 0 then (0, 0) else
    let e0 : Int := (floorLog2 n : Int) - (floorLog2 d : Int) - 52
    let e : Int :=
      if 2 ^ 52 * (d * 2 ^ e0.toNat) ≤ n * 2 ^ (-e0).toNat then e0 else e0 - 1
    let num := n * 2 ^ (-e).toNat
    let den := d * 2 ^ e.toNat
    let m0 := num / den
    let rem := num % den
    let m :=
      if 2 * rem < den then m0
      else if den < 2 * rem then m0 + 1
      else if m0 % 2 = 0 then m0 else m0 + 1
    (m, e)

/-- The double `a / p` of two integers. -/
def Double.ofQuotient (a : Int) (p : Nat) : Double :=
  let r := nearestDouble a.natAbs p
  { mant := a.sign * r.1, exp := r.2 }

/-- The double `x * k` for a natural number `k`. -/
def Double.mulNat (x : Double) (k : Nat) : Double :=
  let r :=
    if 0 ≤ x.exp then nearestDouble (x.mant.natAbs * k * 2 ^ x.exp.toNat) 1
    else nearestDouble (x.mant.natAbs * k) (2 ^ (-x.exp).toNat)
  { mant := x.mant.sign * r.1, exp := r.2 }

/-- The integer `Math.round(x)`: the floor of `x + 1/2`. -/
def Double.round (x : Double) : Int :=
  if 0 ≤ x.exp then x.mant * 2 ^ x.exp.toNat
  else (2 * x.mant + 2 ^ (-x.exp).toNat) / (2 * 2 ^ (-x.exp).toNat)

/-! ## Reports (`reportController.js`)

An object used as a dictionary (`acc[key] = (acc[key] || 0) + 1`) is the list
of its (key, value) pairs in the order the keys were first written.  Keys that
name a member of `Object.prototype` are outside the model, and for keys that
look like array indices the list order is not the order of the JSON output;
what the list is read for is the value stored under a key. -/

/-- One step of `reduce((acc, c) => { acc[k] = (acc[k] || 0) + 1; return acc }, {})`. -/
def tallyStep {κ : Type} [DecidableEq κ] (acc : List (κ × Nat)) (k : κ) : List (κ × Nat) :=
  if acc.any (fun e => decide (e.1 = k)) then
    acc.map (fun e => if e.1 = k then (e.1, e.2 + 1) else e)
  else acc ++ [(k, 1)]

/-- The dictionary of occurrence counts of a list of keys. -/
def tally {κ : Type} [DecidableEq κ] (keys : List κ) : List (κ × Nat) :=
  keys.foldl tallyStep []

/-- A complaint as `find(..).populate('assignedTo', 'name phone
specialization')` returns it: the document, and the technician its
`assignedTo` refers to when that technician is stored. -/
structure ReportComplaint where
  doc : Complaint
  assignedTo : Option Technician
  deriving DecidableEq, Repr

/-- Populating `assignedTo`. -/
def Store.populate (s : Store) (c : Complaint) : ReportComplaint :=
  { doc := c, assignedTo := c.assignedTo.bind s.findTechnicianById }

/-- An entry of `technicianPerformance`. -/
structure TechnicianPerformance where
  name : String
  phone : String
  assigned : Nat
  resolved : Nat
  inProgress : Nat
  deriving DecidableEq, Repr

/-- The body of `complaints.forEach(c => { if (c.assignedTo) { .. } })`, on the
dictionary keyed by `c.assignedTo._id.toString()`. -/
def performanceStep (acc : List (ObjectId × TechnicianPerformance)) (c : ReportComplaint) :
    List (ObjectId × TechnicianPerformance) :=
  match c.assignedTo with
  | none => acc
  | some t =>
    let acc1 :=
      if acc.any (fun e => decide (e.1 = t._id)) then acc
      else acc ++ [(t._id, { name := t.name, phone := t.phone
                             assigned := 0, resolved := 0, inProgress := 0 })]
    acc1.map (fun e =>
      if e.1 = t._id then
        (e.1, { e.2 with
          assigned := e.2.assigned + 1
          resolved := e.2.resolved + (if c.doc.status = .resolved then 1 else 0)
          inProgress := e.2.inProgress + (if c.doc.status = .inProgress then 1 else 0) })
      else e)

/-- The dictionary `technicianPerformance` after the loop; `Object.values`
lists its second components in this order (the keys are 24-digit hexadecimal
strings, never array indices). -/
def technicianPerformance (complaints : List ReportComplaint) :
    List (ObjectId × TechnicianPerformance) :=
  complaints.foldl performanceStep []

/-- The dictionary `statusBreakdown`. -/
def statusBreakdown (complaints : List ReportComplaint) : List (Status × Nat) :=
  tally (complaints.map (fun c => c.doc.status))

/-- The dictionary `categoryBreakdown`. -/
def categoryBreakdown (complaints : List ReportComplaint) : List (Category × Nat) :=
  tally (complaints.map (fun c => c.doc.category))

/-- The key `c.location.address || 'Unknown'`. -/
def addressKey (c : Complaint) : String :=
  if truthyString c.location.address then c.location.address.getD "" else "Unknown"

/-- The dictionary `locationDensity`. -/
def locationDensity (complaints : List ReportComplaint) : List (String × Nat) :=
  tally (complaints.map (fun c => addressKey c.doc))

/-- The list `resolvedComplaints`. -/
def resolvedComplaints (complaints : List ReportComplaint) : List ReportComplaint :=
  complaints.filter (fun c => decide (c.doc.status = .resolved))

/-- The value `avgResolutionTime` of the report. -/
def avgResolutionTime (complaints : List ReportComplaint) : Int :=
  if (resolvedComplaints complaints).length > 0 then
    mathRoundDiv
      ((((resolvedComplaints complaints).filter
          (fun c => truthyNumber c.doc.actualResolutionTime)).map
          (fun c => c.doc.actualResolutionTime.getD 0)).foldl (fun sum h => sum + h) 0)
      (resolvedComplaints complaints).length
  else 0

/-- The value `monthOverMonthChange` of the report:
`Math.round(((totalComplaints - prevMonthCount) / prevMonthCount) * 100)`. -/
def monthOverMonthChange (totalComplaints prevMonthCount : Nat) : Int :=
  if prevMonthCount > 0 then
    ((Double.ofQuotient ((totalComplaints : Int) - prevMonthCount) prevMonthCount).mulNat
      100).round
  else 0

/-- The fields `getMonthlyReport` reads from `req.query`; a field is `none`
when it is missing or the empty string. -/
structure ReportQuery where
  month : Option Nat
  year : Option Nat
  category : Option Category
  status : Option Status
  technicianId : Option ObjectId
  deriving DecidableEq, Repr

/-- The four instants the platform calendar gives for a month and year:
`new Date(year, month - 1, 1)`, `new Date(year, month, 0, 23, 59, 59)`,
`new Date(year, month - 2, 1)` and `new Date(year, month - 1, 0, 23, 59, 59)`. -/
structure MonthWindow where
  startDate : Int
  endDate : Int
  prevMonthStart : Int
  prevMonthEnd : Int
  deriving DecidableEq, Repr

/-- The query condition `createdAt: { $gte: lower, $lte: upper }`. -/
def createdBetween (lower upper : Int) (c : Complaint) : Bool :=
  match c.createdAt with
  | some t => decide (lower ≤ t) && decide (t ≤ upper)
  | none => false

/-- The `filter` object of `getMonthlyReport` as a predicate. -/
def matchesReportFilter (w : MonthWindow) (q : ReportQuery) (c : Complaint) : Bool :=
  createdBetween w.startDate w.endDate c &&
  (match q.category with
    | some category => decide (c.category = category)
    | none => true) &&
  (match q.status with
    | some status => decide (c.status = status)
    | none => true) &&
  (match q.technicianId with
    | some id => decide (c.assignedTo = some id)
    | none => true)

/-- The order `sort({ createdAt: -1 })`: `a` may come before `b`.  A document
without `createdAt` sorts last; the order among equal instants is the stored
order. -/
def createdNotBefore (a b : Complaint) : Bool :=
  match a.createdAt, b.createdAt with
  | _, none => true
  | none, some _ => false
  | some x, some y => decide (y ≤ x)

/-- An element of the `complaints` list of the report. -/
structure ReportEntry where
  complaintId : String
  category : Category
  description : String
  status : Status
  location : String
  createdAt : Option Int
  resolvedAt : Option Int
  assignedTo : String
  deriving DecidableEq, Repr

/-- The projection `complaints.map(c => ({ .. }))` of the report (a character
stands for one UTF-16 unit). -/
def reportEntry (c : ReportComplaint) : ReportEntry :=
  { complaintId := c.doc.complaintId
    category := c.doc.category
    description := String.mk (c.doc.description.data.take 100) ++
      (if c.doc.description.data.length > 100 then "..." else "")
    status := c.doc.status
    location :=
      if truthyString c.doc.location.address then c.doc.location.address.getD "" else "N/A"
    createdAt := c.doc.createdAt
    resolvedAt := c.doc.resolvedAt
    assignedTo :=
      match c.assignedTo with
      | some t => t.name
      | none => "Unassigned" }

/-- The `report` object.  `avgResolutionTime` and `monthOverMonthChange` are
the numbers that the handler prints into its strings. -/
structure MonthlyReport where
  month : Nat
  year : Nat
  startDate : Int
  endDate : Int
  totalComplaints : Nat
  resolved : Nat
  unresolved : Int
  avgResolutionTime : Int
  monthOverMonthChange : Int
  statusBreakdown : List (Status × Nat)
  categoryBreakdown : List (Category × Nat)
  technicianPerformance : List TechnicianPerformance
  locationDensity : List (String × Nat)
  complaints : List ReportEntry
  deriving DecidableEq, Repr

/-- What `getMonthlyReport` sends back. -/
inductive ReportResponse
  | report (status : Nat) (report : MonthlyReport)
  | error (status : Nat) (error : String)
  deriving DecidableEq, Repr

/-- The list `complaints` of `getMonthlyReport`: the stored complaints that
match the filter, newest first, populated. -/
def reportComplaints (s : Store) (w : MonthWindow) (q : ReportQuery) :
    List ReportComplaint :=
  ((s.complaints.filter (matchesReportFilter w q)).insertionSort
    (fun a b => createdNotBefore a b = true)).map s.populate

/-- The count `prevMonthCount` of `getMonthlyReport`. -/
def prevMonthCount (s : Store) (w : MonthWindow) : Nat :=
  (s.complaints.filter (createdBetween w.prevMonthStart w.prevMonthEnd)).length

/-- The report computed from the list `complaints` and `prevMonthCount`. -/
def buildReport (month year : Nat) (w : MonthWindow) (complaints : List ReportComplaint)
    (prevMonthCount : Nat) : MonthlyReport :=
  { month := month
    year := year
    startDate := w.startDate
    endDate := w.endDate
    totalComplaints := complaints.length
    resolved := (resolvedComplaints complaints).length
    unresolved := (complaints.length : Int) - (resolvedComplaints complaints).length
    avgResolutionTime := avgResolutionTime complaints
    monthOverMonthChange := monthOverMonthChange complaints.length prevMonthCount
    statusBreakdown := statusBreakdown complaints
    categoryBreakdown := categoryBreakdown complaints
    technicianPerformance := (technicianPerformance complaints).map (fun e => e.2)
    locationDensity := locationDensity complaints
    complaints := complaints.map reportEntry }

/-- The handler `getMonthlyReport`. -/
def getMonthlyReport (s : Store) (w : MonthWindow) (q : ReportQuery) : ReportResponse :=
  match q.month, q.year with
  | some month, some year =>
    .report 200 (buildReport month year w (reportComplaints s w q) (prevMonthCount s w))
  | _, _ => .error 400 "Month and year are required"

/-- An element of `recentComplaints`: the selected fields. -/
structure RecentComplaint where
  _id : ObjectId
  complaintId : String
  category : Category
  status : Status
  createdAt : Option Int
  address : Option String
  deriving DecidableEq, Repr

/-- The `overview` object of `getDashboardOverview`. -/
structure Overview where
  totalComplaints : Nat
  todayComplaints : Nat
  pendingComplaints : Nat
  resolvedComplaints : Nat
  inProgressComplaints : Nat
  activeTechnicians : Nat
  categoryStats : List (Category × Nat)
  recentComplaints : List RecentComplaint
  deriving DecidableEq, Repr

/-- The handler `getDashboardOverview`; `today` is the start of the local day.
The database fixes no order among categories of equal count; they are listed
in the order of their first complaint. -/
def getDashboardOverview (s : Store) (today : Int) : Overview :=
  { totalComplaints := s.complaints.length
    todayComplaints := (s.complaints.filter (fun c =>
      match c.createdAt with
      | some t => decide (today ≤ t)
      | none => false)).length
    pendingComplaints := (s.complaints.filter (fun c => decide (c.status = .submitted))).length
    resolvedComplaints := (s.complaints.filter (fun c => decide (c.status = .resolved))).length
    inProgressComplaints :=
      (s.complaints.filter (fun c => decide (c.status = .inProgress))).length
    activeTechnicians := (s.technicians.filter (fun t => t.isAvailable)).length
    categoryStats :=
      (tally (s.complaints.map (fun c => c.category))).insertionSort
        (fun a b => b.2 ≤ a.2)
    recentComplaints :=
      ((s.complaints.insertionSort (fun a b => createdNotBefore a b = true)).take 10).map
        (fun c =>
        { _id := c._id, complaintId := c.complaintId, category := c.category
          status := c.status, createdAt := c.createdAt, address := c.location.address }) }

/-! ## Example data for the reports -/

/-- The window of February 2024 (UTC): the month itself and January 2024. -/
def february2024 : MonthWindow :=
  { startDate := 1706745600000
    endDate := 1709251199000
    prevMonthStart := 1704067200000
    prevMonthEnd := 1706745599000 }

/-- The query for February 2024 without further filters. -/
def februaryQuery : ReportQuery :=
  { month := some 2, year := some 2024, category := none, status := none
    technicianId := none }

/-- The query for February 2024 restricted to water complaints. -/
def februaryWaterQuery : ReportQuery :=
  { februaryQuery with category := some .water }

/-- The store `importedStore` after complaint 10 was assigned and resolved:
three resolved complaints, with 24 hours, 49 hours and no hours recorded. -/
def resolvedStore : Store := run importedStore [assignFirst, resolveFirst]

/-- An electricity complaint filed on 2024-01-15, in the previous month. -/
def januaryElectricity : Complaint :=
  Complaint.create 20 "CMP240100001" .electricity "Frequent power cuts in the area"
    exampleLocation "9876543221" none none 8 1705276800000

/-- A water complaint filed on 2024-01-15, in the previous month. -/
def januaryWater : Complaint :=
  Complaint.create 21 "CMP240100002" .water "Contaminated water supply issue"
    exampleLocation "9876543222" none none 9 1705276800000

/-- An electricity complaint filed at `feb5`. -/
def februaryElectricity : Complaint :=
  Complaint.create 22 "CMP240200003" .electricity "Transformer making unusual noise"
    exampleLocation "9876543221" none none 8 feb5

/-- A store with a water and an electricity complaint in each of January and
February 2024. -/
def twoMonthStore : Store :=
  { complaints := [januaryElectricity, januaryWater, waterComplaint, februaryElectricity]
    technicians := [waterTechnician, electricityTechnician] }

/-- Reading a dictionary: the value `d[k]`, if the key was written. -/
def dictGet {κ β : Type} [DecidableEq κ] (d : List (κ × β)) (k : κ) : Option β :=
  (d.find? (fun e => decide (e.1 = k))).map (fun e => e.2)

/-- A complaint whose address is the string `Unknown`. -/
def unknownAddressComplaint : ReportComplaint :=
  { doc := { waterComplaint with
      location := { exampleLocation with address := some "Unknown" } }
    assignedTo := none }

/-- A complaint without address. -/
def noAddressComplaint : ReportComplaint :=
  { doc := { waterComplaint2 with location := { exampleLocation with address := none } }
    assignedTo := none }

/-- The previous-month count that the same category, status and technician
filters would give: the comparison figure the report does not use. -/
def prevMonthCountFiltered (s : Store) (w : MonthWindow) (q : ReportQuery) : Nat :=
  (s.complaints.filter (matchesReportFilter
    { w with startDate := w.prevMonthStart, endDate := w.prevMonthEnd } q)).length

/-- The technician a populated complaint is assigned to, by id; `none` when
`assignedTo` is unset or refers to no stored technician. -/
def ReportComplaint.assigneeId (c : ReportComplaint) : Option ObjectId :=
  c.assignedTo.map (fun t => t._id)

/-- The distinct elements of a list, each at the place of its first
occurrence. -/
def firstOccurrences : List ObjectId → List ObjectId
  | [] => []
  | a :: l => a :: (firstOccurrences l).filter (fun b => decide (b ≠ a))

/-- The performance entry of technician `id` in the words of the
specification: name and phone of the assignee, and the number of the
technician's complaints in total, resolved and in progress. -/
def performanceOf (complaints : List ReportComplaint) (id : ObjectId) :
    TechnicianPerformance :=
  let mine := complaints.filter (fun c => decide (c.assigneeId = some id))
  { name := ((mine.head?.bind (fun c => c.assignedTo)).map (fun t => t.name)).getD ""
    phone := ((mine.head?.bind (fun c => c.assignedTo)).map (fun t => t.phone)).getD ""
    assigned := mine.length
    resolved := (mine.filter (fun c => decide (c.doc.status = .resolved))).length
    inProgress := (mine.filter (fun c => decide (c.doc.status = .inProgress))).length }

/-- The complaints of `resolvedStore` in February 2024, populated. -/
def resolvedReportComplaints : List ReportComplaint :=
  reportComplaints resolvedStore february2024 februaryQuery

/-- Four populated complaints: an in-progress one of technician 2, a resolved
one of technician 1, one without assignee and an assigned one of technician 2. -/
def mixedAssignees : List ReportComplaint :=
  [ { doc := { februaryElectricity with status := .inProgress, assignedTo := some 2 }
      assignedTo := some electricityTechnician },
    { doc := { waterComplaint with status := .resolved, assignedTo := some 1 }
      assignedTo := some waterTechnician },
    { doc := waterComplaint2, assignedTo := none },
    { doc := { januaryElectricity with status := .assigned, assignedTo := some 2 }
      assignedTo := some electricityTechnician } ]

/-! # Theorems -/

/-! ## Lemmas on the record store -/

theorem find_map_overwrite {α : Type} (key : α → Nat) (x : α) (id : Nat)
    (hx : key x = id) (l : List α) (y : α)
    (h : l.find? (fun d => key d == id) = some y) :
    (l.map (fun d => if key d = key x then x else d)).find? (fun d => key d == id)
      = some x := by
  induction l with
  | nil => simp at h
  | cons a l ih =>
    by_cases ha : key a = id
    · simp [List.find?_cons, ha, hx]
    · have hne : key a ≠ key x := by rw [hx]; exact ha
      have hb : (key a == id) = false := by simpa using ha
      rw [List.find?_cons, hb] at h
      rw [List.map_cons, if_neg hne, List.find?_cons, hb]
      exact ih h

theorem find_map_overwrite_other {α : Type} (key : α → Nat) (x : α) (id : Nat)
    (hx : key x ≠ id) (l : List α) :
    (l.map (fun d => if key d = key x then x else d)).find? (fun d => key d == id)
      = l.find? (fun d => key d == id) := by
  induction l with
  | nil => rfl
  | cons a l ih =>
    have hxb : (key x == id) = false := by simpa using hx
    by_cases ha : key a = key x
    · have hab : (key a == id) = false := by rw [ha]; exact hxb
      rw [List.map_cons, if_pos ha, List.find?_cons, hxb, List.find?_cons, hab]
      exact ih
    · rw [List.map_cons, if_neg ha, List.find?_cons, List.find?_cons, ih]

theorem mem_map_overwrite {α : Type} (key : α → Nat) (x : α) (l : List α) (y : α)
    (h : y ∈ l.map (fun d => if key d = key x then x else d)) : y ∈ l ∨ y = x := by
  rcases List.mem_map.1 h with ⟨d, hd, rfl⟩
  by_cases hk : key d = key x
  · simp [hk]
  · simp [hk, hd]

theorem findComplaintById_id {s : Store} {id : ObjectId} {c : Complaint}
    (h : s.findComplaintById id = some c) : c._id = id := by
  have := List.find?_some h
  simpa using this

theorem findTechnicianById_id {s : Store} {id : ObjectId} {t : Technician}
    (h : s.findTechnicianById id = some t) : t._id = id := by
  have := List.find?_some h
  simpa using this

theorem findTechnicianById_mem {s : Store} {id : ObjectId} {t : Technician}
    (h : s.findTechnicianById id = some t) : t ∈ s.technicians :=
  List.mem_of_find?_eq_some h

theorem findComplaintById_saveComplaint {s : Store} {id : ObjectId} {orig c : Complaint}
    (h : s.findComplaintById id = some orig) (hc : c._id = id) :
    (s.saveComplaint c).findComplaintById id = some c :=
  find_map_overwrite (fun d : Complaint => d._id) c id hc s.complaints orig h

theorem findTechnicianById_saveTechnician {s : Store} {id : ObjectId}
    {orig t : Technician}
    (h : s.findTechnicianById id = some orig) (ht : t._id = id) :
    (s.saveTechnician t).findTechnicianById id = some t :=
  find_map_overwrite (fun d : Technician => d._id) t id ht s.technicians orig h

theorem preSave_id (orig c : Complaint) (now : Int) : (preSave orig c now)._id = c._id := by
  unfold preSave
  split
  · split <;> rfl
  · rfl

/-- The hook leaves a document alone once `resolvedAt` is set. -/
theorem preSave_of_resolvedAt (orig c : Complaint) (now : Int) (t : Int)
    (h : c.resolvedAt = some t) : preSave orig c now = c := by
  unfold preSave
  simp [h]

/-- The hook leaves a document alone when its status is not `resolved`. -/
theorem preSave_of_not_resolved (orig c : Complaint) (now : Int)
    (h : c.status ≠ .resolved) : preSave orig c now = c := by
  unfold preSave
  simp [h]

/-! ## The workload counter against the live count -/

/-- C1, evaluated on the code: a new water complaint is assigned to a new
technician and then rejected through `updateComplaintStatus`.  After the
assignment the counter and the live count agree (both 1); after the rejection
the technician's `activeComplaints` is still 1 while no complaint assigned to
the technician has status `assigned` or `in-progress`. -/
theorem activeComplaints_stale_after_reject :
    ((run exampleStore [assignFirst]).findTechnicianById 1).map
        (fun t => t.activeComplaints) = some 1 ∧
    (run exampleStore [assignFirst]).countActive 1 = 1 ∧
    ((run exampleStore [assignFirst, rejectFirst]).findTechnicianById 1).map
        (fun t => t.activeComplaints) = some 1 ∧
    (run exampleStore [assignFirst, rejectFirst]).countActive 1 = 0 := by
  decide

/-! ## Resolution time -/

/-- C2, evaluated on the code: a complaint created at 2024-02-05T00:00:00 is
assigned and then resolved at 2024-02-07T12:00:00, 60 hours later.  Through
`resolveComplaint` as through `updateComplaintStatus` the saved complaint is
`resolved` with `resolvedAt` set, and its `actualResolutionTime` is still
unset, although the rounded number of hours is 60. -/
theorem actualResolutionTime_unset_after_resolve :
    ((run exampleStore [assignFirst, resolveFirst]).findComplaintById 10).map
        (fun c => (c.status, c.createdAt, c.resolvedAt, c.actualResolutionTime))
      = some (.resolved, some feb5, some feb7noon, none) ∧
    ((run exampleStore [assignFirst, markFirstResolved]).findComplaintById 10).map
        (fun c => (c.status, c.createdAt, c.resolvedAt, c.actualResolutionTime))
      = some (.resolved, some feb5, some feb7noon, none) ∧
    mathRoundDiv (feb7noon - feb5) msPerHour = 60 := by
  decide

/-! ## Assignment -/

/-- C3: when the complaint and the technician exist and the technician's
specialization list does not contain the complaint's category,
`assignComplaint` answers 400 with the mismatch message and writes nothing:
the store is the one it was given, so the complaint (status, assignedTo,
assignedAt, priority, statusHistory) and the technician (activeComplaints) are
exactly as before. -/
theorem assignComplaint_specialization_mismatch
    (s : Store) (now : Int) (userId id technicianId : ObjectId)
    (estimatedResolutionTime : Option Int) (priority : Option Priority)
    (complaint : Complaint) (technician : Technician)
    (hc : s.findComplaintById id = some complaint)
    (ht : s.findTechnicianById technicianId = some technician)
    (hspec : complaint.category ∉ technician.specialization) :
    (assignComplaint s now userId id technicianId estimatedResolutionTime priority).1
        = .error 400 (specializationMismatchMessage technician complaint) ∧
    (assignComplaint s now userId id technicianId estimatedResolutionTime priority).2 = s ∧
    (assignComplaint s now userId id technicianId estimatedResolutionTime
        priority).2.findComplaintById id = some complaint ∧
    (assignComplaint s now userId id technicianId estimatedResolutionTime
        priority).2.findTechnicianById technicianId = some technician := by
  have h : assignComplaint s now userId id technicianId estimatedResolutionTime priority
      = (.error 400 (specializationMismatchMessage technician complaint), s) := by
    unfold assignComplaint
    simp [hc, ht, hspec]
  rw [h]
  exact ⟨rfl, rfl, hc, ht⟩

/-- The scenario of C3: a `water` complaint and an {electricity} technician;
the complaint stays `submitted` and unassigned. -/
theorem assignComplaint_specialization_mismatch_witness :
    exampleStore.findComplaintById 10 = some waterComplaint ∧
    exampleStore.findTechnicianById 2 = some electricityTechnician ∧
    waterComplaint.category ∉ electricityTechnician.specialization ∧
    waterComplaint.status = .submitted ∧
    specializationMismatchMessage electricityTechnician waterComplaint
      = "Technician specialization (electricity) does not match complaint category (water)" ∧
    ((assignComplaint exampleStore feb5 50 10 2 none none).1
        = .error 400 (specializationMismatchMessage electricityTechnician waterComplaint) ∧
    (assignComplaint exampleStore feb5 50 10 2 none none).2 = exampleStore ∧
    (assignComplaint exampleStore feb5 50 10 2 none none).2.findComplaintById 10
        = some waterComplaint ∧
    (assignComplaint exampleStore feb5 50 10 2 none none).2.findTechnicianById 2
        = some electricityTechnician) :=
  ⟨by decide, by decide, by decide, by decide, by decide,
    assignComplaint_specialization_mismatch exampleStore feb5 50 10 2 none none
      waterComplaint electricityTechnician (by decide) (by decide) (by decide)⟩

theorem preSave_status (orig c : Complaint) (now : Int) :
    (preSave orig c now).status = c.status := by
  unfold preSave
  split
  · split <;> rfl
  · rfl

theorem preSave_statusHistory (orig c : Complaint) (now : Int) :
    (preSave orig c now).statusHistory = c.statusHistory := by
  unfold preSave
  split
  · split <;> rfl
  · rfl

theorem preSave_assignedTo (orig c : Complaint) (now : Int) :
    (preSave orig c now).assignedTo = c.assignedTo := by
  unfold preSave
  split
  · split <;> rfl
  · rfl

theorem updateTechnicianStats_complaints (s : Store) (c : Complaint) :
    (updateTechnicianStats s c).complaints = s.complaints := by
  unfold updateTechnicianStats
  split
  · rfl
  · split <;> rfl

theorem findComplaintById_updateTechnicianStats (s : Store) (c : Complaint)
    (id : ObjectId) :
    (updateTechnicianStats s c).findComplaintById id = s.findComplaintById id := by
  unfold Store.findComplaintById
  rw [updateTechnicianStats_complaints]

/-! ## Status changes -/

/-- C4 as stated fails: complaint 10 is `resolved`, a later
`updateComplaintStatus` asking for `submitted` answers 200 and the stored
status becomes `submitted`. -/
theorem resolved_status_is_overwritten :
    ((run exampleStore [assignFirst, resolveFirst]).findComplaintById 10).map
        (fun c => c.status) = some .resolved ∧
    (updateComplaintStatus (run exampleStore [assignFirst, resolveFirst])
        (feb7noon + 3600000) 50 10 .submitted none).1.statusCode = 200 ∧
    ((updateComplaintStatus (run exampleStore [assignFirst, resolveFirst])
        (feb7noon + 3600000) 50 10 .submitted none).2.findComplaintById 10).map
        (fun c => c.status) = some .submitted := by
  decide

/-- C4, amended: `updateComplaintStatus` checks no transition table.  For every
existing complaint, whatever its current status, and every requested status it
answers 200, and the stored complaint then carries the requested status with
one history entry for it appended. -/
theorem updateComplaintStatus_accepts_every_status
    (s : Store) (now : Int) (userId id : ObjectId) (status : Status)
    (notes : Option String) (orig : Complaint)
    (h : s.findComplaintById id = some orig) :
    ∃ saved : Complaint,
      (updateComplaintStatus s now userId id status notes).1
          = .json 200 saved "Complaint status updated successfully" ∧
      (updateComplaintStatus s now userId id status notes).2.findComplaintById id
          = some saved ∧
      saved.status = status ∧
      saved.statusHistory = orig.statusHistory ++
          [{ status := status, changedAt := now, changedBy := userId }] := by
  have hid := findComplaintById_id h
  unfold updateComplaintStatus
  simp only [h]
  refine ⟨_, rfl, ?_, ?_, ?_⟩
  · split
    · rw [findComplaintById_updateTechnicianStats]
      apply findComplaintById_saveComplaint h
      rw [preSave_id]
      split <;> split <;> exact hid
    · apply findComplaintById_saveComplaint h
      rw [preSave_id]
      split <;> split <;> exact hid
  · rw [preSave_status]
    split <;> split <;> rfl
  · rw [preSave_statusHistory]
    split <;> split <;> rfl

/-- The amended C4 at a terminal state: complaint 10 is `resolved` and is asked
back to `submitted`. -/
theorem updateComplaintStatus_accepts_every_status_witness :
    (run exampleStore [assignFirst, resolveFirst]).findComplaintById 10
        = some waterComplaintResolved ∧
    waterComplaintResolved.status = .resolved ∧
    ∃ saved : Complaint,
      (updateComplaintStatus (run exampleStore [assignFirst, resolveFirst])
          (feb7noon + 3600000) 50 10 .submitted none).1
          = .json 200 saved "Complaint status updated successfully" ∧
      (updateComplaintStatus (run exampleStore [assignFirst, resolveFirst])
          (feb7noon + 3600000) 50 10 .submitted none).2.findComplaintById 10
          = some saved ∧
      saved.status = .submitted ∧
      saved.statusHistory = waterComplaintResolved.statusHistory ++
          [{ status := .submitted, changedAt := feb7noon + 3600000, changedBy := 50 }] :=
  ⟨by decide, by decide,
    updateComplaintStatus_accepts_every_status
      (run exampleStore [assignFirst, resolveFirst]) (feb7noon + 3600000) 50 10
      .submitted none waterComplaintResolved (by decide)⟩

/-- C5: when the complaint and the technician exist and the technician's
specialization list contains the complaint's category, `assignComplaint`
answers 200 and stores the complaint with `assignedTo` the requested
technician, status `assigned`, `assignedAt` the current time, one `assigned`
entry appended to `statusHistory`, `priority` and `estimatedResolutionTime`
overwritten exactly when supplied and every other field as before; the stored
technician is the one found with `activeComplaints` one higher. -/
theorem assignComplaint_success
    (s : Store) (now : Int) (userId id technicianId : ObjectId)
    (estimatedResolutionTime : Option Int) (priority : Option Priority)
    (complaint : Complaint) (technician : Technician)
    (hc : s.findComplaintById id = some complaint)
    (ht : s.findTechnicianById technicianId = some technician)
    (hspec : complaint.category ∈ technician.specialization) :
    (assignComplaint s now userId id technicianId estimatedResolutionTime priority).1
        = .json 200
            { complaint with
              assignedTo := some technicianId
              assignedAt := some now
              status := .assigned
              estimatedResolutionTime :=
                match estimatedResolutionTime with
                | some e => some e
                | none => complaint.estimatedResolutionTime
              priority :=
                match priority with
                | some p => p
                | none => complaint.priority
              statusHistory := complaint.statusHistory ++
                [{ status := .assigned, changedAt := now, changedBy := userId }] }
            "Complaint assigned successfully" ∧
    (assignComplaint s now userId id technicianId estimatedResolutionTime
        priority).2.findComplaintById id
        = some
            { complaint with
              assignedTo := some technicianId
              assignedAt := some now
              status := .assigned
              estimatedResolutionTime :=
                match estimatedResolutionTime with
                | some e => some e
                | none => complaint.estimatedResolutionTime
              priority :=
                match priority with
                | some p => p
                | none => complaint.priority
              statusHistory := complaint.statusHistory ++
                [{ status := .assigned, changedAt := now, changedBy := userId }] } ∧
    (assignComplaint s now userId id technicianId estimatedResolutionTime
        priority).2.findTechnicianById technicianId
        = some { technician with activeComplaints := technician.activeComplaints + 1 } := by
  have hcid := findComplaintById_id hc
  have htid := findTechnicianById_id ht
  have hmem : technician.specialization.contains complaint.category = true := by
    simpa using hspec
  cases estimatedResolutionTime <;> cases priority <;>
    (unfold assignComplaint
     simp only [hc, ht, hmem, not_true_eq_false, if_false]
     rw [preSave_of_not_resolved _ _ _ (by simp)]
     exact ⟨rfl, findComplaintById_saveComplaint hc hcid,
       findTechnicianById_saveTechnician (s := s.saveComplaint _) ht htid⟩)

/-- C5 at the first example request: complaint 10 goes to technician 1. -/
theorem assignComplaint_success_witness :
    exampleStore.findComplaintById 10 = some waterComplaint ∧
    exampleStore.findTechnicianById 1 = some waterTechnician ∧
    waterComplaint.category ∈ waterTechnician.specialization ∧
    (assignComplaint exampleStore (feb5 + 3600000) 50 10 1 none (some .urgent)).1
        = .json 200
            { waterComplaint with
              assignedTo := some 1
              assignedAt := some (feb5 + 3600000)
              status := .assigned
              estimatedResolutionTime := waterComplaint.estimatedResolutionTime
              priority := .urgent
              statusHistory := waterComplaint.statusHistory ++
                [{ status := .assigned, changedAt := feb5 + 3600000, changedBy := 50 }] }
            "Complaint assigned successfully" ∧
    (assignComplaint exampleStore (feb5 + 3600000) 50 10 1 none
        (some .urgent)).2.findComplaintById 10
        = some
            { waterComplaint with
              assignedTo := some 1
              assignedAt := some (feb5 + 3600000)
              status := .assigned
              estimatedResolutionTime := waterComplaint.estimatedResolutionTime
              priority := .urgent
              statusHistory := waterComplaint.statusHistory ++
                [{ status := .assigned, changedAt := feb5 + 3600000, changedBy := 50 }] } ∧
    (assignComplaint exampleStore (feb5 + 3600000) 50 10 1 none
        (some .urgent)).2.findTechnicianById 1
        = some { waterTechnician with
            activeComplaints := waterTechnician.activeComplaints + 1 } :=
  ⟨by decide, by decide, by decide,
    assignComplaint_success exampleStore (feb5 + 3600000) 50 10 1 none (some .urgent)
      waterComplaint waterTechnician (by decide) (by decide) (by decide)⟩

/-! ## The technician's counters -/

/-- C6, evaluated on the code: complaint 10 (created at `feb5`) is assigned to
the new technician 1 and resolved 60 hours later.  Through `resolveComplaint`
as through `updateComplaintStatus` the technician ends with
`activeComplaints` 0 and with `resolvedCount`, `totalResolutionTime` and
`avgResolutionTime` all still 0. -/
theorem resolvedCount_not_incremented :
    ((run exampleStore [assignFirst, resolveFirst]).findTechnicianById 1).map
        (fun t => (t.activeComplaints, t.resolvedCount, t.totalResolutionTime,
          t.avgResolutionTime)) = some (0, 0, 0, 0) ∧
    ((run exampleStore [assignFirst, markFirstResolved]).findTechnicianById 1).map
        (fun t => (t.activeComplaints, t.resolvedCount, t.totalResolutionTime,
          t.avgResolutionTime)) = some (0, 0, 0, 0) ∧
    mathRoundDiv (feb7noon - feb5) msPerHour = 60 := by
  decide

theorem mem_saveTechnician {s : Store} {t' t : Technician}
    (h : t ∈ (s.saveTechnician t').technicians) : t ∈ s.technicians ∨ t = t' :=
  mem_map_overwrite (fun d : Technician => d._id) t' s.technicians t h

/-- A property of technicians kept by the three counter updates is kept by the
shared statistics block. -/
theorem updateTechnicianStats_preserves (P : Technician → Prop)
    (hdec : ∀ t, P t → P { t with activeComplaints := max 0 (t.activeComplaints - 1) })
    (havg : ∀ t h, P t → P (t.updateAvgResolutionTime h))
    (s : Store) (c : Complaint) (hs : ∀ t ∈ s.technicians, P t) :
    ∀ t ∈ (updateTechnicianStats s c).technicians, P t := by
  unfold updateTechnicianStats
  split
  · exact hs
  · split
    · exact hs
    · rename_i tid technician hfind
      have hP := hs technician (findTechnicianById_mem hfind)
      intro t ht
      rcases mem_saveTechnician ht with hmem | rfl
      · exact hs t hmem
      · split
        · exact havg _ _ (hdec _ hP)
        · exact hdec _ hP

/-- A property of technicians kept by the three counter updates is kept by
every request. -/
theorem step_preserves (P : Technician → Prop)
    (hinc : ∀ t, P t → P { t with activeComplaints := t.activeComplaints + 1 })
    (hdec : ∀ t, P t → P { t with activeComplaints := max 0 (t.activeComplaints - 1) })
    (havg : ∀ t h, P t → P (t.updateAvgResolutionTime h))
    (s : Store) (c : Call) (hs : ∀ t ∈ s.technicians, P t) :
    ∀ t ∈ (step s c).technicians, P t := by
  unfold step serve
  split
  · unfold assignComplaint
    split
    · exact hs
    · split
      · exact hs
      · rename_i technician hfind
        split
        · exact hs
        · intro t ht
          rcases mem_saveTechnician ht with hmem | rfl
          · exact hs t hmem
          · exact hinc _ (hs technician (findTechnicianById_mem hfind))
  · unfold resolveComplaint
    split
    · exact hs
    · exact updateTechnicianStats_preserves P hdec havg _ _ hs
  · unfold updateComplaintStatus
    split
    · exact hs
    · dsimp only
      split
      · exact updateTechnicianStats_preserves P hdec havg _ _ hs
      · exact hs

/-- A property of technicians kept by the three counter updates is kept by
every sequence of requests. -/
theorem run_preserves (P : Technician → Prop)
    (hinc : ∀ t, P t → P { t with activeComplaints := t.activeComplaints + 1 })
    (hdec : ∀ t, P t → P { t with activeComplaints := max 0 (t.activeComplaints - 1) })
    (havg : ∀ t h, P t → P (t.updateAvgResolutionTime h))
    (calls : List Call) (s : Store) (hs : ∀ t ∈ s.technicians, P t) :
    ∀ t ∈ (run s calls).technicians, P t := by
  induction calls generalizing s with
  | nil => exact hs
  | cons c calls ih =>
    exact ih (step s c) (step_preserves P hinc hdec havg s c hs)

/-- C7: start from a store whose technicians are all newly created
(`resolvedCount = totalResolutionTime = avgResolutionTime = 0`).  After any
sequence of `assignComplaint`, `resolveComplaint` and `updateComplaintStatus`
requests every technician has `avgResolutionTime` equal to
`Math.round(totalResolutionTime / resolvedCount)` when `resolvedCount > 0`,
and equal to 0 when `resolvedCount = 0`. -/
theorem avgResolutionTime_consistent (s : Store) (calls : List Call)
    (hnew : ∀ t ∈ s.technicians,
      t.resolvedCount = 0 ∧ t.totalResolutionTime = 0 ∧ t.avgResolutionTime = 0) :
    ∀ t ∈ (run s calls).technicians,
      (0 < t.resolvedCount →
        t.avgResolutionTime = mathRoundDiv t.totalResolutionTime t.resolvedCount) ∧
      (t.resolvedCount = 0 → t.avgResolutionTime = 0) := by
  have key := run_preserves
    (fun t => 0 ≤ t.resolvedCount ∧
      (0 < t.resolvedCount →
        t.avgResolutionTime = mathRoundDiv t.totalResolutionTime t.resolvedCount) ∧
      (t.resolvedCount = 0 → t.avgResolutionTime = 0))
    (fun t h => h) (fun t h => h)
    (fun t h ht => by
      refine ⟨?_, fun _ => rfl, fun h0 => ?_⟩
      · show 0 ≤ t.resolvedCount + 1
        omega
      · have h1 : t.resolvedCount + 1 = 0 := h0
        omega)
    calls s
    (fun t ht => by
      obtain ⟨h1, _, h3⟩ := hnew t ht
      exact ⟨by omega, fun hpos => by omega, fun _ => h3⟩)
  intro t ht
  exact (key t ht).2

/-- C7 on imported data: technician 1 is new, complaints 12 and 13 carry 24
and 49 hours; after both are set to `resolved` the technician has
`resolvedCount` 2, `totalResolutionTime` 73 and `avgResolutionTime` 37. -/
theorem avgResolutionTime_consistent_witness :
    (∀ t ∈ importedStore.technicians,
      t.resolvedCount = 0 ∧ t.totalResolutionTime = 0 ∧ t.avgResolutionTime = 0) ∧
    ((run importedStore markImportedResolved).findTechnicianById 1).map
        (fun t => (t.resolvedCount, t.totalResolutionTime, t.avgResolutionTime))
      = some (2, 73, 37) ∧
    (∀ t ∈ (run importedStore markImportedResolved).technicians,
      (0 < t.resolvedCount →
        t.avgResolutionTime = mathRoundDiv t.totalResolutionTime t.resolvedCount) ∧
      (t.resolvedCount = 0 → t.avgResolutionTime = 0)) :=
  ⟨by decide, by decide,
    avgResolutionTime_consistent importedStore markImportedResolved (by decide)⟩

/-- C8: when every technician starts with `activeComplaints >= 0`, then after
every prefix of every sequence of `assignComplaint`, `resolveComplaint` and
`updateComplaintStatus` requests every technician has
`activeComplaints >= 0`. -/
theorem activeComplaints_nonneg (s : Store) (calls : List Call) (k : Nat)
    (h0 : ∀ t ∈ s.technicians, 0 ≤ t.activeComplaints) :
    ∀ t ∈ (run s (calls.take k)).technicians, 0 ≤ t.activeComplaints :=
  run_preserves (fun t => 0 ≤ t.activeComplaints)
    (fun t h => by
      show 0 ≤ t.activeComplaints + 1
      omega)
    (fun t _ => le_max_left 0 (t.activeComplaints - 1))
    (fun _ _ h => h)
    (calls.take k) s h0

/-- C8 where the floor matters: complaint 10 is assigned once and resolved
twice, so the second resolution meets a counter that is already 0. -/
theorem activeComplaints_nonneg_witness :
    (∀ t ∈ exampleStore.technicians, 0 ≤ t.activeComplaints) ∧
    ((run exampleStore [assignFirst, resolveFirst]).findTechnicianById 1).map
        (fun t => t.activeComplaints) = some 0 ∧
    (∀ t ∈ (run exampleStore
        ([assignFirst, resolveFirst, resolveFirstAgain].take 3)).technicians,
      0 ≤ t.activeComplaints) :=
  ⟨by decide, by decide,
    activeComplaints_nonneg exampleStore [assignFirst, resolveFirst, resolveFirstAgain] 3
      (by decide)⟩

/-! ## Resolving twice -/

/-- C9, evaluated on the code: complaint 10 is resolved at `feb7noon` with
`resolveComplaint` and resolved again an hour later.  The second
`resolveComplaint` moves `resolvedAt` to the later instant; the same two steps
through `updateComplaintStatus` leave `resolvedAt` at `feb7noon`.
`actualResolutionTime` is unset before and after in both. -/
theorem resolveComplaint_overwrites_resolvedAt :
    ((run exampleStore [assignFirst, resolveFirst]).findComplaintById 10).map
        (fun c => (c.resolvedAt, c.actualResolutionTime))
      = some (some feb7noon, none) ∧
    ((run exampleStore [assignFirst, resolveFirst, resolveFirstAgain]).findComplaintById
        10).map (fun c => (c.resolvedAt, c.actualResolutionTime))
      = some (some (feb7noon + 3600000), none) ∧
    ((run exampleStore [assignFirst, markFirstResolved]).findComplaintById 10).map
        (fun c => (c.resolvedAt, c.actualResolutionTime))
      = some (some feb7noon, none) ∧
    ((run exampleStore
        [assignFirst, markFirstResolved, markFirstResolvedAgain]).findComplaintById
        10).map (fun c => (c.resolvedAt, c.actualResolutionTime))
      = some (some feb7noon, none) := by
  decide

/-- C10, evaluated on the code: technician 1 holds complaints 10 and 11; after
the first resolution of complaint 10 `activeComplaints` is 1, after the second
resolution of the same complaint it is 0, through `resolveComplaint` and
through `updateComplaintStatus` alike, while complaint 11 is still assigned
and the technician has one active complaint.  And complaint 12, already
resolved with 24 hours recorded, is counted by a further
`updateComplaintStatus` to `resolved`: `resolvedCount`, `totalResolutionTime`
and `avgResolutionTime` go from 0, 0, 0 to 1, 24, 24. -/
theorem second_resolution_counts_again :
    ((run exampleStore [assignFirst, assignSecond, resolveFirst]).findTechnicianById
        1).map (fun t => t.activeComplaints) = some 1 ∧
    ((run exampleStore
        [assignFirst, assignSecond, resolveFirst, resolveFirstAgain]).findTechnicianById
        1).map (fun t => t.activeComplaints) = some 0 ∧
    ((run exampleStore
        [assignFirst, assignSecond, markFirstResolved]).findTechnicianById
        1).map (fun t => t.activeComplaints) = some 1 ∧
    ((run exampleStore
        [assignFirst, assignSecond, markFirstResolved,
          markFirstResolvedAgain]).findTechnicianById
        1).map (fun t => t.activeComplaints) = some 0 ∧
    (run exampleStore
        [assignFirst, assignSecond, resolveFirst, resolveFirstAgain]).countActive 1 = 1 ∧
    (importedStore.findComplaintById 12).map (fun c => (c.status, c.resolvedAt))
      = some (.resolved, some (feb5 + 86400000)) ∧
    (importedStore.findTechnicianById 1).map
        (fun t => (t.resolvedCount, t.totalResolutionTime, t.avgResolutionTime))
      = some (0, 0, 0) ∧
    ((run importedStore [markImportedResolvedAgain]).findTechnicianById 1).map
        (fun t => (t.resolvedCount, t.totalResolutionTime, t.avgResolutionTime))
      = some (1, 24, 24) := by
  decide

/-- What the shared statistics block stores for the assignee. -/
theorem findTechnicianById_updateTechnicianStats
    (s : Store) (c : Complaint) (tid : ObjectId) (technician : Technician)
    (ha : c.assignedTo = some tid)
    (ht : s.findTechnicianById tid = some technician) :
    (updateTechnicianStats s c).findTechnicianById tid
      = some (if truthyNumber c.actualResolutionTime then
          Technician.updateAvgResolutionTime
            { technician with activeComplaints := max 0 (technician.activeComplaints - 1) }
            (c.actualResolutionTime.getD 0)
        else
          { technician with
            activeComplaints := max 0 (technician.activeComplaints - 1) }) := by
  have htid := findTechnicianById_id ht
  unfold updateTechnicianStats
  simp only [ha, ht]
  apply findTechnicianById_saveTechnician ht
  split <;> exact htid

/-- The technician stored by `resolveComplaint` for the complaint's assignee. -/
theorem resolveComplaint_technician
    (s : Store) (now : Int) (userId id tid : ObjectId)
    (resolutionNotes : Option String) (files : List String)
    (complaint : Complaint) (technician : Technician)
    (hc : s.findComplaintById id = some complaint)
    (ha : complaint.assignedTo = some tid)
    (ht : s.findTechnicianById tid = some technician) :
    (resolveComplaint s now userId id resolutionNotes files).2.findTechnicianById tid
      = some (if truthyNumber complaint.actualResolutionTime then
          Technician.updateAvgResolutionTime
            { technician with activeComplaints := max 0 (technician.activeComplaints - 1) }
            (complaint.actualResolutionTime.getD 0)
        else
          { technician with
            activeComplaints := max 0 (technician.activeComplaints - 1) }) := by
  unfold resolveComplaint
  simp only [hc]
  rw [preSave_of_resolvedAt _ _ _ now rfl]
  exact findTechnicianById_updateTechnicianStats (s.saveComplaint _) _ tid technician ha ht

/-- The technician stored by `updateComplaintStatus` with status `resolved`
for the complaint's assignee. -/
theorem updateComplaintStatus_resolved_technician
    (s : Store) (now : Int) (userId id tid : ObjectId) (notes : Option String)
    (complaint : Complaint) (technician : Technician)
    (hc : s.findComplaintById id = some complaint)
    (ha : complaint.assignedTo = some tid)
    (ht : s.findTechnicianById tid = some technician) :
    (updateComplaintStatus s now userId id .resolved notes).2.findTechnicianById tid
      = some (if truthyNumber complaint.actualResolutionTime then
          Technician.updateAvgResolutionTime
            { technician with activeComplaints := max 0 (technician.activeComplaints - 1) }
            (complaint.actualResolutionTime.getD 0)
        else
          { technician with
            activeComplaints := max 0 (technician.activeComplaints - 1) }) := by
  unfold updateComplaintStatus
  simp only [hc, if_true, true_and]
  cases hr : complaint.resolvedAt with
  | none =>
    cases hn : truthyString notes
    · simp only [hr, if_true, Bool.false_eq_true, if_false]
      rw [preSave_of_resolvedAt _ _ _ now rfl]
      exact findTechnicianById_updateTechnicianStats (s.saveComplaint _) _ tid technician
        ha ht
    · simp only [hr, if_true]
      rw [preSave_of_resolvedAt _ _ _ now rfl]
      exact findTechnicianById_updateTechnicianStats (s.saveComplaint _) _ tid technician
        ha ht
  | some r =>
    cases hn : truthyString notes
    · simp only [hr, Bool.false_eq_true, if_false, reduceCtorEq]
      rw [preSave_of_resolvedAt _ _ _ r rfl]
      exact findTechnicianById_updateTechnicianStats (s.saveComplaint _) _ tid technician
        ha ht
    · simp only [hr, if_true, if_false, reduceCtorEq]
      rw [preSave_of_resolvedAt _ _ _ r rfl]
      exact findTechnicianById_updateTechnicianStats (s.saveComplaint _) _ tid technician
        ha ht

/-- What the two resolving handlers store for the assignee, whether or not
the complaint was resolved before: `activeComplaints` becomes
`max(0, activeComplaints - 1)`, and `updateAvgResolutionTime` runs exactly
when the complaint's `actualResolutionTime` is set and not 0.  Neither handler
looks at the status the complaint had. -/
theorem resolution_updates_technician_every_time
    (s : Store) (now : Int) (userId id tid : ObjectId)
    (resolutionNotes notes : Option String) (files : List String)
    (complaint : Complaint) (technician : Technician)
    (hc : s.findComplaintById id = some complaint)
    (ha : complaint.assignedTo = some tid)
    (ht : s.findTechnicianById tid = some technician) :
    ∃ t' : Technician,
      (resolveComplaint s now userId id resolutionNotes files).2.findTechnicianById tid
        = some t' ∧
      (updateComplaintStatus s now userId id .resolved notes).2.findTechnicianById tid
        = some t' ∧
      t'.activeComplaints = max 0 (technician.activeComplaints - 1) ∧
      (truthyNumber complaint.actualResolutionTime = false →
        t'.resolvedCount = technician.resolvedCount ∧
        t'.totalResolutionTime = technician.totalResolutionTime ∧
        t'.avgResolutionTime = technician.avgResolutionTime) ∧
      (∀ h : Int, complaint.actualResolutionTime = some h → h ≠ 0 →
        t'.resolvedCount = technician.resolvedCount + 1 ∧
        t'.totalResolutionTime = technician.totalResolutionTime + h ∧
        t'.avgResolutionTime =
          mathRoundDiv (technician.totalResolutionTime + h) (technician.resolvedCount + 1)) := by
  refine ⟨_, resolveComplaint_technician s now userId id tid resolutionNotes files
    complaint technician hc ha ht,
    updateComplaintStatus_resolved_technician s now userId id tid notes
    complaint technician hc ha ht, ?_, ?_, ?_⟩
  · split <;> rfl
  · intro hfalse
    simp only [hfalse, Bool.false_eq_true, if_false, and_self]
  · intro h hsome hne
    have htrue : truthyNumber complaint.actualResolutionTime = true := by
      simp [hsome, truthyNumber, hne]
    rw [if_pos htrue, hsome]
    exact ⟨rfl, rfl, rfl⟩

/-- The technician update at the second resolution of complaint 10, with
technician 1 still holding complaint 11: the counter goes from 1 to 0. -/
theorem resolution_updates_technician_every_time_witness :
    (run exampleStore [assignFirst, assignSecond, resolveFirst]).findComplaintById 10
      = some waterComplaintResolved ∧
    waterComplaintResolved.assignedTo = some 1 ∧
    (run exampleStore [assignFirst, assignSecond, resolveFirst]).findTechnicianById 1
      = some { waterTechnician with activeComplaints := 1 } ∧
    ∃ t' : Technician,
      (resolveComplaint (run exampleStore [assignFirst, assignSecond, resolveFirst])
          (feb7noon + 3600000) 100 10 (some "Pipe replaced") []).2.findTechnicianById 1
        = some t' ∧
      (updateComplaintStatus (run exampleStore [assignFirst, assignSecond, resolveFirst])
          (feb7noon + 3600000) 100 10 .resolved none).2.findTechnicianById 1
        = some t' ∧
      t'.activeComplaints
        = max 0 (({ waterTechnician with activeComplaints := 1 } : Technician).activeComplaints
            - 1) ∧
      (truthyNumber waterComplaintResolved.actualResolutionTime = false →
        t'.resolvedCount
          = ({ waterTechnician with activeComplaints := 1 } : Technician).resolvedCount ∧
        t'.totalResolutionTime
          = ({ waterTechnician with activeComplaints := 1 } : Technician).totalResolutionTime ∧
        t'.avgResolutionTime
          = ({ waterTechnician with activeComplaints := 1 } : Technician).avgResolutionTime) ∧
      (∀ h : Int, waterComplaintResolved.actualResolutionTime = some h → h ≠ 0 →
        t'.resolvedCount
          = ({ waterTechnician with activeComplaints := 1 } : Technician).resolvedCount + 1 ∧
        t'.totalResolutionTime
          = ({ waterTechnician with activeComplaints := 1 } : Technician).totalResolutionTime
            + h ∧
        t'.avgResolutionTime =
          mathRoundDiv
            (({ waterTechnician with activeComplaints := 1 } : Technician).totalResolutionTime
              + h)
            (({ waterTechnician with activeComplaints := 1 } : Technician).resolvedCount
              + 1)) :=
  ⟨by decide, by decide, by decide,
    resolution_updates_technician_every_time
      (run exampleStore [assignFirst, assignSecond, resolveFirst])
      (feb7noon + 3600000) 100 10 1 (some "Pipe replaced") none []
      waterComplaintResolved { waterTechnician with activeComplaints := 1 }
      (by decide) (by decide) (by decide)⟩

/-! ## Rejection and re-assignment -/

/-- C11, evaluated on the code: technician 1 starts at 0 and is assigned
complaints 10, 11 and 14 (counter 1, 2, 3); complaint 10 is resolved (counter
2, `resolvedCount` still 0); complaint 11 is rejected while assigned, and the
counter stays 2 with `resolvedCount`, `totalResolutionTime` and
`avgResolutionTime` 0, while only complaint 14 is still active. -/
theorem activeComplaints_unchanged_by_reject :
    ((run threeComplaintStore [assignFirst, assignSecond, assignThird]).findTechnicianById
        1).map (fun t => t.activeComplaints) = some 3 ∧
    ((run threeComplaintStore
        [assignFirst, assignSecond, assignThird, resolveFirst]).findTechnicianById 1).map
        (fun t => (t.activeComplaints, t.resolvedCount)) = some (2, 0) ∧
    ((run threeComplaintStore
        [assignFirst, assignSecond, assignThird, resolveFirst]).findComplaintById 11).map
        (fun c => (c.status, c.assignedTo)) = some (.assigned, some 1) ∧
    ((run threeComplaintStore
        [assignFirst, assignSecond, assignThird, resolveFirst,
          rejectSecond]).findComplaintById 11).map
        (fun c => (c.status, c.assignedTo)) = some (.rejected, some 1) ∧
    ((run threeComplaintStore
        [assignFirst, assignSecond, assignThird, resolveFirst,
          rejectSecond]).findTechnicianById 1).map
        (fun t => (t.activeComplaints, t.resolvedCount, t.totalResolutionTime,
          t.avgResolutionTime)) = some (2, 0, 0, 0) ∧
    (run threeComplaintStore
        [assignFirst, assignSecond, assignThird, resolveFirst,
          rejectSecond]).countActive 1 = 1 := by
  decide

/-- C12, evaluated on the code: complaint 10 is assigned to technician 1 and
then, still `assigned`, to technician 3, who is eligible.  Technician 3 goes
from 0 to 1; technician 1 keeps `activeComplaints` 1 although no complaint is
assigned to that technician any more. -/
theorem reassignment_keeps_old_counter :
    ((run threeComplaintStore [assignFirst]).findComplaintById 10).map
        (fun c => (c.status, c.assignedTo)) = some (.assigned, some 1) ∧
    ((run threeComplaintStore [assignFirst]).findTechnicianById 1).map
        (fun t => t.activeComplaints) = some 1 ∧
    ((run threeComplaintStore [assignFirst]).findTechnicianById 3).map
        (fun t => t.activeComplaints) = some 0 ∧
    ((run threeComplaintStore [assignFirst, reassignFirst]).findComplaintById 10).map
        (fun c => (c.status, c.assignedTo)) = some (.assigned, some 3) ∧
    ((run threeComplaintStore [assignFirst, reassignFirst]).findTechnicianById 1).map
        (fun t => t.activeComplaints) = some 1 ∧
    ((run threeComplaintStore [assignFirst, reassignFirst]).findTechnicianById 3).map
        (fun t => t.activeComplaints) = some 1 ∧
    (run threeComplaintStore [assignFirst, reassignFirst]).countActive 1 = 0 := by
  decide

/-! ## The pre-save hook -/

/-- The resolved branch of the hook. -/
theorem preSave_resolved (orig c : Complaint) (now created : Int)
    (hmod : c.status ≠ orig.status) (hres : c.status = .resolved)
    (hunset : c.resolvedAt = none) (hcreated : c.createdAt = some created) :
    preSave orig c now =
      { c with resolvedAt := some now
               actualResolutionTime := some (mathRoundDiv (now - created) msPerHour) } := by
  unfold preSave
  rw [if_pos ⟨hmod, hres, hunset⟩]
  simp only [hcreated]

/-- The value `mathRoundDiv d msPerHour` is the integer nearest to
`d / 3600000`, the upper one at a tie. -/
theorem mathRoundDiv_msPerHour_nearest (d : Int) :
    2 * d - 3600000 < 7200000 * mathRoundDiv d msPerHour ∧
    7200000 * mathRoundDiv d msPerHour ≤ 2 * d + 3600000 := by
  unfold mathRoundDiv msPerHour
  omega

/-- C16 as stated fails: the document was created 60 hours after the clock
reading of its resolution, and the hook writes -60. -/
theorem preSave_negative_hours :
    skewedResolving.createdAt = some feb7noon ∧
    (preSave waterComplaintAssigned skewedResolving feb5).resolvedAt = some feb5 ∧
    (preSave waterComplaintAssigned skewedResolving feb5).actualResolutionTime
      = some (-60) := by
  decide

/-- C16, amended: the hook writes `Math.round((now - createdAt) / 3600000)`
with no lower bound.  The value is at least 0 whenever the resolution instant
is not before `createdAt`; when it is before, the value is 0 for a skew of at
most half an hour and negative for a larger one. -/
theorem preSave_hours_sign (orig c : Complaint) (now created : Int)
    (hmod : c.status ≠ orig.status) (hres : c.status = .resolved)
    (hunset : c.resolvedAt = none) (hcreated : c.createdAt = some created) :
    (preSave orig c now).actualResolutionTime
      = some (mathRoundDiv (now - created) msPerHour) ∧
    (created ≤ now → 0 ≤ mathRoundDiv (now - created) msPerHour) ∧
    (now < created → created - now ≤ 1800000 →
      mathRoundDiv (now - created) msPerHour = 0) ∧
    (1800000 < created - now → mathRoundDiv (now - created) msPerHour < 0) := by
  rw [preSave_resolved orig c now created hmod hres hunset hcreated]
  have h := mathRoundDiv_msPerHour_nearest (now - created)
  refine ⟨rfl, fun h1 => by omega, fun h1 h2 => by omega, fun h1 => by omega⟩

/-- The amended C16 at a skew of 60 hours. -/
theorem preSave_hours_sign_witness :
    skewedResolving.status ≠ waterComplaintAssigned.status ∧
    skewedResolving.status = .resolved ∧
    skewedResolving.resolvedAt = none ∧
    skewedResolving.createdAt = some feb7noon ∧
    ((preSave waterComplaintAssigned skewedResolving feb5).actualResolutionTime
      = some (mathRoundDiv (feb5 - feb7noon) msPerHour) ∧
    (feb7noon ≤ feb5 → 0 ≤ mathRoundDiv (feb5 - feb7noon) msPerHour) ∧
    (feb5 < feb7noon → feb7noon - feb5 ≤ 1800000 →
      mathRoundDiv (feb5 - feb7noon) msPerHour = 0) ∧
    (1800000 < feb7noon - feb5 → mathRoundDiv (feb5 - feb7noon) msPerHour < 0)) :=
  ⟨by decide, by decide, by decide, by decide,
    preSave_hours_sign waterComplaintAssigned skewedResolving feb5 feb7noon
      (by decide) (by decide) (by decide) (by decide)⟩

/-- C17: when the hook takes its resolved branch (status changed to
`resolved`, `resolvedAt` unset, `createdAt` present) it stores the current
time in `resolvedAt` and, in `actualResolutionTime`, the integer nearest to
`(resolvedAt - createdAt) / 3600000`, the upper one at a tie, and changes no
other field; from 2024-02-05T00:00:00 to 2024-02-07T12:00:00 this is 60. -/
theorem preSave_resolved_branch (orig c : Complaint) (now created : Int)
    (hmod : c.status ≠ orig.status) (hres : c.status = .resolved)
    (hunset : c.resolvedAt = none) (hcreated : c.createdAt = some created) :
    preSave orig c now =
      { c with resolvedAt := some now
               actualResolutionTime := some (mathRoundDiv (now - created) msPerHour) } ∧
    2 * (now - created) - 3600000 < 7200000 * mathRoundDiv (now - created) msPerHour ∧
    7200000 * mathRoundDiv (now - created) msPerHour ≤ 2 * (now - created) + 3600000 ∧
    mathRoundDiv (feb7noon - feb5) msPerHour = 60 :=
  ⟨preSave_resolved orig c now created hmod hres hunset hcreated,
    (mathRoundDiv_msPerHour_nearest (now - created)).1,
    (mathRoundDiv_msPerHour_nearest (now - created)).2, by decide⟩

/-- C17 on the scenario: created at `feb5`, saved as resolved at `feb7noon`. -/
theorem preSave_resolved_branch_witness :
    waterComplaintResolving.status ≠ waterComplaintAssigned.status ∧
    waterComplaintResolving.status = .resolved ∧
    waterComplaintResolving.resolvedAt = none ∧
    waterComplaintResolving.createdAt = some feb5 ∧
    (preSave waterComplaintAssigned waterComplaintResolving feb7noon).actualResolutionTime
      = some 60 ∧
    (preSave waterComplaintAssigned waterComplaintResolving feb7noon =
      { waterComplaintResolving with
        resolvedAt := some feb7noon
        actualResolutionTime := some (mathRoundDiv (feb7noon - feb5) msPerHour) } ∧
    2 * (feb7noon - feb5) - 3600000
      < 7200000 * mathRoundDiv (feb7noon - feb5) msPerHour ∧
    7200000 * mathRoundDiv (feb7noon - feb5) msPerHour
      ≤ 2 * (feb7noon - feb5) + 3600000 ∧
    mathRoundDiv (feb7noon - feb5) msPerHour = 60) :=
  ⟨by decide, by decide, by decide, by decide, by decide,
    preSave_resolved_branch waterComplaintAssigned waterComplaintResolving feb7noon feb5
      (by decide) (by decide) (by decide) (by decide)⟩

/-! ## What `updateComplaintStatus` stores -/

/-- The handler `updateComplaintStatus` on an existing complaint: the answer
and the complaint written. -/
theorem updateComplaintStatus_saved
    (s : Store) (now : Int) (userId id : ObjectId) (status : Status)
    (notes : Option String) (orig : Complaint)
    (h : s.findComplaintById id = some orig) :
    (updateComplaintStatus s now userId id status notes).1
        = .json 200 (statusUpdated orig now userId status notes)
            "Complaint status updated successfully" ∧
    (updateComplaintStatus s now userId id status notes).2.findComplaintById id
        = some (statusUpdated orig now userId status notes) := by
  have hid := findComplaintById_id h
  have key : updateComplaintStatus s now userId id status notes
      = (.json 200 (statusUpdated orig now userId status notes)
          "Complaint status updated successfully",
        if status = .resolved then
          updateTechnicianStats
            (s.saveComplaint (statusUpdated orig now userId status notes))
            (statusUpdated orig now userId status notes)
        else s.saveComplaint (statusUpdated orig now userId status notes)) := by
    unfold updateComplaintStatus
    simp only [h]
    cases hn : truthyString notes <;> by_cases hres : status = .resolved <;>
      cases hr : orig.resolvedAt <;> simp [statusUpdated, hn, hres, hr, preSave]
  rw [key]
  refine ⟨rfl, ?_⟩
  have hstore : (s.saveComplaint (statusUpdated orig now userId status notes)).findComplaintById
      id = some (statusUpdated orig now userId status notes) :=
    findComplaintById_saveComplaint h hid
  show Store.findComplaintById (if status = .resolved then _ else _) id = _
  split
  · rw [findComplaintById_updateTechnicianStats]
    exact hstore
  · exact hstore

/-- C18: for every existing complaint and every status `s` of the enumeration,
`updateComplaintStatus` answers 200 and stores the complaint with
`status = s`, with exactly one entry (s, now, acting user) appended at the end
of `statusHistory`, with exactly one entry (notes, now, acting user) appended
to `internalNotes` when notes is given as a non-empty string and
`internalNotes` as before when it is absent or empty, and with `category`,
`description`, `location`, `citizenPhone`, `priority` and `assignedTo`
unchanged. -/
theorem updateComplaintStatus_effect
    (s : Store) (now : Int) (userId id : ObjectId) (status : Status)
    (notes : Option String) (orig : Complaint)
    (h : s.findComplaintById id = some orig) :
    ∃ saved : Complaint,
      (updateComplaintStatus s now userId id status notes).1
          = .json 200 saved "Complaint status updated successfully" ∧
      (updateComplaintStatus s now userId id status notes).2.findComplaintById id
          = some saved ∧
      saved.status = status ∧
      saved.statusHistory = orig.statusHistory ++
          [{ status := status, changedAt := now, changedBy := userId }] ∧
      (∀ text : String, notes = some text → text ≠ "" →
        saved.internalNotes = orig.internalNotes ++
          [{ note := text, addedBy := userId, addedAt := now }]) ∧
      (notes = none ∨ notes = some "" → saved.internalNotes = orig.internalNotes) ∧
      saved.category = orig.category ∧
      saved.description = orig.description ∧
      saved.location = orig.location ∧
      saved.citizenPhone = orig.citizenPhone ∧
      saved.priority = orig.priority ∧
      saved.assignedTo = orig.assignedTo := by
  obtain ⟨h1, h2⟩ := updateComplaintStatus_saved s now userId id status notes orig h
  refine ⟨_, h1, h2, rfl, rfl, ?_, ?_, rfl, rfl, rfl, rfl, rfl, rfl⟩
  · intro text hsome hne
    simp [statusUpdated, hsome, truthyString, hne]
  · intro hnone
    rcases hnone with hnone | hnone <;> simp [statusUpdated, hnone, truthyString]

/-- C18 on complaint 10 after `assignFirst`: the technician (user 100) sets it
to `in-progress` with the note "Work started". -/
theorem updateComplaintStatus_effect_witness :
    (run exampleStore [assignFirst]).findComplaintById 10 = some waterComplaintAssigned ∧
    ∃ saved : Complaint,
      (updateComplaintStatus (run exampleStore [assignFirst]) (feb5 + 7200000) 100 10
          .inProgress (some "Work started")).1
          = .json 200 saved "Complaint status updated successfully" ∧
      (updateComplaintStatus (run exampleStore [assignFirst]) (feb5 + 7200000) 100 10
          .inProgress (some "Work started")).2.findComplaintById 10
          = some saved ∧
      saved.status = .inProgress ∧
      saved.statusHistory = waterComplaintAssigned.statusHistory ++
          [{ status := .inProgress, changedAt := feb5 + 7200000, changedBy := 100 }] ∧
      (∀ text : String, some "Work started" = some text → text ≠ "" →
        saved.internalNotes = waterComplaintAssigned.internalNotes ++
          [{ note := text, addedBy := 100, addedAt := feb5 + 7200000 }]) ∧
      ((some "Work started" : Option String) = none ∨ some "Work started" = some "" →
        saved.internalNotes = waterComplaintAssigned.internalNotes) ∧
      saved.category = waterComplaintAssigned.category ∧
      saved.description = waterComplaintAssigned.description ∧
      saved.location = waterComplaintAssigned.location ∧
      saved.citizenPhone = waterComplaintAssigned.citizenPhone ∧
      saved.priority = waterComplaintAssigned.priority ∧
      saved.assignedTo = waterComplaintAssigned.assignedTo :=
  ⟨by decide,
    updateComplaintStatus_effect (run exampleStore [assignFirst]) (feb5 + 7200000) 100 10
      .inProgress (some "Work started") waterComplaintAssigned (by decide)⟩

/-- C19 as stated fails: complaint 10 is new and has no assignee;
`updateComplaintStatus` with status `assigned` answers 200 and the stored
complaint is `assigned`, with one more history entry and still no assignee. -/
theorem assigned_without_assignee_accepted :
    (exampleStore.findComplaintById 10).map
        (fun c => (c.status, c.assignedTo, c.statusHistory.length))
      = some (.submitted, none, 1) ∧
    (updateComplaintStatus exampleStore (feb5 + 3600000) 50 10 .assigned none).1.statusCode
      = 200 ∧
    ((updateComplaintStatus exampleStore (feb5 + 3600000) 50 10 .assigned
        none).2.findComplaintById 10).map
        (fun c => (c.status, c.assignedTo, c.statusHistory.length))
      = some (.assigned, none, 2) := by
  decide

/-- C19, amended: `updateComplaintStatus` has no assignee check.  For every
existing complaint with `assignedTo` unset, a request for status `assigned`
answers 200 and stores the complaint with status `assigned`, one `assigned`
entry appended to `statusHistory` and `assignedTo` still unset. -/
theorem updateComplaintStatus_assigned_without_assignee
    (s : Store) (now : Int) (userId id : ObjectId) (notes : Option String)
    (orig : Complaint)
    (h : s.findComplaintById id = some orig)
    (hnone : orig.assignedTo = none) :
    ∃ saved : Complaint,
      (updateComplaintStatus s now userId id .assigned notes).1
          = .json 200 saved "Complaint status updated successfully" ∧
      (updateComplaintStatus s now userId id .assigned notes).2.findComplaintById id
          = some saved ∧
      saved.status = .assigned ∧
      saved.statusHistory = orig.statusHistory ++
          [{ status := .assigned, changedAt := now, changedBy := userId }] ∧
      saved.assignedTo = none := by
  obtain ⟨h1, h2⟩ := updateComplaintStatus_saved s now userId id .assigned notes orig h
  exact ⟨_, h1, h2, rfl, rfl, hnone⟩

/-- The amended C19 on the new complaint 10. -/
theorem updateComplaintStatus_assigned_without_assignee_witness :
    exampleStore.findComplaintById 10 = some waterComplaint ∧
    waterComplaint.assignedTo = none ∧
    ∃ saved : Complaint,
      (updateComplaintStatus exampleStore (feb5 + 3600000) 50 10 .assigned none).1
          = .json 200 saved "Complaint status updated successfully" ∧
      (updateComplaintStatus exampleStore (feb5 + 3600000) 50 10 .assigned
          none).2.findComplaintById 10 = some saved ∧
      saved.status = .assigned ∧
      saved.statusHistory = waterComplaint.statusHistory ++
          [{ status := .assigned, changedAt := feb5 + 3600000, changedBy := 50 }] ∧
      saved.assignedTo = none :=
  ⟨by decide, by decide,
    updateComplaintStatus_assigned_without_assignee exampleStore (feb5 + 3600000) 50 10
      none waterComplaint (by decide) (by decide)⟩

/-! ## The handlers as equations -/

theorem assignComplaint_eq
    (s : Store) (now : Int) (userId id technicianId : ObjectId)
    (estimatedResolutionTime : Option Int) (priority : Option Priority)
    (orig : Complaint) (technician : Technician)
    (hc : s.findComplaintById id = some orig)
    (ht : s.findTechnicianById technicianId = some technician)
    (hspec : orig.category ∈ technician.specialization) :
    assignComplaint s now userId id technicianId estimatedResolutionTime priority
      = (.json 200
          (assignedDoc orig now userId technicianId estimatedResolutionTime priority)
          "Complaint assigned successfully",
        (s.saveComplaint
          (assignedDoc orig now userId technicianId estimatedResolutionTime
            priority)).saveTechnician
          { technician with activeComplaints := technician.activeComplaints + 1 }) := by
  have hmem : technician.specialization.contains orig.category = true := by
    simpa using hspec
  cases estimatedResolutionTime <;> cases priority <;>
    (unfold assignComplaint
     simp only [hc, ht, hmem, not_true_eq_false, if_false]
     rw [preSave_of_not_resolved _ _ _ (by simp)]
     rfl)

theorem resolveComplaint_eq
    (s : Store) (now : Int) (userId id : ObjectId)
    (resolutionNotes : Option String) (files : List String) (orig : Complaint)
    (hc : s.findComplaintById id = some orig) :
    resolveComplaint s now userId id resolutionNotes files
      = (.json 200 (resolvedDoc orig now userId resolutionNotes files)
          "Complaint resolved successfully",
        updateTechnicianStats
          (s.saveComplaint (resolvedDoc orig now userId resolutionNotes files))
          (resolvedDoc orig now userId resolutionNotes files)) := by
  unfold resolveComplaint
  simp only [hc]
  rw [preSave_of_resolvedAt _ _ _ now rfl]
  rfl

theorem updateComplaintStatus_eq
    (s : Store) (now : Int) (userId id : ObjectId) (status : Status)
    (notes : Option String) (orig : Complaint)
    (h : s.findComplaintById id = some orig) :
    updateComplaintStatus s now userId id status notes
      = (.json 200 (statusUpdated orig now userId status notes)
          "Complaint status updated successfully",
        if status = .resolved then
          updateTechnicianStats
            (s.saveComplaint (statusUpdated orig now userId status notes))
            (statusUpdated orig now userId status notes)
        else s.saveComplaint (statusUpdated orig now userId status notes)) := by
  unfold updateComplaintStatus
  simp only [h]
  cases hn : truthyString notes <;> by_cases hres : status = .resolved <;>
    cases hr : orig.resolvedAt <;> simp [statusUpdated, hn, hres, hr, preSave]

theorem addInternalNote_eq
    (s : Store) (now : Int) (userId id : ObjectId) (note : String) (orig : Complaint)
    (h : s.findComplaintById id = some orig) :
    addInternalNote s now userId id note
      = (.json 200 (notedDoc orig now userId note) "Note added successfully",
        s.saveComplaint (notedDoc orig now userId note)) := by
  unfold addInternalNote
  simp only [h]
  have hp : preSave orig (notedDoc orig now userId note) now
      = notedDoc orig now userId note := by
    unfold preSave
    simp [notedDoc]
  unfold notedDoc at hp ⊢
  rw [hp]

/-! ## What one request does to the complaint collection -/

/-- One request leaves the complaint collection alone, or appends one newly
created complaint, or overwrites one stored complaint with a document that
extends its status history and either keeps its assignment fields or (an
`assignComplaint`) sets both. -/
theorem advance_complaints (s : Store) (e : Event) :
    (advance s e).complaints = s.complaints ∨
    (∃ c : Complaint, (advance s e).complaints = s.complaints ++ [c] ∧
        c.status = .submitted ∧
        c.statusHistory =
          [{ status := .submitted, changedAt := e.now, changedBy := e.userId }] ∧
        c.assignedTo = none ∧ c.assignedAt = none) ∨
    (∃ (id : ObjectId) (orig saved : Complaint),
        s.findComplaintById id = some orig ∧ saved._id = id ∧
        (advance s e).complaints = (s.saveComplaint saved).complaints ∧
        orig.statusHistory <+: saved.statusHistory ∧
        ((saved.assignedTo = orig.assignedTo ∧ saved.assignedAt = orig.assignedAt) ∨
          (e.request.isAssign = true ∧ saved.assignedTo.isSome = true ∧
            saved.assignedAt.isSome = true))) := by
  obtain ⟨now, userId, request⟩ := e
  cases request with
  | createComplaint newId fullYear month body files =>
    simp only [advance, handle]
    unfold createComplaint
    split
    · dsimp only
      split
      · exact Or.inl rfl
      · split
        · exact Or.inl rfl
        · split
          · exact Or.inl rfl
          · exact Or.inr (Or.inl ⟨_, rfl, rfl, rfl, rfl, rfl⟩)
    · exact Or.inl rfl
  | addInternalNote id note =>
    simp only [advance, handle]
    cases hfind : s.findComplaintById id with
    | none =>
      left
      unfold addInternalNote
      simp only [hfind]
    | some orig =>
      right; right
      rw [addInternalNote_eq s now userId id note orig hfind]
      exact ⟨id, orig, notedDoc orig now userId note, hfind, (findComplaintById_id hfind : orig._id = id),
        rfl, List.prefix_refl _, Or.inl ⟨rfl, rfl⟩⟩
  | mutate op =>
    cases op with
    | assign id technicianId est priority =>
      simp only [advance, handle, serve]
      cases hfind : s.findComplaintById id with
      | none =>
        left
        unfold assignComplaint
        simp only [hfind]
      | some orig =>
        cases ht : s.findTechnicianById technicianId with
        | none =>
          left
          unfold assignComplaint
          simp only [hfind, ht]
        | some technician =>
          by_cases hspec : orig.category ∈ technician.specialization
          · right; right
            rw [assignComplaint_eq s now userId id technicianId est priority orig
              technician hfind ht hspec]
            exact ⟨id, orig, assignedDoc orig now userId technicianId est priority, hfind,
              (findComplaintById_id hfind : orig._id = id), rfl, List.prefix_append _ _,
              Or.inr ⟨rfl, rfl, rfl⟩⟩
          · left
            unfold assignComplaint
            simp [hfind, ht, hspec]
    | resolve id notes files =>
      simp only [advance, handle, serve]
      cases hfind : s.findComplaintById id with
      | none =>
        left
        unfold resolveComplaint
        simp only [hfind]
      | some orig =>
        right; right
        rw [resolveComplaint_eq s now userId id notes files orig hfind]
        exact ⟨id, orig, resolvedDoc orig now userId notes files, hfind,
          (findComplaintById_id hfind : orig._id = id), updateTechnicianStats_complaints _ _,
          List.prefix_append _ _, Or.inl ⟨rfl, rfl⟩⟩
    | updateStatus id status notes =>
      simp only [advance, handle, serve]
      cases hfind : s.findComplaintById id with
      | none =>
        left
        unfold updateComplaintStatus
        simp only [hfind]
      | some orig =>
        right; right
        rw [updateComplaintStatus_eq s now userId id status notes orig hfind]
        refine ⟨id, orig, statusUpdated orig now userId status notes, hfind,
          (findComplaintById_id hfind : orig._id = id), ?_, List.prefix_append _ _, Or.inl ⟨rfl, rfl⟩⟩
        show Store.complaints (if status = .resolved then _ else _) = _
        split
        · exact updateTechnicianStats_complaints _ _
        · rfl

/-- A stored complaint is still stored after one request, with its status
history extended, its assignee not cleared, and its assignee unchanged unless
the request is an `assignComplaint`. -/
theorem advance_find (s : Store) (e : Event) (id : ObjectId) (c : Complaint)
    (h : s.findComplaintById id = some c) :
    ∃ c' : Complaint, (advance s e).findComplaintById id = some c' ∧
      c.statusHistory <+: c'.statusHistory ∧
      (c.assignedTo.isSome = true → c'.assignedTo.isSome = true) ∧
      (e.request.isAssign = false → c'.assignedTo = c.assignedTo) := by
  rcases advance_complaints s e with heq | ⟨n, heq, -⟩ |
    ⟨id₀, orig, saved, hfind, hid, heq, hpre, hassign⟩
  · refine ⟨c, ?_, List.prefix_refl _, fun hc => hc, fun _ => rfl⟩
    unfold Store.findComplaintById at h ⊢
    rw [heq]
    exact h
  · refine ⟨c, ?_, List.prefix_refl _, fun hc => hc, fun _ => rfl⟩
    unfold Store.findComplaintById at h ⊢
    rw [heq, List.find?_append, h]
    rfl
  · by_cases hsame : id₀ = id
    · subst hsame
      have horig : orig = c := by
        rw [hfind] at h
        exact Option.some.inj h
      subst horig
      refine ⟨saved, ?_, hpre, ?_, ?_⟩
      · have hsaved := findComplaintById_saveComplaint hfind hid
        unfold Store.findComplaintById at hsaved ⊢
        rw [heq]
        exact hsaved
      · intro hc
        rcases hassign with ⟨h1, _⟩ | ⟨_, h2, _⟩
        · rw [h1]; exact hc
        · exact h2
      · intro hno
        rcases hassign with ⟨h1, _⟩ | ⟨h2, _, _⟩
        · exact h1
        · rw [h2] at hno
          exact absurd hno (by decide)
    · refine ⟨c, ?_, List.prefix_refl _, fun hc => hc, fun _ => rfl⟩
      have hother := find_map_overwrite_other (fun d : Complaint => d._id) saved id
        (by show saved._id ≠ id; rw [hid]; exact hsame) s.complaints
      unfold Store.findComplaintById at h ⊢
      rw [heq]
      exact hother.trans h

/-- The two properties of stored complaints that every request keeps: the
assignee is set exactly when `assignedAt` is, and the status history starts
with a `submitted` entry. -/
theorem advance_complaints_inv (s : Store) (e : Event)
    (hs : ∀ c ∈ s.complaints,
      c.assignedTo.isSome = c.assignedAt.isSome ∧
      (c.statusHistory.head?).map (fun h => h.status) = some .submitted) :
    ∀ c ∈ (advance s e).complaints,
      c.assignedTo.isSome = c.assignedAt.isSome ∧
      (c.statusHistory.head?).map (fun h => h.status) = some .submitted := by
  rcases advance_complaints s e with heq | ⟨n, heq, -, hhist, hto, hat⟩ |
    ⟨id₀, orig, saved, hfind, hid, heq, hpre, hassign⟩
  · rw [heq]
    exact hs
  · rw [heq]
    intro c hc
    rcases List.mem_append.1 hc with hc | hc
    · exact hs c hc
    · have hcn : c = n := by simpa using hc
      subst hcn
      rw [hto, hat, hhist]
      exact ⟨rfl, rfl⟩
  · rw [heq]
    intro c hc
    rcases mem_map_overwrite (fun d : Complaint => d._id) saved s.complaints c hc with
      hc | hc
    · exact hs c hc
    · subst hc
      have horig := hs orig (List.mem_of_find?_eq_some hfind)
      constructor
      · rcases hassign with ⟨h1, h2⟩ | ⟨_, h2, h3⟩
        · rw [h1, h2]
          exact horig.1
        · rw [h2, h3]
      · obtain ⟨t, ht⟩ := hpre
        rw [← ht]
        cases hh : orig.statusHistory with
        | nil =>
          have := horig.2
          rw [hh] at this
          simp at this
        | cons a l =>
          have := horig.2
          rw [hh] at this
          simpa using this

/-- The same two properties after a sequence of requests. -/
theorem runEvents_complaints_inv (events : List Event) (s : Store)
    (hs : ∀ c ∈ s.complaints,
      c.assignedTo.isSome = c.assignedAt.isSome ∧
      (c.statusHistory.head?).map (fun h => h.status) = some .submitted) :
    ∀ c ∈ (runEvents s events).complaints,
      c.assignedTo.isSome = c.assignedAt.isSome ∧
      (c.statusHistory.head?).map (fun h => h.status) = some .submitted := by
  induction events generalizing s with
  | nil => exact hs
  | cons e events ih => exact ih (advance s e) (advance_complaints_inv s e hs)

/-! ## Assignee and status -/

/-- C13 as stated fails, in both directions: the new complaint 10 set to
`assigned` through `updateComplaintStatus` has status `assigned` and no
assignee; complaint 10 assigned to technician 1 and then rejected has status
`rejected` and technician 1 as assignee. -/
theorem assignedTo_independent_of_status :
    ((runEvents technicianStore [createFirst, markFirstAssigned]).findComplaintById
        10).map (fun c => (c.status, c.assignedTo)) = some (.assigned, none) ∧
    ((runEvents technicianStore
        [createFirst, assignFirstEvent, rejectFirstEvent]).findComplaintById
        10).map (fun c => (c.status, c.assignedTo)) = some (.rejected, some 1) := by
  decide

/-- C13, amended: start with no complaint stored and serve any sequence of
`createComplaint`, `assignComplaint`, `updateComplaintStatus`,
`resolveComplaint` and `addInternalNote` requests.  Then every stored
complaint has `assignedTo` set exactly when `assignedAt` is set; and one more
request of any kind never clears a complaint's `assignedTo` and, unless it is
an `assignComplaint`, leaves it as it is, whatever status it stores. -/
theorem assignedTo_iff_assignedAt (s0 : Store) (events : List Event)
    (h0 : s0.complaints = []) :
    (∀ c ∈ (runEvents s0 events).complaints,
      (c.assignedTo.isSome = true ↔ c.assignedAt.isSome = true)) ∧
    (∀ (e : Event) (id : ObjectId) (c : Complaint),
      (runEvents s0 events).findComplaintById id = some c →
      ∃ c' : Complaint,
        (advance (runEvents s0 events) e).findComplaintById id = some c' ∧
        (c.assignedTo.isSome = true → c'.assignedTo.isSome = true) ∧
        (e.request.isAssign = false → c'.assignedTo = c.assignedTo)) := by
  constructor
  · intro c hc
    have h := (runEvents_complaints_inv events s0
      (by rw [h0]; intro c hc; simp at hc) c hc).1
    rw [h]
  · intro e id c hc
    obtain ⟨c', h1, _, h3, h4⟩ := advance_find (runEvents s0 events) e id c hc
    exact ⟨c', h1, h3, h4⟩

/-- The amended C13 on complaint 10, created, assigned and rejected. -/
theorem assignedTo_iff_assignedAt_witness :
    technicianStore.complaints = [] ∧
    ((runEvents technicianStore
        [createFirst, assignFirstEvent, rejectFirstEvent]).findComplaintById
        10).map (fun c => (c.status, c.assignedTo, c.assignedAt))
      = some (.rejected, some 1, some (feb5 + 3600000)) ∧
    ((∀ c ∈ (runEvents technicianStore
        [createFirst, assignFirstEvent, rejectFirstEvent]).complaints,
      (c.assignedTo.isSome = true ↔ c.assignedAt.isSome = true)) ∧
    (∀ (e : Event) (id : ObjectId) (c : Complaint),
      (runEvents technicianStore
        [createFirst, assignFirstEvent, rejectFirstEvent]).findComplaintById id = some c →
      ∃ c' : Complaint,
        (advance (runEvents technicianStore
          [createFirst, assignFirstEvent, rejectFirstEvent]) e).findComplaintById id
          = some c' ∧
        (c.assignedTo.isSome = true → c'.assignedTo.isSome = true) ∧
        (e.request.isAssign = false → c'.assignedTo = c.assignedTo))) :=
  ⟨by decide, by decide,
    assignedTo_iff_assignedAt technicianStore
      [createFirst, assignFirstEvent, rejectFirstEvent] (by decide)⟩

/-! ## The status history -/

/-- The two outcomes of `createComplaint`: an error answer with the store as it
was, or 201 with a `submitted` complaint, seeded history, the generated
identifier, appended to the collection. -/
theorem createComplaint_cases (s : Store) (now : Int) (userId newId : ObjectId)
    (fullYear : Nat) (month : Fin 12) (body : CreateBody) (files : List String) :
    (∃ (code : Nat) (text : String),
      createComplaint s now userId newId fullYear month body files
        = (.error code text, s)) ∨
    (∃ c : Complaint,
      createComplaint s now userId newId fullYear month body files
        = (.json 201 c
            ("Complaint registered successfully. Your complaint ID is " ++ c.complaintId),
          { s with complaints := s.complaints ++ [c] }) ∧
      c.status = .submitted ∧
      c.statusHistory = [{ status := .submitted, changedAt := now, changedBy := userId }] ∧
      c.complaintId = generateComplaintId fullYear month s.complaints.length ∧
      c._id = newId ∧
      (∀ d ∈ s.complaints, d._id ≠ newId ∧ d.complaintId ≠ c.complaintId)) := by
  unfold createComplaint
  split
  · rename_i category description location citizenPhone hcat hdesc hloc hphone
    dsimp only
    by_cases h1 : description = "" ∨ citizenPhone = ""
    · left
      rw [if_pos h1]
      exact ⟨_, _, rfl⟩
    · rw [if_neg h1]
      by_cases h2 : validPhone citizenPhone = true
      · rw [if_neg (not_not.2 h2)]
        by_cases h3 : (s.complaints.any (fun d =>
            decide (d._id = newId) ||
              decide (d.complaintId
                = generateComplaintId fullYear month s.complaints.length))) = true
        · left
          rw [if_pos h3]
          exact ⟨_, _, rfl⟩
        · right
          rw [if_neg h3]
          refine ⟨_, rfl, rfl, rfl, rfl, rfl, ?_⟩
          intro d hd
          have hfalse := List.any_eq_false.1 (Bool.not_eq_true _ ▸ h3) d hd
          simpa using hfalse
      · left
        rw [if_pos h2]
        exact ⟨_, _, rfl⟩
  · left
    exact ⟨_, _, rfl⟩

/-- A successful `createComplaint` stores, at the end of the collection, a
`submitted` complaint whose history is the single `submitted` entry. -/
theorem createComplaint_seeded (s : Store) (now : Int) (userId newId : ObjectId)
    (fullYear : Nat) (month : Fin 12) (body : CreateBody) (files : List String)
    (c : Complaint) (message : String)
    (h : (createComplaint s now userId newId fullYear month body files).1
      = .json 201 c message) :
    c.status = .submitted ∧
    c.statusHistory = [{ status := .submitted, changedAt := now, changedBy := userId }] ∧
    (createComplaint s now userId newId fullYear month body files).2.complaints
      = s.complaints ++ [c] := by
  rcases createComplaint_cases s now userId newId fullYear month body files with
    ⟨code, text, heq⟩ | ⟨d, heq, hstatus, hhist, -, -⟩
  · rw [heq] at h
    exact absurd h (by simp)
  · rw [heq] at h ⊢
    simp only [Response.json.injEq, true_and] at h
    obtain ⟨hd, _⟩ := h
    subst hd
    exact ⟨hstatus, hhist, rfl⟩

/-- C20: `createComplaint` answers 201 only with a complaint of status
`submitted` whose `statusHistory` is exactly one `submitted` entry, stored at
the end of the collection; every further request (`createComplaint`,
`assignComplaint`, `updateComplaintStatus`, `resolveComplaint`,
`addInternalNote`) keeps each stored complaint stored with its previous
`statusHistory` as a prefix of the new one; and in every state reached from a
store without complaints the first history entry of every complaint is
`submitted`. -/
theorem statusHistory_append_only (s0 : Store) (events : List Event)
    (h0 : s0.complaints = []) :
    (∀ (s : Store) (now : Int) (userId newId : ObjectId) (fullYear : Nat)
        (month : Fin 12) (body : CreateBody) (files : List String) (c : Complaint)
        (message : String),
      (createComplaint s now userId newId fullYear month body files).1
          = .json 201 c message →
      c.status = .submitted ∧
      c.statusHistory
        = [{ status := .submitted, changedAt := now, changedBy := userId }] ∧
      (createComplaint s now userId newId fullYear month body files).2.complaints
        = s.complaints ++ [c]) ∧
    (∀ (e : Event) (id : ObjectId) (c : Complaint),
      (runEvents s0 events).findComplaintById id = some c →
      ∃ c' : Complaint,
        (advance (runEvents s0 events) e).findComplaintById id = some c' ∧
        c.statusHistory <+: c'.statusHistory) ∧
    (∀ c ∈ (runEvents s0 events).complaints,
      (c.statusHistory.head?).map (fun h => h.status) = some .submitted) := by
  refine ⟨createComplaint_seeded, ?_, ?_⟩
  · intro e id c hc
    obtain ⟨c', h1, h2, _⟩ := advance_find (runEvents s0 events) e id c hc
    exact ⟨c', h1, h2⟩
  · intro c hc
    exact (runEvents_complaints_inv events s0
      (by rw [h0]; intro c hc; simp at hc) c hc).2

/-- C20 on complaint 10: created, annotated, assigned and rejected; its
history reads submitted, assigned, rejected. -/
theorem statusHistory_append_only_witness :
    technicianStore.complaints = [] ∧
    ((runEvents technicianStore
        [createFirst, noteFirst, assignFirstEvent, rejectFirstEvent]).findComplaintById
        10).map (fun c => c.statusHistory.map (fun h => h.status))
      = some [.submitted, .assigned, .rejected] ∧
    ((∀ (s : Store) (now : Int) (userId newId : ObjectId) (fullYear : Nat)
        (month : Fin 12) (body : CreateBody) (files : List String) (c : Complaint)
        (message : String),
      (createComplaint s now userId newId fullYear month body files).1
          = .json 201 c message →
      c.status = .submitted ∧
      c.statusHistory
        = [{ status := .submitted, changedAt := now, changedBy := userId }] ∧
      (createComplaint s now userId newId fullYear month body files).2.complaints
        = s.complaints ++ [c]) ∧
    (∀ (e : Event) (id : ObjectId) (c : Complaint),
      (runEvents technicianStore
        [createFirst, noteFirst, assignFirstEvent, rejectFirstEvent]).findComplaintById id
        = some c →
      ∃ c' : Complaint,
        (advance (runEvents technicianStore
          [createFirst, noteFirst, assignFirstEvent, rejectFirstEvent])
          e).findComplaintById id = some c' ∧
        c.statusHistory <+: c'.statusHistory) ∧
    (∀ c ∈ (runEvents technicianStore
        [createFirst, noteFirst, assignFirstEvent, rejectFirstEvent]).complaints,
      (c.statusHistory.head?).map (fun h => h.status) = some .submitted)) :=
  ⟨by decide, by decide,
    statusHistory_append_only technicianStore
      [createFirst, noteFirst, assignFirstEvent, rejectFirstEvent] (by decide)⟩

/-! ## Decimal strings -/

theorem toString_data (n : Nat) : (toString n).data = Nat.toDigits 10 n := rfl

theorem toDigitsCore_append (b : Nat) (fuel n : Nat) (ds : List Char) :
    Nat.toDigitsCore b fuel n ds = Nat.toDigitsCore b fuel n [] ++ ds := by
  induction fuel generalizing n ds with
  | zero => simp [Nat.toDigitsCore]
  | succ fuel ih =>
    simp only [Nat.toDigitsCore]
    split
    · simp
    · rw [ih (n / b) (Nat.digitChar (n % b) :: ds), ih (n / b) [Nat.digitChar (n % b)]]
      simp

theorem toDigitsCore_fuel (fuel fuel' : Nat) (n : Nat) (ds : List Char)
    (h : n < fuel) (h' : n < fuel') :
    Nat.toDigitsCore 10 fuel n ds = Nat.toDigitsCore 10 fuel' n ds := by
  induction fuel generalizing fuel' n ds with
  | zero => omega
  | succ fuel ih =>
    cases fuel' with
    | zero => omega
    | succ fuel' =>
      simp only [Nat.toDigitsCore]
      split
      · rfl
      · rename_i hne
        have hpos : 0 < n / 10 := Nat.pos_of_ne_zero hne
        apply ih <;> omega

theorem toDigits_of_lt (n : Nat) (h : n < 10) : Nat.toDigits 10 n = [Nat.digitChar n] := by
  have h0 : n / 10 = 0 := by omega
  have h1 : n % 10 = n := by omega
  simp [Nat.toDigits, Nat.toDigitsCore, h0, h1]

theorem toDigits_of_ge (n : Nat) (h : 10 ≤ n) :
    Nat.toDigits 10 n = Nat.toDigits 10 (n / 10) ++ [Nat.digitChar (n % 10)] := by
  have h0 : n / 10 ≠ 0 := by omega
  have hstep : Nat.toDigitsCore 10 (n + 1) n []
      = Nat.toDigitsCore 10 n (n / 10) [Nat.digitChar (n % 10)] := by
    rw [Nat.toDigitsCore]
    simp only [h0, if_false]
  unfold Nat.toDigits
  rw [hstep, toDigitsCore_append]
  congr 1
  apply toDigitsCore_fuel <;> omega

theorem toDigits_ne_nil (n : Nat) : Nat.toDigits 10 n ≠ [] := by
  by_cases h : n < 10
  · rw [toDigits_of_lt n h]; simp
  · rw [toDigits_of_ge n (by omega)]; simp

theorem digitChar_value : ∀ d, d < 10 → (Nat.digitChar d).toNat - 48 = d := by decide

theorem digitChar_isDigit : ∀ d, d < 10 → (Nat.digitChar d).isDigit = true := by decide

theorem decimalValue_append_singleton (cs : List Char) (c : Char) :
    decimalValue (cs ++ [c]) = 10 * decimalValue cs + (c.toNat - 48) := by
  simp [decimalValue, List.foldl_append]

theorem decimalValue_toDigits (n : Nat) : decimalValue (Nat.toDigits 10 n) = n := by
  induction n using Nat.strong_induction_on with
  | _ n ih =>
    by_cases h : n < 10
    · rw [toDigits_of_lt n h]
      simp [decimalValue, digitChar_value n h]
    · rw [toDigits_of_ge n (by omega), decimalValue_append_singleton,
        ih (n / 10) (by omega), digitChar_value (n % 10) (by omega)]
      omega

theorem decimalValue_zeros (z : Nat) (cs : List Char) :
    decimalValue (List.replicate z '0' ++ cs) = decimalValue cs := by
  induction z with
  | zero => simp
  | succ z ih =>
    simp only [List.replicate_succ, List.cons_append]
    unfold decimalValue at ih ⊢
    simpa using ih

theorem decimalValue_padStartZero (n w : Nat) :
    decimalValue (padStartZero (toString n) w).data = n := by
  simp only [padStartZero, toString_data]
  rw [decimalValue_zeros, decimalValue_toDigits]

theorem fixedDigits_zero (w : Nat) : fixedDigits w 0 = List.replicate w '0' := by
  induction w with
  | zero => rfl
  | succ w ih =>
    simp only [fixedDigits, Nat.zero_div, Nat.zero_mod, ih]
    exact (List.replicate_succ' w '0').symm

theorem toDigits_length_of_ge (n : Nat) (h : 10 ≤ n) :
    (Nat.toDigits 10 n).length = (Nat.toDigits 10 (n / 10)).length + 1 := by
  rw [toDigits_of_ge n h]
  simp

theorem padStartZero_aux (w : Nat) : ∀ k, k < 10 ^ (w + 1) →
    List.replicate (w + 1 - (Nat.toDigits 10 k).length) '0' ++ Nat.toDigits 10 k
      = fixedDigits (w + 1) k := by
  induction w with
  | zero =>
    intro k hk
    have hk' : k < 10 := by simpa using hk
    have hmod : k % 10 = k := by omega
    simp [toDigits_of_lt k hk', fixedDigits, hmod]
  | succ w ih =>
    intro k hk
    by_cases hlt : k < 10
    · have hdiv : k / 10 = 0 := by omega
      have hmod : k % 10 = k := by omega
      rw [toDigits_of_lt k hlt]
      show List.replicate (w + 1 + 1 - 1) '0' ++ [Nat.digitChar k]
        = fixedDigits (w + 1) (k / 10) ++ [Nat.digitChar (k % 10)]
      rw [hdiv, hmod, fixedDigits_zero]
      rfl
    · have hge : 10 ≤ k := by omega
      have hdiv : k / 10 < 10 ^ (w + 1) := by
        rw [Nat.div_lt_iff_lt_mul (by decide)]
        calc k < 10 ^ (w + 1 + 1) := hk
          _ = 10 ^ (w + 1) * 10 := by ring
      rw [toDigits_length_of_ge k hge, toDigits_of_ge k hge]
      show List.replicate (w + 1 + 1 - ((Nat.toDigits 10 (k / 10)).length + 1)) '0' ++
          (Nat.toDigits 10 (k / 10) ++ [Nat.digitChar (k % 10)])
        = fixedDigits (w + 1) (k / 10) ++ [Nat.digitChar (k % 10)]
      rw [← ih (k / 10) hdiv, Nat.add_sub_add_right, List.append_assoc]

theorem padStartZero_data (k w : Nat) (hk : k < 10 ^ (w + 1)) :
    (padStartZero (toString k) (w + 1)).data = fixedDigits (w + 1) k := by
  simp only [padStartZero, toString_data]
  exact padStartZero_aux w k hk

theorem toDigits_snoc (n : Nat) :
    ∃ pre, Nat.toDigits 10 n = pre ++ [Nat.digitChar (n % 10)] := by
  by_cases h : n < 10
  · refine ⟨[], ?_⟩
    rw [toDigits_of_lt n h]
    have : n % 10 = n := by omega
    rw [this]
    rfl
  · exact ⟨_, toDigits_of_ge n (by omega)⟩

theorem sliceLast_two (y : Nat) (h : 10 ≤ y) :
    (sliceLast (toString y) 2).data
      = [Nat.digitChar (y / 10 % 10), Nat.digitChar (y % 10)] := by
  obtain ⟨pre, hpre⟩ := toDigits_snoc (y / 10)
  simp only [sliceLast, toString_data]
  rw [toDigits_of_ge y h, hpre]
  simp

theorem generateComplaintId_data (fullYear : Nat) (month : Fin 12) (count : Nat) :
    (generateComplaintId fullYear month count).data
      = ['C', 'M', 'P'] ++ (sliceLast (toString fullYear) 2).data ++
          (padStartZero (toString (month.val + 1)) 2).data ++
          (padStartZero (toString (count + 1)) 5).data := by
  simp [generateComplaintId, String.data_append]

/-! ## The complaint identifier -/

/-- C14 as stated fails: with 99999 complaints already stored the number part
is `100000`, six digits, and the identifier is `CMP` followed by ten digits. -/
theorem generateComplaintId_six_digit_number :
    generateComplaintId 2024 1 99999 = "CMP2402100000" ∧
    (generateComplaintId 2024 1 99999).data.length = 13 := by
  decide

/-- C14, amended: for a creation date whose year has at least two digits (so
for every four-digit year), every month and every number `n` of stored
complaints with `n + 1 <= 99999`, the generated identifier is `CMP` followed
by exactly nine decimal digits: the last two digits of the year, the month
number on two digits and `n + 1` on five digits; and this is the `complaintId`
of the complaint that `createComplaint` stores. -/
theorem generateComplaintId_format (fullYear : Nat) (month : Fin 12) (n : Nat)
    (hy : 10 ≤ fullYear) (hn : n + 1 ≤ 99999) :
    (generateComplaintId fullYear month n).data =
      ['C', 'M', 'P',
        Nat.digitChar (fullYear / 10 % 10), Nat.digitChar (fullYear % 10),
        Nat.digitChar ((month.val + 1) / 10 % 10), Nat.digitChar ((month.val + 1) % 10),
        Nat.digitChar ((n + 1) / 10000 % 10), Nat.digitChar ((n + 1) / 1000 % 10),
        Nat.digitChar ((n + 1) / 100 % 10), Nat.digitChar ((n + 1) / 10 % 10),
        Nat.digitChar ((n + 1) % 10)] ∧
    ((generateComplaintId fullYear month n).data.drop 3).length = 9 ∧
    ((generateComplaintId fullYear month n).data.drop 3).all Char.isDigit = true ∧
    (∀ (s : Store) (now : Int) (userId newId : ObjectId) (body : CreateBody)
        (files : List String) (c : Complaint) (message : String),
      s.complaints.length = n →
      (createComplaint s now userId newId fullYear month body files).1
        = .json 201 c message →
      c.complaintId = generateComplaintId fullYear month n) := by
  have hdata : (generateComplaintId fullYear month n).data =
      ['C', 'M', 'P',
        Nat.digitChar (fullYear / 10 % 10), Nat.digitChar (fullYear % 10),
        Nat.digitChar ((month.val + 1) / 10 % 10), Nat.digitChar ((month.val + 1) % 10),
        Nat.digitChar ((n + 1) / 10000 % 10), Nat.digitChar ((n + 1) / 1000 % 10),
        Nat.digitChar ((n + 1) / 100 % 10), Nat.digitChar ((n + 1) / 10 % 10),
        Nat.digitChar ((n + 1) % 10)] := by
    have hm : month.val + 1 < 10 ^ (1 + 1) := by
      have := month.isLt
      norm_num
      omega
    have hk : n + 1 < 10 ^ (4 + 1) := by
      norm_num
      omega
    rw [generateComplaintId_data, sliceLast_two fullYear hy,
      padStartZero_data (month.val + 1) 1 hm, padStartZero_data (n + 1) 4 hk]
    simp [fixedDigits, Nat.div_div_eq_div_mul]
  refine ⟨hdata, ?_, ?_, ?_⟩
  · rw [hdata]
    rfl
  · rw [hdata]
    simp [digitChar_isDigit _ (Nat.mod_lt _ (by decide : 0 < 10))]
  · intro s now userId newId body files c message hlen hresp
    rcases createComplaint_cases s now userId newId fullYear month body files with
      ⟨code, text, heq⟩ | ⟨d, heq, -, -, hid, -⟩
    · rw [heq] at hresp
      exact absurd hresp (by simp)
    · rw [heq] at hresp
      simp only [Response.json.injEq, true_and] at hresp
      obtain ⟨hd, _⟩ := hresp
      subst hd
      rw [hid, hlen]

/-- The amended C14 for the first complaint of February 2024. -/
theorem generateComplaintId_format_witness :
    generateComplaintId 2024 1 0 = "CMP240200001" ∧
    (createComplaint emptyStore feb5 7 10 2024 1 waterBody []).1.statusCode = 201 ∧
    ((generateComplaintId 2024 1 0).data =
      ['C', 'M', 'P',
        Nat.digitChar (2024 / 10 % 10), Nat.digitChar (2024 % 10),
        Nat.digitChar (((1 : Fin 12).val + 1) / 10 % 10),
        Nat.digitChar (((1 : Fin 12).val + 1) % 10),
        Nat.digitChar ((0 + 1) / 10000 % 10), Nat.digitChar ((0 + 1) / 1000 % 10),
        Nat.digitChar ((0 + 1) / 100 % 10), Nat.digitChar ((0 + 1) / 10 % 10),
        Nat.digitChar ((0 + 1) % 10)] ∧
    ((generateComplaintId 2024 1 0).data.drop 3).length = 9 ∧
    ((generateComplaintId 2024 1 0).data.drop 3).all Char.isDigit = true ∧
    (∀ (s : Store) (now : Int) (userId newId : ObjectId) (body : CreateBody)
        (files : List String) (c : Complaint) (message : String),
      s.complaints.length = 0 →
      (createComplaint s now userId newId 2024 1 body files).1
        = .json 201 c message →
      c.complaintId = generateComplaintId 2024 1 0)) :=
  ⟨by decide, by decide,
    generateComplaintId_format 2024 1 0 (by decide) (by decide)⟩

/-- Two generated identifiers are equal only for equal counts, when both years
have at least two digits. -/
theorem generateComplaintId_count_inj (y y' : Nat) (m m' : Fin 12) (n n' : Nat)
    (hy : 10 ≤ y) (hy' : 10 ≤ y')
    (h : generateComplaintId y m n = generateComplaintId y' m' n') : n = n' := by
  have hm : m.val + 1 < 10 ^ (1 + 1) := by
    have := m.isLt
    norm_num
    omega
  have hm' : m'.val + 1 < 10 ^ (1 + 1) := by
    have := m'.isLt
    norm_num
    omega
  have hd := congrArg String.data h
  rw [generateComplaintId_data, generateComplaintId_data, sliceLast_two y hy,
    sliceLast_two y' hy', padStartZero_data (m.val + 1) 1 hm,
    padStartZero_data (m'.val + 1) 1 hm'] at hd
  have htail := List.append_inj_right hd (by simp [fixedDigits])
  have hval := congrArg decimalValue htail
  rw [decimalValue_padStartZero, decimalValue_padStartZero] at hval
  omega

/-- The identifiers of a store are pairwise distinct and each is generated from
a count below the number of stored complaints. -/
theorem advance_creation_inv (s : Store) (e : Event)
    (he : e.request.isCreation = true)
    (hs : (s.complaints.map (fun c => c.complaintId)).Nodup ∧
      ∀ c ∈ s.complaints, ∃ (y : Nat) (m : Fin 12) (n : Nat),
        10 ≤ y ∧ n < s.complaints.length ∧ c.complaintId = generateComplaintId y m n) :
    ((advance s e).complaints.map (fun c => c.complaintId)).Nodup ∧
      ∀ c ∈ (advance s e).complaints, ∃ (y : Nat) (m : Fin 12) (n : Nat),
        10 ≤ y ∧ n < (advance s e).complaints.length ∧
        c.complaintId = generateComplaintId y m n := by
  obtain ⟨now, userId, request⟩ := e
  cases request with
  | addInternalNote id note => simp [Request.isCreation] at he
  | mutate op => simp [Request.isCreation] at he
  | createComplaint newId fullYear month body files =>
    have hyear : 10 ≤ fullYear := by simpa [Request.isCreation] using he
    simp only [advance, handle]
    rcases createComplaint_cases s now userId newId fullYear month body files with
      ⟨code, text, heq⟩ | ⟨d, heq, -, -, hid, -⟩
    · rw [heq]
      exact hs
    · rw [heq]
      obtain ⟨hnodup, hgen⟩ := hs
      constructor
      · show ((s.complaints ++ [d]).map (fun c => c.complaintId)).Nodup
        rw [List.map_append, List.nodup_append]
        refine ⟨hnodup, by simp, ?_⟩
        intro a ha hb
        have hb' : a = d.complaintId := by simpa using hb
        obtain ⟨c, hc, hca⟩ := List.mem_map.1 ha
        obtain ⟨y, m, n, hy, hn, hcid⟩ := hgen c hc
        have hsame : generateComplaintId y m n
            = generateComplaintId fullYear month s.complaints.length := by
          rw [← hcid, ← hid, ← hb']
          exact hca
        have := generateComplaintId_count_inj y fullYear m month n s.complaints.length
          hy hyear hsame
        omega
      · intro c hc
        have hc' : c ∈ s.complaints ++ [d] := hc
        show ∃ (y : Nat) (m : Fin 12) (n : Nat),
          10 ≤ y ∧ n < (s.complaints ++ [d]).length ∧
          c.complaintId = generateComplaintId y m n
        rcases List.mem_append.1 hc' with hold | hnew
        · obtain ⟨y, m, n, hy, hn, hcid⟩ := hgen c hold
          exact ⟨y, m, n, hy, by simp; omega, hcid⟩
        · have hcd : c = d := by simpa using hnew
          subst hcd
          exact ⟨fullYear, month, s.complaints.length, hyear, by simp, hid⟩

theorem runEvents_creation_inv (events : List Event) (s : Store)
    (he : ∀ e ∈ events, e.request.isCreation = true)
    (hs : (s.complaints.map (fun c => c.complaintId)).Nodup ∧
      ∀ c ∈ s.complaints, ∃ (y : Nat) (m : Fin 12) (n : Nat),
        10 ≤ y ∧ n < s.complaints.length ∧ c.complaintId = generateComplaintId y m n) :
    ((runEvents s events).complaints.map (fun c => c.complaintId)).Nodup ∧
      ∀ c ∈ (runEvents s events).complaints, ∃ (y : Nat) (m : Fin 12) (n : Nat),
        10 ≤ y ∧ n < (runEvents s events).complaints.length ∧
        c.complaintId = generateComplaintId y m n := by
  induction events generalizing s with
  | nil => exact hs
  | cons e events ih =>
    exact ih (advance s e) (fun e' he' => he e' (List.mem_cons_of_mem _ he'))
      (advance_creation_inv s e (he e (List.mem_cons_self _ _)) hs)

/-- A complete, well-formed creation request is stored when neither its `_id`
nor its generated identifier is taken. -/
theorem createComplaint_accepts (s : Store) (now : Int) (userId newId : ObjectId)
    (fullYear : Nat) (month : Fin 12) (body : CreateBody) (files : List String)
    (category : Category) (description : String) (location : Location) (phone : String)
    (hcat : body.category = some category)
    (hdesc : body.description = some description) (hd : description ≠ "")
    (hloc : body.location = some location)
    (hphone : body.citizenPhone = some phone) (hvalid : validPhone phone = true)
    (hfresh : ∀ d ∈ s.complaints, d._id ≠ newId ∧
      d.complaintId ≠ generateComplaintId fullYear month s.complaints.length) :
    (createComplaint s now userId newId fullYear month body files).1.statusCode = 201 := by
  have hne : phone ≠ "" := by
    intro h
    rw [h] at hvalid
    exact absurd hvalid (by decide)
  have hany : (s.complaints.any (fun d =>
      decide (d._id = newId) ||
        decide (d.complaintId
          = generateComplaintId fullYear month s.complaints.length))) = false := by
    rw [List.any_eq_false]
    intro d hd'
    simp [(hfresh d hd').1, (hfresh d hd').2]
  unfold createComplaint
  simp only [hcat, hdesc, hloc, hphone]
  rw [if_neg (by simp [hd, hne]), if_neg (by simp [hvalid]), if_neg (by simp [hany])]
  rfl

/-- A `createComplaint` request keeps the stored identifiers pairwise
distinct: the unique index refuses a document whose identifier is taken. -/
theorem advance_create_nodup (s : Store) (e : Event)
    (he : e.request.isCreate = true)
    (hs : (s.complaints.map (fun c => c.complaintId)).Nodup) :
    ((advance s e).complaints.map (fun c => c.complaintId)).Nodup := by
  obtain ⟨now, userId, request⟩ := e
  cases request with
  | addInternalNote id note => simp [Request.isCreate] at he
  | mutate op => simp [Request.isCreate] at he
  | createComplaint newId fullYear month body files =>
    simp only [advance, handle]
    rcases createComplaint_cases s now userId newId fullYear month body files with
      ⟨code, text, heq⟩ | ⟨d, heq, -, -, -, -, hguard⟩
    · rw [heq]
      exact hs
    · rw [heq]
      show ((s.complaints ++ [d]).map (fun c => c.complaintId)).Nodup
      rw [List.map_append, List.nodup_append]
      refine ⟨hs, by simp, ?_⟩
      intro a ha hb
      have hb' : a = d.complaintId := by simpa using hb
      obtain ⟨c, hc, hca⟩ := List.mem_map.1 ha
      exact (hguard c hc).2 (hca.trans hb')

theorem runEvents_create_nodup (events : List Event) (s : Store)
    (he : ∀ e ∈ events, e.request.isCreate = true)
    (hs : (s.complaints.map (fun c => c.complaintId)).Nodup) :
    ((runEvents s events).complaints.map (fun c => c.complaintId)).Nodup := by
  induction events generalizing s with
  | nil => exact hs
  | cons e events ih =>
    exact ih (advance s e) (fun e' he' => he e' (List.mem_cons_of_mem _ he'))
      (advance_create_nodup s e (he e (List.mem_cons_self _ _)) hs)

/-- C15: serve any sequence of `createComplaint` requests, one at a time, on a
store that starts empty.  Then the `complaintId`s of the stored complaints are
pairwise distinct, whatever the months and years of the creations.  Moreover,
when every clock reading has a year of at least two digits, the generated
identifiers never collide: a further complete, well-formed creation request
with a fresh `_id` is not refused by the unique index but answered 201. -/
theorem complaintIds_distinct (events : List Event)
    (he : ∀ e ∈ events, e.request.isCreate = true) :
    ((runEvents emptyStore events).complaints.map (fun c => c.complaintId)).Nodup ∧
    ((∀ e ∈ events, e.request.isCreation = true) →
      ∀ (now : Int) (userId newId : ObjectId) (fullYear : Nat) (month : Fin 12)
        (body : CreateBody) (files : List String) (category : Category)
        (description : String) (location : Location) (phone : String),
      10 ≤ fullYear →
      body.category = some category →
      body.description = some description → description ≠ "" →
      body.location = some location →
      body.citizenPhone = some phone → validPhone phone = true →
      (∀ d ∈ (runEvents emptyStore events).complaints, d._id ≠ newId) →
      (createComplaint (runEvents emptyStore events) now userId newId fullYear month body
        files).1.statusCode = 201) := by
  refine ⟨runEvents_create_nodup events emptyStore he List.nodup_nil, ?_⟩
  intro hyears now userId newId fullYear month body files category description location
    phone hyear hcat hdesc hd hloc hphone hvalid hfresh
  have hinv := runEvents_creation_inv events emptyStore hyears
    ⟨List.nodup_nil, fun c hc => absurd hc (List.not_mem_nil c)⟩
  apply createComplaint_accepts (runEvents emptyStore events) now userId newId fullYear
    month body files category description location phone hcat hdesc hd hloc hphone hvalid
  intro d hdmem
  refine ⟨hfresh d hdmem, ?_⟩
  intro hsame
  obtain ⟨y, m, n, hy, hn, hcid⟩ := hinv.2 d hdmem
  rw [hcid] at hsame
  have := generateComplaintId_count_inj y fullYear m month n
    (runEvents emptyStore events).complaints.length hy hyear hsame
  omega

/-- C15 on four creation requests, two in February 2024, one refused for its
phone number and one in January 2025: three complaints are stored. -/
theorem complaintIds_distinct_witness :
    (∀ e ∈ [createFirst, createSecond, createInvalid, createNextYear],
      e.request.isCreate = true) ∧
    (runEvents emptyStore
        [createFirst, createSecond, createInvalid, createNextYear]).complaints.map
        (fun c => c.complaintId)
      = ["CMP240200001", "CMP240200002", "CMP250100003"] ∧
    (((runEvents emptyStore
        [createFirst, createSecond, createInvalid, createNextYear]).complaints.map
        (fun c => c.complaintId)).Nodup ∧
    ((∀ e ∈ [createFirst, createSecond, createInvalid, createNextYear],
        e.request.isCreation = true) →
      ∀ (now : Int) (userId newId : ObjectId) (fullYear : Nat) (month : Fin 12)
        (body : CreateBody) (files : List String) (category : Category)
        (description : String) (location : Location) (phone : String),
      10 ≤ fullYear →
      body.category = some category →
      body.description = some description → description ≠ "" →
      body.location = some location →
      body.citizenPhone = some phone → validPhone phone = true →
      (∀ d ∈ (runEvents emptyStore
        [createFirst, createSecond, createInvalid, createNextYear]).complaints,
        d._id ≠ newId) →
      (createComplaint (runEvents emptyStore
        [createFirst, createSecond, createInvalid, createNextYear]) now userId newId
        fullYear month body files).1.statusCode = 201)) :=
  ⟨by decide, by decide,
    complaintIds_distinct [createFirst, createSecond, createInvalid, createNextYear]
      (by decide)⟩

/-! ## Status and the last history entry -/

/-- One request leaves the complaint collection alone, or appends a complaint
whose status is that of its last history entry, or overwrites one stored
complaint with a document that has this property whenever the stored one
had it. -/
theorem advance_complaints_last (s : Store) (e : Event) :
    (advance s e).complaints = s.complaints ∨
    (∃ c : Complaint, (advance s e).complaints = s.complaints ++ [c] ∧
        (c.statusHistory.getLast?).map (fun h => h.status) = some c.status) ∨
    (∃ (id : ObjectId) (orig saved : Complaint),
        s.findComplaintById id = some orig ∧
        (advance s e).complaints = (s.saveComplaint saved).complaints ∧
        ((orig.statusHistory.getLast?).map (fun h => h.status) = some orig.status →
          (saved.statusHistory.getLast?).map (fun h => h.status) = some saved.status)) := by
  obtain ⟨now, userId, request⟩ := e
  cases request with
  | createComplaint newId fullYear month body files =>
    simp only [advance, handle]
    rcases createComplaint_cases s now userId newId fullYear month body files with
      ⟨code, text, heq⟩ | ⟨d, heq, hstatus, hhist, -⟩
    · rw [heq]
      exact Or.inl rfl
    · rw [heq]
      refine Or.inr (Or.inl ⟨d, rfl, ?_⟩)
      rw [hhist, hstatus]
      rfl
  | addInternalNote id note =>
    simp only [advance, handle]
    cases hfind : s.findComplaintById id with
    | none =>
      left
      unfold addInternalNote
      simp only [hfind]
    | some orig =>
      right; right
      rw [addInternalNote_eq s now userId id note orig hfind]
      exact ⟨id, orig, notedDoc orig now userId note, hfind, rfl, fun h => h⟩
  | mutate op =>
    cases op with
    | assign id technicianId est priority =>
      simp only [advance, handle, serve]
      cases hfind : s.findComplaintById id with
      | none =>
        left
        unfold assignComplaint
        simp only [hfind]
      | some orig =>
        cases ht : s.findTechnicianById technicianId with
        | none =>
          left
          unfold assignComplaint
          simp only [hfind, ht]
        | some technician =>
          by_cases hspec : orig.category ∈ technician.specialization
          · right; right
            rw [assignComplaint_eq s now userId id technicianId est priority orig
              technician hfind ht hspec]
            refine ⟨id, orig, assignedDoc orig now userId technicianId est priority, hfind,
              rfl, fun _ => ?_⟩
            simp [assignedDoc]
          · left
            unfold assignComplaint
            simp [hfind, ht, hspec]
    | resolve id notes files =>
      simp only [advance, handle, serve]
      cases hfind : s.findComplaintById id with
      | none =>
        left
        unfold resolveComplaint
        simp only [hfind]
      | some orig =>
        right; right
        rw [resolveComplaint_eq s now userId id notes files orig hfind]
        refine ⟨id, orig, resolvedDoc orig now userId notes files, hfind,
          updateTechnicianStats_complaints _ _, fun _ => ?_⟩
        simp [resolvedDoc]
    | updateStatus id status notes =>
      simp only [advance, handle, serve]
      cases hfind : s.findComplaintById id with
      | none =>
        left
        unfold updateComplaintStatus
        simp only [hfind]
      | some orig =>
        right; right
        rw [updateComplaintStatus_eq s now userId id status notes orig hfind]
        refine ⟨id, orig, statusUpdated orig now userId status notes, hfind, ?_,
          fun _ => ?_⟩
        · show Store.complaints (if status = .resolved then _ else _) = _
          split
          · exact updateTechnicianStats_complaints _ _
          · rfl
        · simp [statusUpdated]

theorem advance_last_inv (s : Store) (e : Event)
    (hs : ∀ c ∈ s.complaints,
      (c.statusHistory.getLast?).map (fun h => h.status) = some c.status) :
    ∀ c ∈ (advance s e).complaints,
      (c.statusHistory.getLast?).map (fun h => h.status) = some c.status := by
  rcases advance_complaints_last s e with heq | ⟨n, heq, hn⟩ |
    ⟨id₀, orig, saved, hfind, heq, hkeep⟩
  · rw [heq]
    exact hs
  · rw [heq]
    intro c hc
    rcases List.mem_append.1 hc with hc | hc
    · exact hs c hc
    · have hcn : c = n := by simpa using hc
      rw [hcn]
      exact hn
  · rw [heq]
    intro c hc
    rcases mem_map_overwrite (fun d : Complaint => d._id) saved s.complaints c hc with
      hc | hc
    · exact hs c hc
    · rw [hc]
      exact hkeep (hs orig (List.mem_of_find?_eq_some hfind))

theorem runEvents_last_inv (events : List Event) (s : Store)
    (hs : ∀ c ∈ s.complaints,
      (c.statusHistory.getLast?).map (fun h => h.status) = some c.status) :
    ∀ c ∈ (runEvents s events).complaints,
      (c.statusHistory.getLast?).map (fun h => h.status) = some c.status := by
  induction events generalizing s with
  | nil => exact hs
  | cons e events ih => exact ih (advance s e) (advance_last_inv s e hs)

/-- C29: start with no complaint stored and serve any sequence of
`createComplaint`, `assignComplaint`, `updateComplaintStatus`,
`resolveComplaint` and `addInternalNote` requests.  Then every stored
complaint has a non-empty `statusHistory`, and its `status` is the status of
the last `statusHistory` entry. -/
theorem status_is_last_history_entry (s0 : Store) (events : List Event)
    (h0 : s0.complaints = []) :
    ∀ c ∈ (runEvents s0 events).complaints,
      c.statusHistory ≠ [] ∧
      (c.statusHistory.getLast?).map (fun h => h.status) = some c.status := by
  intro c hc
  have h := runEvents_last_inv events s0 (by rw [h0]; intro c hc; simp at hc) c hc
  refine ⟨?_, h⟩
  intro hnil
  rw [hnil] at h
  simp at h

/-- C29 on complaint 10: created, annotated, assigned and rejected. -/
theorem status_is_last_history_entry_witness :
    technicianStore.complaints = [] ∧
    ((runEvents technicianStore
        [createFirst, noteFirst, assignFirstEvent, rejectFirstEvent]).findComplaintById
        10).map (fun c => (c.status, c.statusHistory.map (fun h => h.status)))
      = some (.rejected, [.submitted, .assigned, .rejected]) ∧
    (∀ c ∈ (runEvents technicianStore
        [createFirst, noteFirst, assignFirstEvent, rejectFirstEvent]).complaints,
      c.statusHistory ≠ [] ∧
      (c.statusHistory.getLast?).map (fun h => h.status) = some c.status) :=
  ⟨by decide, by decide,
    status_is_last_history_entry technicianStore
      [createFirst, noteFirst, assignFirstEvent, rejectFirstEvent] (by decide)⟩

/-! ## Deleting a technician -/

/-- C21 as stated fails: after complaint 10 was assigned to technician 1 and
rejected, the technician's `activeComplaints` counter is 1, and
`deleteTechnician` answers 200 and removes the technician. -/
theorem deleteTechnician_ignores_counter :
    ((run exampleStore [assignFirst, rejectFirst]).findTechnicianById 1).map
        (fun t => t.activeComplaints) = some 1 ∧
    (deleteTechnician (run exampleStore [assignFirst, rejectFirst]) 1).1
      = .ok 200 "Technician deleted successfully" ∧
    (deleteTechnician (run exampleStore [assignFirst, rejectFirst]) 1).2.findTechnicianById 1
      = none := by
  decide

theorem findTechnicianById_deleteTechnicianById (s : Store) (id : ObjectId) :
    (s.deleteTechnicianById id).findTechnicianById id = none := by
  unfold Store.findTechnicianById Store.deleteTechnicianById
  rw [List.find?_eq_none]
  intro t ht
  have := (List.mem_filter.1 ht).2
  simpa using this

/-- C21, amended: `deleteTechnician` does not read the `activeComplaints`
counter; it counts the complaints assigned to the technician with status
`assigned` or `in-progress`.  For every stored technician it answers 400 and
leaves the store as it is when that count is greater than 0, and answers 200
and removes the technician (and nothing else) when that count is 0, whatever
the value of the counter. -/
theorem deleteTechnician_checks_live_count (s : Store) (id : ObjectId)
    (technician : Technician)
    (h : s.findTechnicianById id = some technician) :
    (0 < s.countActive id →
      (deleteTechnician s id).1.statusCode = 400 ∧ (deleteTechnician s id).2 = s) ∧
    (s.countActive id = 0 →
      (deleteTechnician s id).1 = .ok 200 "Technician deleted successfully" ∧
      (deleteTechnician s id).2.findTechnicianById id = none ∧
      (deleteTechnician s id).2.complaints = s.complaints ∧
      (deleteTechnician s id).2.technicians
        = s.technicians.filter (fun t => decide (t._id ≠ id))) := by
  constructor
  · intro hpos
    unfold deleteTechnician
    simp only [h]
    rw [if_pos hpos]
    exact ⟨rfl, rfl⟩
  · intro hzero
    unfold deleteTechnician
    simp only [h]
    rw [if_neg (by omega)]
    exact ⟨rfl, findTechnicianById_deleteTechnicianById s id, rfl, rfl⟩

/-- The amended C21 where counter and count differ: technician 1 has the
counter at 1 and no active complaint. -/
theorem deleteTechnician_checks_live_count_witness :
    (run exampleStore [assignFirst, rejectFirst]).findTechnicianById 1
      = some { waterTechnician with activeComplaints := 1 } ∧
    (run exampleStore [assignFirst, rejectFirst]).countActive 1 = 0 ∧
    ((0 < (run exampleStore [assignFirst, rejectFirst]).countActive 1 →
      (deleteTechnician (run exampleStore [assignFirst, rejectFirst]) 1).1.statusCode = 400 ∧
      (deleteTechnician (run exampleStore [assignFirst, rejectFirst]) 1).2
        = run exampleStore [assignFirst, rejectFirst]) ∧
    ((run exampleStore [assignFirst, rejectFirst]).countActive 1 = 0 →
      (deleteTechnician (run exampleStore [assignFirst, rejectFirst]) 1).1
        = .ok 200 "Technician deleted successfully" ∧
      (deleteTechnician (run exampleStore [assignFirst, rejectFirst]) 1).2.findTechnicianById
        1 = none ∧
      (deleteTechnician (run exampleStore [assignFirst, rejectFirst]) 1).2.complaints
        = (run exampleStore [assignFirst, rejectFirst]).complaints ∧
      (deleteTechnician (run exampleStore [assignFirst, rejectFirst]) 1).2.technicians
        = (run exampleStore [assignFirst, rejectFirst]).technicians.filter
            (fun t => decide (t._id ≠ 1)))) :=
  ⟨by decide, by decide,
    deleteTechnician_checks_live_count (run exampleStore [assignFirst, rejectFirst]) 1
      { waterTechnician with activeComplaints := 1 } (by decide)⟩

/-! ## Dictionaries of counts -/

theorem dictGet_nil {κ β : Type} [DecidableEq κ] (k : κ) :
    dictGet ([] : List (κ × β)) k = none := rfl

theorem dictGet_cons {κ β : Type} [DecidableEq κ] (e : κ × β) (d : List (κ × β)) (k : κ) :
    dictGet (e :: d) k = if e.1 = k then some e.2 else dictGet d k := by
  unfold dictGet
  by_cases h : e.1 = k <;> simp [List.find?_cons, h]

theorem dictGet_append {κ β : Type} [DecidableEq κ] (d d' : List (κ × β)) (k : κ) :
    dictGet (d ++ d') k = (dictGet d k).or (dictGet d' k) := by
  induction d with
  | nil => simp [dictGet_nil]
  | cons e d ih =>
    rw [List.cons_append, dictGet_cons, dictGet_cons, ih]
    by_cases h : e.1 = k <;> simp [h]

theorem any_key_iff {κ β : Type} [DecidableEq κ] (d : List (κ × β)) (k : κ) :
    d.any (fun e => decide (e.1 = k)) = (dictGet d k).isSome := by
  induction d with
  | nil => rfl
  | cons e d ih =>
    rw [List.any_cons, dictGet_cons, ih]
    by_cases h : e.1 = k <;> simp [h]

theorem dictGet_isSome_iff_mem {κ β : Type} [DecidableEq κ] (d : List (κ × β)) (k : κ) :
    (dictGet d k).isSome = true ↔ k ∈ d.map (fun e => e.1) := by
  induction d with
  | nil => simp [dictGet_nil]
  | cons e d ih =>
    rw [dictGet_cons, List.map_cons, List.mem_cons]
    by_cases h : e.1 = k
    · simp [h]
    · rw [if_neg h, ih]
      constructor
      · intro hm; exact Or.inr hm
      · intro hm
        rcases hm with hm | hm
        · exact absurd hm.symm h
        · exact hm

theorem dictGet_map_bump {κ : Type} [DecidableEq κ] (acc : List (κ × Nat)) (k k' : κ) :
    dictGet (acc.map (fun e => if e.1 = k then (e.1, e.2 + 1) else e)) k'
      = if k' = k then (dictGet acc k).map (fun v => v + 1) else dictGet acc k' := by
  induction acc with
  | nil => by_cases h : k' = k <;> simp [dictGet_nil, h]
  | cons e acc ih =>
    rw [List.map_cons, dictGet_cons, ih]
    by_cases hk : k' = k
    · subst hk
      by_cases he : e.1 = k'
      · simp [he, dictGet_cons]
      · simp [he, dictGet_cons]
    · by_cases he : e.1 = k
      · have hne : e.1 ≠ k' := by rw [he]; exact fun h => hk h.symm
        have hkk : ¬ k = k' := fun h => hk h.symm
        simp [he, hk, dictGet_cons, hkk]
      · simp [he, hk, dictGet_cons]

/-- Reading a dictionary after one more key was counted. -/
theorem dictGet_tallyStep {κ : Type} [DecidableEq κ] (acc : List (κ × Nat)) (k k' : κ) :
    dictGet (tallyStep acc k) k'
      = if k' = k then some ((dictGet acc k).getD 0 + 1) else dictGet acc k' := by
  unfold tallyStep
  by_cases hany : acc.any (fun e => decide (e.1 = k)) = true
  · rw [if_pos hany, dictGet_map_bump]
    rw [any_key_iff] at hany
    by_cases hk : k' = k
    · rw [if_pos hk, if_pos hk]
      obtain ⟨v, hv⟩ := Option.isSome_iff_exists.1 hany
      rw [hv]
      rfl
    · rw [if_neg hk, if_neg hk]
  · rw [if_neg hany, dictGet_append]
    rw [any_key_iff] at hany
    have hnone : dictGet acc k = none := by
      cases h : dictGet acc k with
      | none => rfl
      | some v => rw [h] at hany; simp at hany
    by_cases hk : k' = k
    · subst hk
      rw [if_pos rfl, hnone]
      simp [dictGet_cons]
    · rw [if_neg hk]
      have hne : ¬ k = k' := fun h => hk h.symm
      simp [dictGet_cons, dictGet_nil, hne]

theorem dictGet_foldl_tallyStep {κ : Type} [DecidableEq κ] (keys : List κ)
    (acc : List (κ × Nat)) (k : κ) :
    dictGet (keys.foldl tallyStep acc) k
      = if keys.count k = 0 then dictGet acc k
        else some ((dictGet acc k).getD 0 + keys.count k) := by
  induction keys generalizing acc with
  | nil => simp
  | cons a keys ih =>
    rw [List.foldl_cons, ih, dictGet_tallyStep, List.count_cons]
    by_cases hk : k = a
    · subst hk
      simp only [if_true, beq_self_eq_true, Option.getD_some]
      by_cases hc : List.count k keys = 0
      · simp [hc]
      · simp [hc]
        omega
    · have hne : (a == k) = false := by simpa using fun h => hk h.symm
      simp [hk, hne]

/-- The dictionary of counts holds, for every key, the number of its
occurrences, and no entry for a key that does not occur. -/
theorem dictGet_tally {κ : Type} [DecidableEq κ] (keys : List κ) (k : κ) :
    dictGet (tally keys) k = if keys.count k = 0 then none else some (keys.count k) := by
  unfold tally
  rw [dictGet_foldl_tallyStep]
  simp [dictGet_nil]

theorem map_fst_bump {κ : Type} [DecidableEq κ] (acc : List (κ × Nat)) (k : κ) :
    (acc.map (fun e => if e.1 = k then (e.1, e.2 + 1) else e)).map (fun e => e.1)
      = acc.map (fun e => e.1) := by
  rw [List.map_map]
  apply List.map_congr_left
  intro e _
  by_cases h : e.1 = k <;> simp [h]

theorem sum_bump {κ : Type} [DecidableEq κ] (acc : List (κ × Nat)) (k : κ)
    (hnodup : (acc.map (fun e => e.1)).Nodup) (hmem : k ∈ acc.map (fun e => e.1)) :
    ((acc.map (fun e => if e.1 = k then (e.1, e.2 + 1) else e)).map (fun e => e.2)).sum
      = (acc.map (fun e => e.2)).sum + 1 := by
  induction acc with
  | nil => simp at hmem
  | cons e acc ih =>
    rw [List.map_cons, List.nodup_cons] at hnodup
    obtain ⟨hnot, hrest⟩ := hnodup
    by_cases he : e.1 = k
    · have hsame : acc.map (fun e => if e.1 = k then (e.1, e.2 + 1) else e) = acc := by
        conv_rhs => rw [← List.map_id acc]
        apply List.map_congr_left
        intro x hx
        have hxk : x.1 ≠ k := by
          intro hxk
          apply hnot
          rw [he, ← hxk]
          exact List.mem_map.2 ⟨x, hx, rfl⟩
        simp [hxk]
      simp only [List.map_cons, he, if_true, List.sum_cons, hsame]
      omega
    · have hmem' : k ∈ acc.map (fun e => e.1) := by
        rw [List.map_cons, List.mem_cons] at hmem
        rcases hmem with hmem | hmem
        · exact absurd hmem.symm he
        · exact hmem
      simp only [List.map_cons, he, if_false, List.sum_cons, ih hrest hmem']
      omega

theorem tallyStep_keys_sum {κ : Type} [DecidableEq κ] (acc : List (κ × Nat)) (k : κ)
    (hnodup : (acc.map (fun e => e.1)).Nodup) :
    ((tallyStep acc k).map (fun e => e.1)).Nodup ∧
    ((tallyStep acc k).map (fun e => e.2)).sum = (acc.map (fun e => e.2)).sum + 1 := by
  unfold tallyStep
  by_cases hany : acc.any (fun e => decide (e.1 = k)) = true
  · rw [if_pos hany]
    rw [any_key_iff, dictGet_isSome_iff_mem] at hany
    exact ⟨by rw [map_fst_bump]; exact hnodup, sum_bump acc k hnodup hany⟩
  · rw [if_neg hany]
    rw [any_key_iff, dictGet_isSome_iff_mem] at hany
    constructor
    · rw [List.map_append, List.nodup_append]
      refine ⟨hnodup, by simp, ?_⟩
      intro a ha hb
      have : a = k := by simpa using hb
      rw [this] at ha
      exact hany ha
    · simp

theorem foldl_tallyStep_keys_sum {κ : Type} [DecidableEq κ] (keys : List κ)
    (acc : List (κ × Nat)) (hnodup : (acc.map (fun e => e.1)).Nodup) :
    ((keys.foldl tallyStep acc).map (fun e => e.1)).Nodup ∧
    ((keys.foldl tallyStep acc).map (fun e => e.2)).sum
      = (acc.map (fun e => e.2)).sum + keys.length := by
  induction keys generalizing acc with
  | nil => exact ⟨hnodup, by simp⟩
  | cons a keys ih =>
    obtain ⟨h1, h2⟩ := tallyStep_keys_sum acc a hnodup
    obtain ⟨h3, h4⟩ := ih (tallyStep acc a) h1
    refine ⟨h3, ?_⟩
    rw [List.foldl_cons, h4, h2, List.length_cons]
    omega

/-- The keys of a dictionary of counts are pairwise distinct and its counts
add up to the number of keys counted. -/
theorem tally_keys_sum {κ : Type} [DecidableEq κ] (keys : List κ) :
    ((tally keys).map (fun e => e.1)).Nodup ∧
    ((tally keys).map (fun e => e.2)).sum = keys.length := by
  have h := foldl_tallyStep_keys_sum keys [] (by simp)
  refine ⟨h.1, ?_⟩
  have h2 := h.2
  simpa [tally] using h2

theorem count_map_eq_length_filter {α κ : Type} [DecidableEq κ] (f : α → κ) (l : List α)
    (k : κ) : (l.map f).count k = (l.filter (fun a => decide (f a = k))).length := by
  induction l with
  | nil => rfl
  | cons a l ih =>
    rw [List.map_cons, List.count_cons, ih, List.filter_cons]
    by_cases h : f a = k
    · simp [h]
    · simp [h]

/-! ## The breakdowns of the monthly report -/

/-- C26: in the report built from any complaint list, `statusBreakdown` holds
for each status exactly the number of complaints of the list with that status
and no entry for a status without complaint, `categoryBreakdown` does the same
for categories, the counts of each breakdown add up to `totalComplaints`,
`resolved` is the number of complaints with status `resolved`, and
`resolved + unresolved = totalComplaints`. -/
theorem breakdowns_count (month year : Nat) (w : MonthWindow)
    (complaints : List ReportComplaint) (prev : Nat) :
    (buildReport month year w complaints prev).totalComplaints = complaints.length ∧
    (∀ status : Status,
      dictGet (buildReport month year w complaints prev).statusBreakdown status
        = if (complaints.filter (fun c => decide (c.doc.status = status))).length = 0 then none
          else some (complaints.filter (fun c => decide (c.doc.status = status))).length) ∧
    (∀ category : Category,
      dictGet (buildReport month year w complaints prev).categoryBreakdown category
        = if (complaints.filter (fun c => decide (c.doc.category = category))).length = 0
          then none
          else some (complaints.filter (fun c => decide (c.doc.category = category))).length) ∧
    (((buildReport month year w complaints prev).statusBreakdown.map (fun e => e.2)).sum
      = (buildReport month year w complaints prev).totalComplaints) ∧
    (((buildReport month year w complaints prev).categoryBreakdown.map (fun e => e.2)).sum
      = (buildReport month year w complaints prev).totalComplaints) ∧
    (buildReport month year w complaints prev).resolved
      = (complaints.filter (fun c => decide (c.doc.status = .resolved))).length ∧
    ((buildReport month year w complaints prev).resolved : Int)
        + (buildReport month year w complaints prev).unresolved
      = (buildReport month year w complaints prev).totalComplaints := by
  refine ⟨rfl, ?_, ?_, ?_, ?_, rfl, ?_⟩
  · intro status
    show dictGet (tally (complaints.map (fun c => c.doc.status))) status = _
    rw [dictGet_tally, count_map_eq_length_filter]
  · intro category
    show dictGet (tally (complaints.map (fun c => c.doc.category))) category = _
    rw [dictGet_tally, count_map_eq_length_filter]
  · show ((tally (complaints.map (fun c => c.doc.status))).map (fun e => e.2)).sum
      = complaints.length
    rw [(tally_keys_sum _).2, List.length_map]
  · show ((tally (complaints.map (fun c => c.doc.category))).map (fun e => e.2)).sum
      = complaints.length
    rw [(tally_keys_sum _).2, List.length_map]
  · show ((resolvedComplaints complaints).length : Int)
        + ((complaints.length : Int) - (resolvedComplaints complaints).length)
      = (complaints.length : Int)
    omega

/-! ## Location density -/

/-- C25 as stated fails: of two complaints one has the address `Unknown` and
one has no address; `locationDensity` holds 2 under the key `Unknown`, while
one complaint has a missing address and one has verbatim the address
`Unknown`. -/
theorem locationDensity_unknown_collides :
    dictGet (locationDensity [unknownAddressComplaint, noAddressComplaint]) "Unknown"
      = some 2 ∧
    ([unknownAddressComplaint, noAddressComplaint].filter
      (fun c => decide (c.doc.location.address = none))).length = 1 ∧
    ([unknownAddressComplaint, noAddressComplaint].filter
      (fun c => decide (c.doc.location.address = some "Unknown"))).length = 1 := by
  decide

theorem addressKey_eq_iff (c : Complaint) (key : String) :
    addressKey c = key ↔
      (c.location.address = some key ∧ key ≠ "") ∨
      (key = "Unknown" ∧ (c.location.address = none ∨ c.location.address = some "")) := by
  unfold addressKey truthyString
  cases h : c.location.address with
  | none =>
    simp only [Bool.false_eq_true, if_false, reduceCtorEq, false_and, false_or, true_or,
      and_true]
    exact eq_comm
  | some a =>
    by_cases ha : a = ""
    · subst ha
      simp
      constructor
      · intro hk
        exact Or.inr hk.symm
      · intro hk
        rcases hk with ⟨h1, h2⟩ | hk
        · exact absurd h1.symm h2
        · exact hk.symm
    · simp [ha]
      intro hk
      rw [← hk]
      exact ha

/-- C25, amended: in the dictionary `locationDensity` built from any complaint
list, every non-empty address string other than `Unknown` is mapped to the
number of complaints whose `location.address` is verbatim that string (and is
absent when there is none); the key `Unknown` is mapped to the number of
complaints whose address is missing, empty or the string `Unknown`; the empty
string is no key; and the counts add up to the number of complaints. -/
theorem locationDensity_counts (complaints : List ReportComplaint) :
    (∀ key : String, key ≠ "Unknown" → key ≠ "" →
      dictGet (locationDensity complaints) key
        = if (complaints.filter
              (fun c => decide (c.doc.location.address = some key))).length = 0 then none
          else some (complaints.filter
              (fun c => decide (c.doc.location.address = some key))).length) ∧
    (dictGet (locationDensity complaints) "Unknown"
      = if (complaints.filter (fun c =>
              decide (c.doc.location.address = none ∨ c.doc.location.address = some "" ∨
                c.doc.location.address = some "Unknown"))).length = 0 then none
        else some (complaints.filter (fun c =>
              decide (c.doc.location.address = none ∨ c.doc.location.address = some "" ∨
                c.doc.location.address = some "Unknown"))).length) ∧
    dictGet (locationDensity complaints) "" = none ∧
    ((locationDensity complaints).map (fun e => e.2)).sum = complaints.length := by
  refine ⟨?_, ?_, ?_, ?_⟩
  · intro key h1 h2
    unfold locationDensity
    rw [dictGet_tally, count_map_eq_length_filter]
    have hfilter : complaints.filter (fun c => decide (addressKey c.doc = key))
        = complaints.filter (fun c => decide (c.doc.location.address = some key)) := by
      apply List.filter_congr
      intro c _
      rw [decide_eq_decide, addressKey_eq_iff]
      constructor
      · intro h
        rcases h with h | h
        · exact h.1
        · exact absurd h.1 h1
      · intro h
        exact Or.inl ⟨h, h2⟩
    rw [hfilter]
  · unfold locationDensity
    rw [dictGet_tally, count_map_eq_length_filter]
    have hfilter : complaints.filter (fun c => decide (addressKey c.doc = "Unknown"))
        = complaints.filter (fun c =>
            decide (c.doc.location.address = none ∨ c.doc.location.address = some "" ∨
              c.doc.location.address = some "Unknown")) := by
      apply List.filter_congr
      intro c _
      rw [decide_eq_decide, addressKey_eq_iff]
      constructor
      · intro h
        rcases h with h | h
        · exact Or.inr (Or.inr h.1)
        · rcases h.2 with h | h
          · exact Or.inl h
          · exact Or.inr (Or.inl h)
      · intro h
        rcases h with h | h | h
        · exact Or.inr ⟨rfl, Or.inl h⟩
        · exact Or.inr ⟨rfl, Or.inr h⟩
        · exact Or.inl ⟨h, by decide⟩
    rw [hfilter]
  · unfold locationDensity
    rw [dictGet_tally, count_map_eq_length_filter]
    have hfilter : complaints.filter (fun c => decide (addressKey c.doc = "")) = [] := by
      rw [List.filter_eq_nil_iff]
      intro c _
      rw [decide_eq_true_eq, addressKey_eq_iff]
      intro h
      rcases h with h | h
      · exact h.2 rfl
      · exact absurd h.1 (by decide)
    rw [hfilter]
    rfl
  · unfold locationDensity
    rw [(tally_keys_sum _).2, List.length_map]

/-! ## Averages and month-over-month change -/

/-- C22, evaluated on the code: the February 2024 report of `resolvedStore`
covers three resolved complaints, with 24 hours, 49 hours and no
`actualResolutionTime`.  The reported average is 24, the rounded quotient of
73 by 3; the mean over the two complaints that have the field set is 36.5,
rounded 37. -/
theorem avgResolutionTime_divides_by_all_resolved :
    getMonthlyReport resolvedStore february2024 februaryQuery
      = .report 200 (buildReport 2 2024 february2024
          (reportComplaints resolvedStore february2024 februaryQuery)
          (prevMonthCount resolvedStore february2024)) ∧
    (resolvedComplaints (reportComplaints resolvedStore february2024 februaryQuery)).map
        (fun c => c.doc.actualResolutionTime) = [none, some 24, some 49] ∧
    (buildReport 2 2024 february2024
        (reportComplaints resolvedStore february2024 februaryQuery)
        (prevMonthCount resolvedStore february2024)).avgResolutionTime = 24 ∧
    mathRoundDiv (24 + 49) 3 = 24 ∧
    mathRoundDiv (24 + 49) 2 = 37 := by
  decide

/-- C23, evaluated on the code: with 63 complaints this month and 40 the month
before, the double `(63 - 40) / 40` times 100 lies just below 57.5 and the
reported change is 57, while the exact value 57.5 rounds to 58; likewise 229
against 200 gives 14 where the exact value 14.5 rounds to 15.  With no
complaint the month before the change is 0 for every current count, and 60
against 40 gives 50. -/
theorem monthOverMonthChange_double_rounding :
    monthOverMonthChange 63 40 = 57 ∧
    mathRoundDiv (100 * (63 - 40)) 40 = 58 ∧
    monthOverMonthChange 229 200 = 14 ∧
    mathRoundDiv (100 * (229 - 200)) 200 = 15 ∧
    (∀ t : Nat, monthOverMonthChange t 0 = 0) ∧
    monthOverMonthChange 60 40 = 50 :=
  ⟨by decide, by decide, by decide, by decide, fun _ => rfl, by decide⟩

theorem reportComplaints_length (s : Store) (w : MonthWindow) (q : ReportQuery) :
    (reportComplaints s w q).length = (s.complaints.filter (matchesReportFilter w q)).length := by
  unfold reportComplaints
  rw [List.length_map, List.length_insertionSort]

/-- C30: the report compares the number of complaints of the month that match
the category, status and technician filters with the number of all complaints
created in the month before, which does not depend on the query; and for the
store `twoMonthStore` and the water filter the reported change, -50, differs
from the change 0 that the same filter applied to both months gives. -/
theorem monthOverMonthChange_populations_differ :
    (∀ (s : Store) (w : MonthWindow) (q : ReportQuery) (month year : Nat),
      q.month = some month → q.year = some year →
      ∃ r : MonthlyReport, getMonthlyReport s w q = .report 200 r ∧
        r.totalComplaints = (s.complaints.filter (matchesReportFilter w q)).length ∧
        r.monthOverMonthChange
          = monthOverMonthChange (s.complaints.filter (matchesReportFilter w q)).length
              (s.complaints.filter
                (createdBetween w.prevMonthStart w.prevMonthEnd)).length) ∧
    (∃ r : MonthlyReport,
      getMonthlyReport twoMonthStore february2024 februaryWaterQuery = .report 200 r ∧
      r.totalComplaints = 1 ∧
      prevMonthCount twoMonthStore february2024 = 2 ∧
      prevMonthCountFiltered twoMonthStore february2024 februaryWaterQuery = 1 ∧
      r.monthOverMonthChange = -50 ∧
      monthOverMonthChange r.totalComplaints
        (prevMonthCountFiltered twoMonthStore february2024 februaryWaterQuery) = 0) := by
  constructor
  · intro s w q month year hm hy
    refine ⟨buildReport month year w (reportComplaints s w q) (prevMonthCount s w), ?_, ?_, ?_⟩
    · unfold getMonthlyReport
      rw [hm, hy]
    · exact reportComplaints_length s w q
    · show monthOverMonthChange (reportComplaints s w q).length (prevMonthCount s w) = _
      rw [reportComplaints_length]
      rfl
  · exact ⟨buildReport 2 2024 february2024
      (reportComplaints twoMonthStore february2024 februaryWaterQuery)
      (prevMonthCount twoMonthStore february2024), by decide, by decide, by decide,
      by decide, by decide, by decide⟩

/-- The reported change for the water complaints of February 2024 in
`twoMonthStore` is computed against both complaints of January. -/
theorem monthOverMonthChange_populations_differ_witness :
    ∃ r : MonthlyReport,
      getMonthlyReport twoMonthStore february2024 februaryWaterQuery = .report 200 r ∧
      r.totalComplaints
        = (twoMonthStore.complaints.filter
            (matchesReportFilter february2024 februaryWaterQuery)).length ∧
      r.monthOverMonthChange
        = monthOverMonthChange
            (twoMonthStore.complaints.filter
              (matchesReportFilter february2024 februaryWaterQuery)).length
            (twoMonthStore.complaints.filter
              (createdBetween february2024.prevMonthStart february2024.prevMonthEnd)).length :=
  monthOverMonthChange_populations_differ.1 twoMonthStore february2024 februaryWaterQuery
    2 2024 rfl rfl

/-! ## Empty input -/

/-- C27: on the empty store `getDashboardOverview` gives 0 for every count and
empty `categoryStats` and `recentComplaints`, whatever the day; and when no
complaint of the store matches the filter, `getMonthlyReport` answers 200 with
`totalComplaints`, `resolved`, `unresolved` and `avgResolutionTime` all 0 and
empty breakdowns, technician performance, location density and complaint
list, for every store and so for every previous-month count. -/
theorem aggregators_on_empty_input :
    (∀ today : Int, getDashboardOverview emptyStore today =
      { totalComplaints := 0, todayComplaints := 0, pendingComplaints := 0
        resolvedComplaints := 0, inProgressComplaints := 0, activeTechnicians := 0
        categoryStats := [], recentComplaints := [] }) ∧
    (∀ (s : Store) (w : MonthWindow) (q : ReportQuery) (month year : Nat),
      q.month = some month → q.year = some year →
      s.complaints.filter (matchesReportFilter w q) = [] →
      getMonthlyReport s w q = .report 200
        { month := month, year := year, startDate := w.startDate, endDate := w.endDate
          totalComplaints := 0, resolved := 0, unresolved := 0, avgResolutionTime := 0
          monthOverMonthChange := monthOverMonthChange 0 (prevMonthCount s w)
          statusBreakdown := [], categoryBreakdown := [], technicianPerformance := []
          locationDensity := [], complaints := [] }) ∧
    (∀ (month year : Nat) (w : MonthWindow) (prev : Nat),
      (buildReport month year w [] prev).totalComplaints = 0 ∧
      (buildReport month year w [] prev).resolved = 0 ∧
      (buildReport month year w [] prev).unresolved = 0 ∧
      (buildReport month year w [] prev).avgResolutionTime = 0 ∧
      (buildReport month year w [] prev).statusBreakdown = [] ∧
      (buildReport month year w [] prev).categoryBreakdown = [] ∧
      (buildReport month year w [] prev).technicianPerformance = [] ∧
      (buildReport month year w [] prev).locationDensity = [] ∧
      (buildReport month year w [] prev).complaints = []) := by
  refine ⟨fun today => rfl, ?_, fun month year w prev =>
    ⟨rfl, rfl, rfl, rfl, rfl, rfl, rfl, rfl, rfl⟩⟩
  intro s w q month year hm hy hempty
  have hlist : reportComplaints s w q = [] := by
    unfold reportComplaints
    rw [hempty]
    rfl
  unfold getMonthlyReport
  rw [hm, hy]
  show ReportResponse.report 200
    (buildReport month year w (reportComplaints s w q) (prevMonthCount s w)) = _
  rw [hlist]
  rfl

theorem aggregators_on_empty_input_witness :
    getMonthlyReport emptyStore february2024 februaryQuery = .report 200
      { month := 2, year := 2024, startDate := february2024.startDate
        endDate := february2024.endDate
        totalComplaints := 0, resolved := 0, unresolved := 0, avgResolutionTime := 0
        monthOverMonthChange := monthOverMonthChange 0 (prevMonthCount emptyStore february2024)
        statusBreakdown := [], categoryBreakdown := [], technicianPerformance := []
        locationDensity := [], complaints := [] } :=
  aggregators_on_empty_input.2.1 emptyStore february2024 februaryQuery 2 2024 rfl rfl rfl

/-! ## Technician performance -/

theorem mem_firstOccurrences (l : List ObjectId) (b : ObjectId) :
    b ∈ firstOccurrences l ↔ b ∈ l := by
  induction l with
  | nil => simp [firstOccurrences]
  | cons a l ih =>
    by_cases hba : b = a
    · simp [firstOccurrences, hba]
    · simp [firstOccurrences, hba, List.mem_filter, ih]

theorem nodup_firstOccurrences (l : List ObjectId) : (firstOccurrences l).Nodup := by
  induction l with
  | nil => simp [firstOccurrences]
  | cons a l ih =>
    rw [firstOccurrences, List.nodup_cons]
    refine ⟨?_, ih.filter _⟩
    simp [List.mem_filter]

theorem firstOccurrences_snoc (l : List ObjectId) (a : ObjectId) :
    firstOccurrences (l ++ [a])
      = if a ∈ l then firstOccurrences l else firstOccurrences l ++ [a] := by
  induction l with
  | nil => simp [firstOccurrences]
  | cons b l ih =>
    rw [List.cons_append, firstOccurrences, ih]
    by_cases hal : a ∈ l
    · rw [if_pos hal, if_pos (List.mem_cons_of_mem b hal), firstOccurrences]
    · rw [if_neg hal]
      by_cases hab : a = b
      · subst hab
        rw [if_pos (List.mem_cons_self a l), firstOccurrences, List.filter_append]
        simp
      · have hnot : ¬ a ∈ b :: l := by
          intro h
          rcases List.mem_cons.1 h with h | h
          · exact hab h
          · exact hal h
        rw [if_neg hnot, firstOccurrences, List.filter_append]
        simp [hab]

/-- In `firstOccurrences l` an element stands before another exactly as their
first occurrences stand in `l`. -/
theorem firstOccurrences_order (l : List ObjectId) :
    (firstOccurrences l).Pairwise (fun a b => l.indexOf a < l.indexOf b) := by
  induction l with
  | nil => simp [firstOccurrences]
  | cons a l ih =>
    rw [firstOccurrences, List.pairwise_cons]
    constructor
    · intro b hb
      have hba : b ≠ a := by
        have := (List.mem_filter.1 hb).2
        simpa using this
      rw [List.indexOf_cons_self, List.indexOf_cons_ne _ (Ne.symm hba)]
      exact Nat.succ_pos _
    · have hsub := ih.filter (fun b => decide (b ≠ a))
      refine hsub.imp_of_mem ?_
      intro x y hx hy hxy
      have hxa : x ≠ a := by simpa using (List.mem_filter.1 hx).2
      have hya : y ≠ a := by simpa using (List.mem_filter.1 hy).2
      rw [List.indexOf_cons_ne _ (Ne.symm hxa), List.indexOf_cons_ne _ (Ne.symm hya)]
      exact Nat.succ_lt_succ hxy

theorem mem_assignees_iff (cs : List ReportComplaint) (id : ObjectId) :
    id ∈ cs.filterMap ReportComplaint.assigneeId
      ↔ cs.filter (fun c => decide (c.assigneeId = some id)) ≠ [] := by
  rw [Ne, List.filter_eq_nil_iff, List.mem_filterMap]
  constructor
  · rintro ⟨c, hc, hid⟩ h
    exact h c hc (by simpa using hid)
  · intro h
    by_contra hno
    apply h
    intro c hc hdec
    exact hno ⟨c, hc, by simpa using hdec⟩

theorem performanceOf_snoc_other (cs : List ReportComplaint) (c : ReportComplaint)
    (id : ObjectId) (h : c.assigneeId ≠ some id) :
    performanceOf (cs ++ [c]) id = performanceOf cs id := by
  have hnil : [c].filter (fun c => decide (c.assigneeId = some id)) = [] := by
    simp [h]
  unfold performanceOf
  simp only [List.filter_append, hnil, List.append_nil]

theorem performanceOf_snoc_first (cs : List ReportComplaint) (c : ReportComplaint)
    (t : Technician) (hc : c.assignedTo = some t)
    (hnew : ¬ t._id ∈ cs.filterMap ReportComplaint.assigneeId) :
    performanceOf (cs ++ [c]) t._id =
      { name := t.name, phone := t.phone
        assigned := 0 + 1
        resolved := 0 + (if c.doc.status = .resolved then 1 else 0)
        inProgress := 0 + (if c.doc.status = .inProgress then 1 else 0) } := by
  have hmine : cs.filter (fun c => decide (c.assigneeId = some t._id)) = [] := by
    by_contra hne
    exact hnew ((mem_assignees_iff cs t._id).2 hne)
  have hone : [c].filter (fun c => decide (c.assigneeId = some t._id)) = [c] := by
    simp [ReportComplaint.assigneeId, hc]
  unfold performanceOf
  simp only [List.filter_append, hmine, hone, List.nil_append]
  by_cases hr : c.doc.status = .resolved <;> by_cases hp : c.doc.status = .inProgress <;>
    simp [hc, hr, hp]

theorem performanceOf_snoc_again (cs : List ReportComplaint) (c : ReportComplaint)
    (t : Technician) (hc : c.assignedTo = some t)
    (hold : t._id ∈ cs.filterMap ReportComplaint.assigneeId) :
    performanceOf (cs ++ [c]) t._id =
      { performanceOf cs t._id with
        assigned := (performanceOf cs t._id).assigned + 1
        resolved := (performanceOf cs t._id).resolved
          + (if c.doc.status = .resolved then 1 else 0)
        inProgress := (performanceOf cs t._id).inProgress
          + (if c.doc.status = .inProgress then 1 else 0) } := by
  have hmine := (mem_assignees_iff cs t._id).1 hold
  have hone : [c].filter (fun c => decide (c.assigneeId = some t._id)) = [c] := by
    simp [ReportComplaint.assigneeId, hc]
  unfold performanceOf
  simp only [List.filter_append, hone]
  cases hm : cs.filter (fun c => decide (c.assigneeId = some t._id)) with
  | nil => exact absurd hm hmine
  | cons a rest =>
    by_cases hr : c.doc.status = .resolved <;> by_cases hp : c.doc.status = .inProgress <;>
      simp [hr, hp, List.filter_append]

theorem performanceStep_spec (cs : List ReportComplaint) (c : ReportComplaint) :
    performanceStep
        ((firstOccurrences (cs.filterMap ReportComplaint.assigneeId)).map
          (fun id => (id, performanceOf cs id))) c
      = (firstOccurrences ((cs ++ [c]).filterMap ReportComplaint.assigneeId)).map
          (fun id => (id, performanceOf (cs ++ [c]) id)) := by
  cases hc : c.assignedTo with
  | none =>
    have hid : c.assigneeId = none := by simp [ReportComplaint.assigneeId, hc]
    have hids : (cs ++ [c]).filterMap ReportComplaint.assigneeId
        = cs.filterMap ReportComplaint.assigneeId := by
      simp [List.filterMap_append, hid]
    rw [hids]
    unfold performanceStep
    rw [hc]
    apply List.map_congr_left
    intro id _
    rw [performanceOf_snoc_other cs c id (by simp [hid])]
  | some t =>
    have hid : c.assigneeId = some t._id := by simp [ReportComplaint.assigneeId, hc]
    have hids : (cs ++ [c]).filterMap ReportComplaint.assigneeId
        = cs.filterMap ReportComplaint.assigneeId ++ [t._id] := by
      simp [List.filterMap_append, hid]
    rw [hids, firstOccurrences_snoc]
    have hany : ((firstOccurrences (cs.filterMap ReportComplaint.assigneeId)).map
          (fun id => (id, performanceOf cs id))).any (fun e => decide (e.1 = t._id)) = true
        ↔ t._id ∈ cs.filterMap ReportComplaint.assigneeId := by
      rw [List.any_eq_true]
      constructor
      · rintro ⟨e, he, hk⟩
        rcases List.mem_map.1 he with ⟨id, hmem, rfl⟩
        have : id = t._id := by simpa using hk
        rw [← this]
        exact (mem_firstOccurrences _ _).1 hmem
      · intro h
        exact ⟨(t._id, performanceOf cs t._id),
          List.mem_map.2 ⟨t._id, (mem_firstOccurrences _ _).2 h, rfl⟩, by simp⟩
    unfold performanceStep
    rw [hc]
    by_cases hold : t._id ∈ cs.filterMap ReportComplaint.assigneeId
    · rw [if_pos hold]
      simp only [if_pos (hany.2 hold)]
      rw [List.map_map]
      apply List.map_congr_left
      intro id _
      by_cases hk : id = t._id
      · subst hk
        simp only [Function.comp, if_true]
        rw [performanceOf_snoc_again cs c t hc hold]
      · simp only [Function.comp, if_neg hk]
        rw [performanceOf_snoc_other cs c id (by simp [hid, Ne.symm hk])]
    · rw [if_neg hold]
      have hfalse : ¬ ((firstOccurrences (cs.filterMap ReportComplaint.assigneeId)).map
          (fun id => (id, performanceOf cs id))).any (fun e => decide (e.1 = t._id)) = true :=
        fun h => hold (hany.1 h)
      simp only [if_neg hfalse]
      rw [List.map_append, List.map_append, List.map_map]
      congr 1
      · apply List.map_congr_left
        intro id hmem
        have hk : id ≠ t._id := by
          intro h
          exact hold ((mem_firstOccurrences _ _).1 (h ▸ hmem))
        simp only [Function.comp, if_neg hk]
        rw [performanceOf_snoc_other cs c id (by simp [hid, Ne.symm hk])]
      · simp only [List.map_cons, List.map_nil, if_true]
        rw [performanceOf_snoc_first cs c t hc hold]

theorem technicianPerformance_spec (cs : List ReportComplaint) :
    technicianPerformance cs
      = (firstOccurrences (cs.filterMap ReportComplaint.assigneeId)).map
          (fun id => (id, performanceOf cs id)) := by
  induction cs using List.reverseRecOn with
  | nil => rfl
  | append_singleton cs c ih =>
    unfold technicianPerformance at ih ⊢
    rw [List.foldl_append, List.foldl_cons, List.foldl_nil, ih]
    exact performanceStep_spec cs c

/-- C24: for every list of populated complaints, `technicianPerformance` in
the monthly report has one entry for each distinct assignee of the list and
no other, in the order of the assignees' first occurrences; the entry of an
assignee carries the number of that assignee's complaints as `assigned`, the
number of them with status resolved as `resolved` and the number with status
in-progress as `inProgress`.  A complaint whose `assignedTo` is unset, or
populates to nothing, is counted in no entry. -/
theorem technicianPerformance_per_assignee (month year : Nat) (w : MonthWindow)
    (complaints : List ReportComplaint) (prev : Nat) :
    (buildReport month year w complaints prev).technicianPerformance
      = (firstOccurrences (complaints.filterMap ReportComplaint.assigneeId)).map
          (performanceOf complaints) ∧
    (firstOccurrences (complaints.filterMap ReportComplaint.assigneeId)).Nodup ∧
    (∀ id : ObjectId,
      id ∈ firstOccurrences (complaints.filterMap ReportComplaint.assigneeId)
        ↔ ∃ c ∈ complaints, ∃ t : Technician, c.assignedTo = some t ∧ t._id = id) ∧
    (firstOccurrences (complaints.filterMap ReportComplaint.assigneeId)).Pairwise
      (fun a b => (complaints.filterMap ReportComplaint.assigneeId).indexOf a
        < (complaints.filterMap ReportComplaint.assigneeId).indexOf b) ∧
    (∀ id : ObjectId,
      (performanceOf complaints id).assigned
        = (complaints.filter (fun c => decide (c.assigneeId = some id))).length ∧
      (performanceOf complaints id).resolved
        = (complaints.filter (fun c =>
            decide (c.assigneeId = some id) && decide (c.doc.status = .resolved))).length ∧
      (performanceOf complaints id).inProgress
        = (complaints.filter (fun c =>
            decide (c.assigneeId = some id) && decide (c.doc.status = .inProgress))).length) := by
  refine ⟨?_, nodup_firstOccurrences _, ?_, firstOccurrences_order _, ?_⟩
  · show (technicianPerformance complaints).map (fun e => e.2) = _
    rw [technicianPerformance_spec, List.map_map]
    rfl
  · intro id
    rw [mem_firstOccurrences, List.mem_filterMap]
    constructor
    · rintro ⟨c, hc, hid⟩
      cases ht : c.assignedTo with
      | none => simp [ReportComplaint.assigneeId, ht] at hid
      | some t =>
        refine ⟨c, hc, t, ht, ?_⟩
        simpa [ReportComplaint.assigneeId, ht] using hid
    · rintro ⟨c, hc, t, ht, hid⟩
      exact ⟨c, hc, by simp [ReportComplaint.assigneeId, ht, hid]⟩
  · intro id
    refine ⟨rfl, ?_, ?_⟩
    · show ((complaints.filter _).filter _).length = _
      rw [List.filter_filter]
      congr 1
      apply List.filter_congr
      intro c _
      exact Bool.and_comm _ _
    · show ((complaints.filter _).filter _).length = _
      rw [List.filter_filter]
      congr 1
      apply List.filter_congr
      intro c _
      exact Bool.and_comm _ _

/-- The loop of `getMonthlyReport` on `mixedAssignees`: technician 2 comes
first with two complaints, one in progress, then technician 1 with one
resolved complaint. -/
theorem technicianPerformance_mixedAssignees :
    (technicianPerformance mixedAssignees).map
        (fun e => (e.1, e.2.assigned, e.2.resolved, e.2.inProgress))
      = [(2, 2, 0, 1), (1, 1, 1, 0)] := by
  decide

end GraminSeva
